import Mathlib

/-!
SECU-3 choke / IAC position controller (sources/choke.c).

A shallow embedding of `choke.c` and a verification of its position tracker
and mode state machine.

Conventions of the embedding.

* The firmware targets AVR ATmega644/1284 (see `port/port.h`): `int` is 16 bits
  wide.  Machine integers are values of `Int` that are brought back into the
  range of their C type by an explicit reduction (`u8`, `u16`, `i16`, `i32`, `u32`)
  wherever the C code stores or converts them; signed overflow wraps, as it
  does on the target.
* The module-level singleton `chks` and the ECU data `*d` are threaded
  explicitly: every function takes the values before the call and returns the
  values after it.
* The stepper driver, the power relay and the I/O configuration are not part
  of `choke.c`.  What they report during one call is an input (`extern_t`);
  what the controller asks of the driver is returned as the list of commands
  issued, in program order.
* The translation unit is configured with `SM_CONTROL` defined; `FUEL_INJECT`
  and `SPEED_SENSOR` are the fields of `build_t`.
-/

namespace Secu3

/-! ## Machine integers -/

/-- Conversion to `uint8_t`. -/
def u8 (x : Int) : Int := x % 256

/-- Conversion to `uint16_t`. -/
def u16 (x : Int) : Int := x % 65536

/-- Conversion to `int16_t` (two's complement wrap). -/
def i16 (x : Int) : Int := (x + 32768) % 65536 - 32768

/-- Conversion to `int32_t` (two's complement wrap). -/
def i32 (x : Int) : Int := (x + 2147483648) % 4294967296 - 2147483648

/-- Conversion to `uint32_t`. -/
def u32 (x : Int) : Int := x % 4294967296

/-- The library function `abs` on a 16-bit `int`; the result is an `int`. -/
def abs16 (x : Int) : Int := if x < 0 then i16 (-x) else x

/-- The value of `v & 0x8000` for a 16-bit `v`: bit 15 of `v`, in place. -/
def and_0x8000 (v : Int) : Int := u16 v / 32768 % 2 * 32768

/-! ## Compile-time configuration -/

/-- Compile-time options of the translation unit (`SM_CONTROL` is defined). -/
structure build_t where
  FUEL_INJECT : Bool
  SPEED_SENSOR : Bool
deriving DecidableEq, Repr

/-! ## Constants and macros of headers that are not part of the sources -/

/-- Modelled from the spec: `SETBIT(x, y)` of the absent `bitmask.h`, which
raises bit `y` of the flag byte `x` (`x |= 1 << y`). -/
def SETBIT (x y : Nat) : Nat := x ||| 2 ^ y

/-- Modelled from the spec: `CLEARBIT(x, y)` of the absent `bitmask.h`, which
clears bit `y` of the flag byte `x` (`x &= ~(1 << y)`). -/
def CLEARBIT (x y : Nat) : Nat := x &&& (255 - 2 ^ y)

/-- Modelled from the spec: `CHECKBIT(x, y)` of the absent `bitmask.h`, which
tests bit `y` of the flag byte `x` (`x & (1 << y)`, used as a truth value). -/
def CHECKBIT (x y : Nat) : Bool := x.testBit y

/-- Modelled from the spec: direction constant of the absent `smcontrol.h`;
the opening direction, also used to seek the initial position. -/
def SM_DIR_CW : Int := 0

/-- Modelled from the spec: direction constant of the absent `smcontrol.h`;
the closing direction. -/
def SM_DIR_CCW : Int := 1

/-- Modelled from the spec: bit of `param.choke_flags` declared in the absent
`tables.h` (no startup closing when the fuel is gas). -/
def CKF_OFFSTRTADDONGAS : Nat := 0

/-- Modelled from the spec: bit of `param.choke_flags` declared in the absent
`tables.h` (no RPM regulation when the fuel is gas). -/
def CKF_OFFRPMREGONGAS : Nat := 1

/-- Modelled from the spec: bit of `param.choke_flags` declared in the absent
`tables.h` (use the throttle limit switch when seeking the initial position). -/
def CKF_USETHROTTLEPOS : Nat := 2

/-- Modelled from the spec: bit of `param.idl_flags` declared in the absent
`tables.h` (closed-loop IAC regulation is configured). -/
def IRF_USE_INJREG : Nat := 2

/-- Modelled from the spec: engine mode "idle" of the absent `eculogic.h`. -/
def EM_IDLE : Int := 1

/-- Modelled from the spec: `TEMPERATURE_MAGNITUDE(t)` of the absent
`magnitude.h`, the fixed-point representation of `t` degrees (coolant
temperature is a signed fixed-point number scaled by 10). -/
def TEMPERATURE_MAGNITUDE (t : Int) : Int := t * 10

/-- Modelled from the spec: `restrict_value_to` is defined in a file that is
not part of the sources; it clamps an `int16_t` in place between two `int16_t`
limits, first against the top limit and then against the bottom limit. -/
def restrict_value_to (v bottom top : Int) : Int :=
  let v1 := if v > top then top else v
  if v1 < bottom then bottom else v1

/-! ## choke.c: constants -/

/-- `INIT_POS_DIR`: direction used to set the choke to the initial position. -/
def INIT_POS_DIR : Int := SM_DIR_CW

/-- `RPMREG_CORR_TIME`: RPM regulator call period (both builds). -/
def RPMREG_CORR_TIME : Int := 10

/-- `RPMREG_ENEX_TIME` (carburetor build). -/
def RPMREG_ENEX_TIME : Int := 10 * 100

/-- `RPMREG_ENTO_TIME` (carburetor build, `USE_RPMREG_TURNON_DELAY`). -/
def RPMREG_ENTO_TIME : Int := 3 * 100

/-- `CF_POWERDOWN`: power-down flag. -/
def CF_POWERDOWN : Nat := 0

/-- `CF_MAN_CNTR`: manual control mode flag. -/
def CF_MAN_CNTR : Nat := 1

/-- `CF_RPMREG_ENEX` (carburetor build): exit from RPM regulation is allowed. -/
def CF_RPMREG_ENEX : Nat := 2

/-- `CF_SMDIR_CHG`: the stepper direction has changed during motion.  Bit 2 in
the injection build, bit 3 in the carburetor build. -/
def CF_SMDIR_CHG (b : build_t) : Nat := if b.FUEL_INJECT then 2 else 3

/-- `CF_PRMREG_ENTO` (carburetor build): the regulator turn-on delay elapsed. -/
def CF_PRMREG_ENTO : Nat := 4

/-- `CF_CL_LOOP` (injection build): IAC closed loop flag. -/
def CF_CL_LOOP : Nat := 3

/-! ## Data -/

/-- `choke_st_t`: the state variables `chks`.  The record carries the fields of
both build variants. -/
structure choke_st_t where
  state : Int            -- uint8_t
  smpos : Int            -- uint16_t
  prev_temp : Int        -- int16_t
  cur_dir : Int          -- uint8_t
  smpos_prev : Int       -- int16_t
  strt_mode : Int        -- uint8_t
  strt_t1 : Int          -- uint16_t
  flags : Nat            -- uint8_t
  rpmreg_t1 : Int        -- uint16_t
  rpmreg_prev : Int      -- int16_t, carburetor build
  rpmval_prev : Int      -- uint16_t, carburetor build
  prev_rpm_error : Int   -- int16_t, injection build
  iac_pos : Int          -- int16_t, injection build
deriving DecidableEq, Repr

/-- The fields of `params_t` that `choke.c` reads.  The structure is declared
in the absent `tables.h`; `sm_steps` is an unsigned 16-bit step count, the
temperatures are signed 16-bit, the flag fields are bytes. -/
structure params_t where
  sm_steps : Int
  choke_flags : Nat
  tmp_use : Int
  choke_rpm0 : Int           -- choke_rpm[0]
  choke_corr_time : Int
  choke_corr_temp : Int
  choke_startup_corr : Int
  idlreg_turn_on_temp : Int
  idl_flags : Nat
  inj_cranktorun_time : Int
  rpm_on_run_add : Int
  idl_coef_thrd1 : Int
  idl_coef_thrd2 : Int
  idl_to_run_add : Int
  idl_map_value : Int
  idl_intrpm_lim : Int
  idl_reg_p : Int
  idl_reg_i : Int
deriving DecidableEq, Repr

/-- The fields of `sensors_t` (ecudata.h) that `choke.c` reads. -/
structure sensors_t where
  temperat : Int   -- int16_t
  frequen : Int    -- uint16_t
  inst_frq : Int   -- uint16_t
  carb : Int       -- uint8_t
  gas : Int        -- uint8_t
  speed : Int      -- uint16_t
deriving DecidableEq, Repr

/-- The fields of `ecudata_t` (ecudata.h) that `choke.c` reads or writes. -/
structure ecudata_t where
  param : params_t
  sens : sensors_t
  st_block : Int         -- uint8_t
  choke_pos : Int        -- uint8_t
  engine_mode : Int      -- uint8_t
  choke_testing : Int    -- uint8_t
  choke_manpos_d : Int   -- int8_t
  choke_rpm_reg : Int    -- uint8_t
deriving DecidableEq, Repr

/-- What the collaborators outside `choke.c` report during one call: the
stepper driver, the power relay, the I/O configuration, the system timer and
the lookup functions of `funconv.c`.  The lookup functions that take a pointer
to a state variable return the new value of that variable as second
component. -/
structure extern_t where
  stpmot_is_busy : Bool
  stpmot_stpcnt : Int                                    -- uint16_t
  pwrrelay_get_state : Bool
  IOP_SM_STP : Bool
  IOP_PWRRELAY : Bool
  IOP_IAC_PWM : Bool
  IOP_SPDSENS : Bool
  s_timer_gtc : Int                                      -- uint16_t
  choke_closing_lookup : ecudata_t → Int → Int × Int     -- uint8_t
  choke_rpm_regulator : ecudata_t → Int → Int × Int      -- int16_t
  inj_iac_pos_lookup : ecudata_t → Int → Int → Int × Int -- uint8_t
  inj_idling_rpm : ecudata_t → Int                       -- uint16_t
  inj_idlreg_rigidity : ecudata_t → Int → Int → Int      -- uint16_t

/-- A command issued to an actuator driver. -/
inductive cmd_t where
  | stpmot_dir (dir : Int)
  | stpmot_run (steps : Int)
  | vent_set_duty8 (duty : Int)
deriving DecidableEq, Repr

/-! ## choke.c: position tracker -/

/-- `initial_pos`: set the choke to the initial position.  Returns the commands
issued. -/
def initial_pos (d : ecudata_t) (dir : Int) : List cmd_t :=
  [cmd_t.stpmot_dir dir,
   if d.sens.carb = 0 ∧ CHECKBIT d.param.choke_flags CKF_USETHROTTLEPOS = true then
     cmd_t.stpmot_run (d.param.sm_steps / 4)
   else
     cmd_t.stpmot_run (u16 (d.param.sm_steps + d.param.sm_steps / 32))]

/-- First block of `sm_motion_control` (lines 274-281): when the direction
change flag is set and the stepper has come to rest, recompute the position
from the start position and the steps counted, and clear the flag. -/
def sm_dir_chg_resolve (b : build_t) (x : extern_t) (c : choke_st_t) : choke_st_t :=
  if CHECKBIT c.flags (CF_SMDIR_CHG b) then
    if !x.stpmot_is_busy then
      { c with
        smpos := u16 (c.smpos_prev +
          (if c.cur_dir = SM_DIR_CW then u16 (-x.stpmot_stpcnt) else x.stpmot_stpcnt)),
        flags := CLEARBIT c.flags (CF_SMDIR_CHG b) }
    else c
  else c

/-- `sm_motion_control`: stepper motor control for the normal working mode.
`pos` is the calculated target position (`int16_t`).  Returns the state after
the call and the commands issued. -/
def sm_motion_control (b : build_t) (x : extern_t) (d : ecudata_t) (c : choke_st_t)
    (pos : Int) : choke_st_t × List cmd_t :=
  let pos := restrict_value_to pos 0 (i16 d.param.sm_steps)
  let c1 := sm_dir_chg_resolve b x c
  if !CHECKBIT c1.flags (CF_SMDIR_CHG b) then
    let diff := i16 (pos - c1.smpos)
    if !x.stpmot_is_busy then
      if diff ≠ 0 then
        let dir := if diff < 0 then SM_DIR_CW else SM_DIR_CCW
        ({ c1 with cur_dir := dir, smpos_prev := i16 c1.smpos, smpos := u16 pos },
         [cmd_t.stpmot_dir dir, cmd_t.stpmot_run (u16 (abs16 diff))])
      else (c1, [])
    else
      if and_0x8000 (c1.smpos - c1.smpos_prev) ≠ and_0x8000 (pos - c1.smpos_prev) then
        ({ c1 with flags := SETBIT c1.flags (CF_SMDIR_CHG b) }, [cmd_t.stpmot_run 0])
      else (c1, [])
  else (c1, [])

/-! ## choke.c: initialisation and position percentage -/

/-- `choke_init`.  The call of `stpmot_init()` resets the driver and leaves
`chks` alone. -/
def choke_init (b : build_t) (c : choke_st_t) : choke_st_t :=
  let c1 := { c with state := 0, strt_mode := 0 }
  let c2 := { c1 with flags := CLEARBIT (CLEARBIT c1.flags CF_POWERDOWN) CF_MAN_CNTR }
  if b.FUEL_INJECT then
    { c2 with flags := CLEARBIT c2.flags CF_CL_LOOP, prev_rpm_error := 0, iac_pos := 0 }
  else
    { c2 with rpmreg_prev := 0, flags := CLEARBIT c2.flags CF_RPMREG_ENEX }

/-- `calc_percent_pos`: choke position (% * 2) from a step value.  The division
is unsigned 32-bit; the result is returned as `uint8_t`.  Dividing by zero has
no defined result. -/
def calc_percent_pos (value steps : Int) : Option Int :=
  if steps = 0 then none else some (u8 (u32 (value * 200) / steps))

/-! ## choke.c: startup correction (carburetor build) -/

/-- `is_rpmreg_allowed`: false when the fuel is gas and the flag tells to turn
the RPM regulator off on gas. -/
def is_rpmreg_allowed (d : ecudata_t) : Bool :=
  !(decide (d.sens.gas ≠ 0) && CHECKBIT d.param.choke_flags CKF_OFFRPMREGONGAS)

/-- The code of `calc_startup_corr` after the `switch` (lines 241-247): the
open-loop startup correction, returned as `int16_t`. -/
def startup_corr_fallback (d : ecudata_t) : Int :=
  if d.sens.temperat > d.param.choke_corr_temp ∨
      (d.sens.gas ≠ 0 ∧ CHECKBIT d.param.choke_flags CKF_OFFSTRTADDONGAS = true) then 0
  else if d.sens.temperat < TEMPERATURE_MAGNITUDE 0 then i16 d.param.sm_steps
  else i16 ((i32 (d.param.sm_steps * d.param.choke_startup_corr)).tdiv 200)

/-- Lines 206-210 of `calc_startup_corr`: raise the exit-allowed flag and the
turn-on-delay flag once their times, counted from `strt_t1`, have elapsed. -/
def rpmreg_set_flags (tmr : Int) (c : choke_st_t) : choke_st_t :=
  let c1 := if u16 (tmr - c.strt_t1) ≥ RPMREG_ENEX_TIME then
              { c with flags := SETBIT c.flags CF_RPMREG_ENEX } else c
  if u16 (tmr - c1.strt_t1) ≥ RPMREG_ENTO_TIME then
    { c1 with flags := SETBIT c1.flags CF_PRMREG_ENTO } else c1

/-- Lines 211-213 of `calc_startup_corr`: call the RPM regulator once the
turn-on delay has elapsed; `rpm_corr` keeps its initial value 0 otherwise. -/
def rpmreg_call (x : extern_t) (d : ecudata_t) (c : choke_st_t) : Int × choke_st_t :=
  if CHECKBIT c.flags CF_PRMREG_ENTO then
    (i16 (x.choke_rpm_regulator d c.rpmreg_prev).1,
     { c with rpmreg_prev := i16 (x.choke_rpm_regulator d c.rpmreg_prev).2 })
  else (0, c)

/-- Lines 214-223 of `calc_startup_corr`: leave the RPM regulation mode when the
engine is warm or on a fast rise of the RPM, else remember the RPM. -/
def rpmreg_exit_check (d : ecudata_t) (rc : Int × choke_st_t) :
    Int × choke_st_t × ecudata_t :=
  if d.sens.temperat ≥ d.param.idlreg_turn_on_temp ∨
      (CHECKBIT rc.2.flags CF_RPMREG_ENEX = true ∧ d.sens.frequen > 1000 ∧
        i16 (i16 d.sens.frequen - i16 rc.2.rpmval_prev) > 180) then
    (0, { rc.2 with strt_mode := 3 }, { d with choke_rpm_reg := 0 })
  else
    (rc.1, { rc.2 with rpmval_prev := d.sens.frequen }, d)

/-- Lines 229-233 of `calc_startup_corr`: no regulation when the fuel type
forbids it. -/
def rpmreg_gas_off (r : Int × choke_st_t × ecudata_t) : Int × choke_st_t × ecudata_t :=
  if !is_rpmreg_allowed r.2.2 then (0, r.2.1, { r.2.2 with choke_rpm_reg := 0 }) else r

/-- The body of `case 2` of `calc_startup_corr` (lines 200-233), up to the
point where control falls through into `case 3`.  Returns `rpm_corr` and the
updated `chks` and `*d`. -/
def startup_rpm_regulation (x : extern_t) (d : ecudata_t) (c : choke_st_t) :
    Int × choke_st_t × ecudata_t :=
  rpmreg_gas_off
    (if u16 (u16 x.s_timer_gtc - c.rpmreg_t1) ≥ RPMREG_CORR_TIME then
      rpmreg_exit_check d
        (rpmreg_call x d
          (rpmreg_set_flags (u16 x.s_timer_gtc) { c with rpmreg_t1 := u16 x.s_timer_gtc }))
    else (c.rpmreg_prev, c, d))

/-- `calc_startup_corr`: choke position correction at startup and from the RPM
regulator.  `chokerpm_regulator_init()` resets state private to `funconv.c`
and leaves `chks` and `*d` alone.  Returns the correction (`int16_t`) and the
updated `chks` and `*d`. -/
def calc_startup_corr (x : extern_t) (d : ecudata_t) (c : choke_st_t) :
    Int × choke_st_t × ecudata_t :=
  if c.strt_mode = 0 then
    if d.st_block ≠ 0 then
      let c1 := { c with strt_t1 := u16 x.s_timer_gtc, strt_mode := 1 }
      let d1 := { d with choke_rpm_reg :=
                    if 0 ≠ d.param.choke_rpm0 ∧ is_rpmreg_allowed d = true then 1 else 0 }
      (startup_corr_fallback d1, c1, d1)
    else (startup_corr_fallback d, c, d)
  else if c.strt_mode = 1 then
    if u16 (u16 x.s_timer_gtc - c.strt_t1) ≥ d.param.choke_corr_time then
      let c1 := { c with
                  strt_mode := 2, rpmreg_prev := 0, rpmval_prev := d.sens.frequen,
                  strt_t1 := u16 x.s_timer_gtc, rpmreg_t1 := u16 x.s_timer_gtc,
                  flags := CLEARBIT (CLEARBIT c.flags CF_RPMREG_ENEX) CF_PRMREG_ENTO }
      (startup_corr_fallback d, c1, d)
    else (startup_corr_fallback d, c, d)
  else if c.strt_mode = 2 then
    let r := startup_rpm_regulation x d c
    (r.1, if r.2.2.st_block = 0 then { r.2.1 with strt_mode := 0 } else r.2.1, r.2.2)
  else if c.strt_mode = 3 then
    (0, if d.st_block = 0 then { c with strt_mode := 0 } else c, d)
  else (startup_corr_fallback d, c, d)

/-! ## choke.c: IAC position (injection build) -/

/-- The closed-loop branch of `case 2` of `calc_sm_position` once it is time to
call the regulator (lines 355-404). -/
def iac_closed_loop (b : build_t) (x : extern_t) (d : ecudata_t) (c : choke_st_t) :
    choke_st_t :=
  let c1 := { c with rpmreg_t1 := u16 x.s_timer_gtc }
  let rpm0 := i16 (x.inj_idling_rpm d)
  let rpm := if b.SPEED_SENSOR = true ∧ x.IOP_SPDSENS = true ∧ d.sens.speed < 65530 then
               i16 (rpm0 + i16 (d.param.rpm_on_run_add * 10)) else rpm0
  let rpm_thrd1 := u16 (u32 (u32 rpm * u16 (u16 d.param.idl_coef_thrd1 + 128)) / 128)
  let rpm_thrd2 := u16 (u32 (u32 rpm * u16 (u16 d.param.idl_coef_thrd2 + 128)) / 128)
  let c2 :=
    if CHECKBIT c1.flags CF_CL_LOOP = false ∧ d.engine_mode = EM_IDLE ∧
        d.sens.inst_frq < rpm_thrd1 then
      { c1 with flags := SETBIT c1.flags CF_CL_LOOP }
    else if CHECKBIT c1.flags CF_CL_LOOP = true ∧
        (d.engine_mode ≠ EM_IDLE ∨ d.sens.inst_frq > rpm_thrd2) then
      { c1 with
        iac_pos := i16 (c1.iac_pos + u16 (u16 d.param.idl_to_run_add * 4)),
        flags := CLEARBIT c1.flags CF_CL_LOOP }
    else c1
  if CHECKBIT c2.flags CF_CL_LOOP then
    let rigidity := u16 (x.inj_idlreg_rigidity d d.param.idl_map_value (u16 rpm))
    let intlim := i16 (d.param.idl_intrpm_lim * 10)
    let error := restrict_value_to (i16 (rpm - d.sens.frequen)) (i16 (-intlim)) intlim
    let derror := i16 (error - c2.prev_rpm_error)
    let c3 :=
      if d.sens.temperat ≥ d.param.idlreg_turn_on_temp ∨ d.sens.frequen ≥ u16 rpm then
        { c2 with iac_pos := i16 (c2.iac_pos +
            i32 (rigidity * i32 (i32 (derror * d.param.idl_reg_p) +
              i32 (error * d.param.idl_reg_i))) / 32768) }
      else if error > 0 ∧ derror > 0 then
        { c2 with iac_pos := i16 (c2.iac_pos +
            i32 (rigidity * i32 (derror * d.param.idl_reg_p)) / 32768) }
      else c2
    { c3 with prev_rpm_error := error, iac_pos := restrict_value_to c3.iac_pos 0 800 }
  else c2

/-- The body of `case 2` of `calc_sm_position` (run mode, lines 349-414),
injection build. -/
def iac_run_mode (b : build_t) (x : extern_t) (d : ecudata_t) (c : choke_st_t) :
    choke_st_t :=
  if CHECKBIT d.param.idl_flags IRF_USE_INJREG then
    if u16 (u16 x.s_timer_gtc - c.rpmreg_t1) < RPMREG_CORR_TIME then c
    else
      let c1 := iac_closed_loop b x d c
      if d.st_block = 0 then { c1 with strt_mode := 0 } else c1
  else
    let r := x.inj_iac_pos_lookup d c.prev_temp 1
    let c1 := { c with prev_temp := i16 r.2, iac_pos := i16 (u16 (u8 r.1 * 4)) }
    if d.st_block = 0 then { c1 with strt_mode := 0 } else c1

/-- The `switch` of `calc_sm_position` in the injection build (lines 319-415):
the update of `chks`. -/
def iac_position_update (b : build_t) (x : extern_t) (d : ecudata_t) (c : choke_st_t) :
    choke_st_t :=
  if c.strt_mode = 0 then
    let r := x.inj_iac_pos_lookup d c.prev_temp 0
    let c1 := { c with prev_temp := i16 r.2, iac_pos := i16 (u16 (u8 r.1 * 4)) }
    if d.st_block ≠ 0 then
      { c1 with
        flags := CLEARBIT c1.flags CF_CL_LOOP,
        strt_t1 := u16 x.s_timer_gtc,
        strt_mode := if CHECKBIT d.param.idl_flags IRF_USE_INJREG then 2 else 1,
        rpmreg_t1 := u16 x.s_timer_gtc }
    else c1
  else if c.strt_mode = 1 then
    let time_since_crnk := u16 (u16 x.s_timer_gtc - c.strt_t1)
    if time_since_crnk ≥ d.param.inj_cranktorun_time then
      iac_run_mode b x d { c with strt_mode := 2, rpmreg_t1 := u16 x.s_timer_gtc }
    else
      let r0 := x.inj_iac_pos_lookup d c.prev_temp 0
      let r1 := x.inj_iac_pos_lookup d (i16 r0.2) 1
      let crnk_ppos := u8 r0.1
      let run_ppos := u8 r1.1
      let run_ppos1 := i16 (run_ppos -
        (i32 (i32 (i16 (run_ppos - crnk_ppos) *
            u16 (d.param.inj_cranktorun_time - time_since_crnk)) * 128)).tdiv
          d.param.inj_cranktorun_time / 128)
      { c with
        prev_temp := i16 r1.2,
        iac_pos := i16 (restrict_value_to run_ppos1 0 (100 * 2) * 4) }
  else if c.strt_mode = 2 then iac_run_mode b x d c
  else c

/-! ## choke.c: the closed-loop regulator call, piece by piece (injection build) -/

/-- Lines 361-367 of `calc_sm_position`: the target idling RPM, with the
addition used when the vehicle runs (`SPEED_SENSOR` builds). -/
def iac_target_rpm (b : build_t) (x : extern_t) (d : ecudata_t) : Int :=
  if b.SPEED_SENSOR = true ∧ x.IOP_SPDSENS = true ∧ d.sens.speed < 65530 then
    i16 (i16 (x.inj_idling_rpm d) + i16 (d.param.rpm_on_run_add * 10))
  else i16 (x.inj_idling_rpm d)

/-- Lines 369-370 of `calc_sm_position`: a transition RPM threshold, the
variable `rpm_thrd1` or `rpm_thrd2` (`uint16_t`), from the target RPM and the
coefficient `idl_coef_thrd1` or `idl_coef_thrd2`. -/
def iac_rpm_thrd (rpm coef : Int) : Int :=
  u16 (u32 (u32 rpm * u16 (u16 coef + 128)) / 128)

/-- Lines 372-382 of `calc_sm_position`: entering and leaving the closed
loop. -/
def iac_hysteresis (d : ecudata_t) (rpm : Int) (c : choke_st_t) : choke_st_t :=
  if CHECKBIT c.flags CF_CL_LOOP = false ∧ d.engine_mode = EM_IDLE ∧
      d.sens.inst_frq < iac_rpm_thrd rpm d.param.idl_coef_thrd1 then
    { c with flags := SETBIT c.flags CF_CL_LOOP }
  else if CHECKBIT c.flags CF_CL_LOOP = true ∧
      (d.engine_mode ≠ EM_IDLE ∨ d.sens.inst_frq > iac_rpm_thrd rpm d.param.idl_coef_thrd2) then
    { c with
      iac_pos := i16 (c.iac_pos + u16 (u16 d.param.idl_to_run_add * 4)),
      flags := CLEARBIT c.flags CF_CL_LOOP }
  else c

/-- Lines 388-389 of `calc_sm_position`: the RPM error, limited to plus or
minus `idl_intrpm_lim * 10`. -/
def iac_error (d : ecudata_t) (rpm : Int) : Int :=
  restrict_value_to (i16 (rpm - d.sens.frequen))
    (i16 (-(i16 (d.param.idl_intrpm_lim * 10)))) (i16 (d.param.idl_intrpm_lim * 10))

/-- The value added to `iac_pos` at line 394 (hot engine, or RPM at or above
the target): rigidity times the proportional-differential plus integral
terms, products in `int32_t`, shifted right by 15. -/
def iac_pi_increment (rigidity derror error kp ki : Int) : Int :=
  i32 (rigidity * i32 (i32 (derror * kp) + i32 (error * ki))) / 32768

/-- The value added to `iac_pos` at line 399 (cold engine, both errors
positive): rigidity times the proportional-differential term only. -/
def iac_pd_increment (rigidity derror kp : Int) : Int :=
  i32 (rigidity * i32 (derror * kp)) / 32768

/-- Lines 385-404 of `calc_sm_position`: the regulator update made while the
closed loop is active. -/
def iac_regulator (x : extern_t) (d : ecudata_t) (rpm : Int) (c : choke_st_t) :
    choke_st_t :=
  if CHECKBIT c.flags CF_CL_LOOP then
    { c with
      prev_rpm_error := iac_error d rpm,
      iac_pos := restrict_value_to
        (if d.sens.temperat ≥ d.param.idlreg_turn_on_temp ∨ d.sens.frequen ≥ u16 rpm then
           i16 (c.iac_pos +
             iac_pi_increment (u16 (x.inj_idlreg_rigidity d d.param.idl_map_value (u16 rpm)))
               (i16 (iac_error d rpm - c.prev_rpm_error)) (iac_error d rpm)
               d.param.idl_reg_p d.param.idl_reg_i)
         else if iac_error d rpm > 0 ∧ i16 (iac_error d rpm - c.prev_rpm_error) > 0 then
           i16 (c.iac_pos +
             iac_pd_increment (u16 (x.inj_idlreg_rigidity d d.param.idl_map_value (u16 rpm)))
               (i16 (iac_error d rpm - c.prev_rpm_error)) d.param.idl_reg_p)
         else c.iac_pos) 0 800 }
  else c

/-- Line 387 of `calc_sm_position`: the regulator's rigidity (`uint16_t`). -/
def iac_rigidity (x : extern_t) (d : ecudata_t) (rpm : Int) : Int :=
  u16 (x.inj_idlreg_rigidity d d.param.idl_map_value (u16 rpm))

/-- Line 390 of `calc_sm_position`: the change of the RPM error since the last
regulator update. -/
def iac_derror (d : ecudata_t) (rpm : Int) (c : choke_st_t) : Int :=
  i16 (iac_error d rpm - c.prev_rpm_error)

/-- Lines 392-400 of `calc_sm_position`: the value that a regulator update
adds to `iac_pos` before the restriction to 0..800. -/
def iac_increment (x : extern_t) (d : ecudata_t) (rpm : Int) (c : choke_st_t) : Int :=
  if d.sens.temperat ≥ d.param.idlreg_turn_on_temp ∨ d.sens.frequen ≥ u16 rpm then
    iac_pi_increment (iac_rigidity x d rpm) (iac_derror d rpm c) (iac_error d rpm)
      d.param.idl_reg_p d.param.idl_reg_i
  else if iac_error d rpm > 0 ∧ iac_derror d rpm c > 0 then
    iac_pd_increment (iac_rigidity x d rpm) (iac_derror d rpm c) d.param.idl_reg_p
  else 0

/-! ## choke.c: target position -/

/-- `calc_sm_position`: stepper position (or PWM duty when `pwm` is nonzero)
for the normal mode.  In the carburetor build the two operands of the sum are
evaluated left to right.  Returns the position (`int16_t`) and the updated
`chks` and `*d`. -/
def calc_sm_position (b : build_t) (x : extern_t) (d : ecudata_t) (c : choke_st_t)
    (pwm : Int) : Int × choke_st_t × ecudata_t :=
  if b.FUEL_INJECT then
    let c1 := iac_position_update b x d c
    if pwm ≠ 0 then (i16 ((i32 (256 * c1.iac_pos)).tdiv 800), c1, d)
    else (i16 ((i32 (d.param.sm_steps * c1.iac_pos)).tdiv 800), c1, d)
  else
    if d.param.tmp_use ≠ 0 then
      let r := x.choke_closing_lookup d c.prev_temp
      let c1 := { c with prev_temp := i16 r.2 }
      let s := calc_startup_corr x d c1
      (i16 ((i32 (d.param.sm_steps * u8 r.1)).tdiv 200 + s.1), s.2.1, s.2.2)
    else (0, c, d)

/-! ## choke.c: mode state machine -/

/-- The code at label `check_pwr` (lines 532-538). -/
def check_pwr (x : extern_t) (c : choke_st_t) : choke_st_t :=
  if !x.pwrrelay_get_state then
    { c with flags := SETBIT c.flags CF_POWERDOWN, state := 1 }
  else c

/-- The code at label `check_tst` (lines 529-538), which runs on into
`check_pwr`. -/
def check_tst (x : extern_t) (d : ecudata_t) (c : choke_st_t) : choke_st_t :=
  check_pwr x (if d.choke_testing = 0 then { c with state := 1 } else c)

/-- The `case 5` branch of `choke_control` without a test request (lines
488-503): target selection, manual control, and the tracker call. -/
def normal_mode_motion (b : build_t) (x : extern_t) (d : ecudata_t) (c : choke_st_t) :
    choke_st_t × ecudata_t × List cmd_t :=
  if !CHECKBIT c.flags CF_MAN_CNTR then
    let r := calc_sm_position b x d c 0
    let c1 := if r.2.2.choke_manpos_d ≠ 0 then
                { r.2.1 with flags := SETBIT r.2.1.flags CF_MAN_CNTR } else r.2.1
    let m := sm_motion_control b x r.2.2 c1 r.1
    (m.1, r.2.2, m.2)
  else
    let pos := i16 (c.smpos + d.choke_manpos_d)
    let d1 := { d with choke_manpos_d := 0 }
    let m := sm_motion_control b x d1 c pos
    (m.1, d1, m.2)

/-- Lines 482-503 of `choke_control`: in the normal working mode, enter the
test on request, else move the stepper to the calculated position. -/
def normal_mode_branch (b : build_t) (x : extern_t) (d : ecudata_t) (c : choke_st_t) :
    choke_st_t × ecudata_t × List cmd_t :=
  if d.choke_testing ≠ 0 then ({ c with state := 6 }, d, initial_pos d INIT_POS_DIR)
  else normal_mode_motion b x d c

/-- The `case 5` of `choke_control` (lines 481-505 and, through `goto
check_pwr`, lines 532-538).  The result is `none` when `calc_percent_pos`
divides by zero. -/
def normal_mode (b : build_t) (x : extern_t) (d : ecudata_t) (c : choke_st_t) :
    Option (choke_st_t × ecudata_t × List cmd_t) :=
  match calc_percent_pos (normal_mode_branch b x d c).1.smpos
      (normal_mode_branch b x d c).2.1.param.sm_steps with
  | none => none
  | some p =>
    some (check_pwr x (normal_mode_branch b x d c).1,
          { (normal_mode_branch b x d c).2.1 with choke_pos := p },
          (normal_mode_branch b x d c).2.2)

/-- The `switch` of `choke_control` (lines 447-539), stepper control.  The
result is `none` when the call divides by zero. -/
def choke_control_sm (b : build_t) (x : extern_t) (d : ecudata_t) (c : choke_st_t) :
    Option (choke_st_t × ecudata_t × List cmd_t) :=
  if c.state = 0 then
    some ({ c with state := 2, prev_temp := d.sens.temperat }, d,
          if !x.IOP_PWRRELAY then initial_pos d INIT_POS_DIR else [])
  else if c.state = 1 then
    some ({ c with state := 2 }, d, initial_pos d INIT_POS_DIR)
  else if c.state = 2 then
    if !x.stpmot_is_busy then
      some ({ c with
              state := if CHECKBIT c.flags CF_POWERDOWN then 3 else 5,
              smpos := 0,
              flags := CLEARBIT c.flags (CF_SMDIR_CHG b) }, d, [])
    else some (c, d, [])
  else if c.state = 3 then
    if x.pwrrelay_get_state then
      some ({ c with flags := CLEARBIT c.flags CF_POWERDOWN, state := 5 }, d, [])
    else some (c, d, [])
  else if c.state = 5 then normal_mode b x d c
  else if c.state = 6 then
    if !x.stpmot_is_busy then
      some (check_tst x d { c with state := 7 }, { d with choke_pos := 0 },
            [cmd_t.stpmot_dir SM_DIR_CCW, cmd_t.stpmot_run d.param.sm_steps])
    else some (check_tst x d c, d, [])
  else if c.state = 7 then
    if !x.stpmot_is_busy then
      some (check_tst x d { c with state := 6 }, { d with choke_pos := 200 },
            [cmd_t.stpmot_dir SM_DIR_CW, cmd_t.stpmot_run d.param.sm_steps])
    else some (check_tst x d c, d, [])
  else some (check_tst x d c, d, [])

/-- `choke_control`: one tick of the controller.  Returns the updated `chks`
and `*d` and the commands issued, or `none` when the call divides by zero. -/
def choke_control (b : build_t) (x : extern_t) (d : ecudata_t) (c : choke_st_t) :
    Option (choke_st_t × ecudata_t × List cmd_t) :=
  if b.FUEL_INJECT = true ∧ x.IOP_IAC_PWM = true then
    let r := calc_sm_position b x d c 1
    let pos := if u16 r.1 > 255 then 255 else u16 r.1
    match calc_percent_pos pos 256 with
    | none => none
    | some p => some (r.2.1, { r.2.2 with choke_pos := p }, [cmd_t.vent_set_duty8 (u8 pos)])
  else if !x.IOP_SM_STP then some (c, d, [])
  else choke_control_sm b x d c

/-- The tick issues the one-shot seek-to-zero motion `initial_pos`: the stepper
branch is taken and the mode is 0 without power management configured, or 1,
or 5 with the test requested. -/
def seek_tick (b : build_t) (x : extern_t) (d : ecudata_t) (c : choke_st_t) : Prop :=
  x.IOP_SM_STP = true ∧ ¬ (b.FUEL_INJECT = true ∧ x.IOP_IAC_PWM = true) ∧
    ((c.state = 0 ∧ x.IOP_PWRRELAY = false) ∨ c.state = 1 ∨
      (c.state = 5 ∧ d.choke_testing ≠ 0))

/-- `choke_is_ready`. -/
def choke_is_ready (x : extern_t) (c : choke_st_t) : Bool :=
  (decide (c.state = 5) || decide (c.state = 3)) || !x.IOP_SM_STP

/-! ## Runs of the tracker and of the controller -/

/-- Successive calls of `sm_motion_control`, one per input (driver feedback,
ECU data, requested position); the list holds the commands of each call. -/
def sm_run (b : build_t) (c : choke_st_t) :
    List (extern_t × ecudata_t × Int) → List (List cmd_t)
  | [] => []
  | i :: rest =>
    (sm_motion_control b i.1 i.2.1 c i.2.2).2 ::
      sm_run b (sm_motion_control b i.1 i.2.1 c i.2.2).1 rest

/-- A command is a set-direction command. -/
def is_dir_command : cmd_t → Bool
  | cmd_t.stpmot_dir _ => true
  | _ => false

/-- A command is a run command (a stop included). -/
def is_run_command : cmd_t → Bool
  | cmd_t.stpmot_run _ => true
  | _ => false

/-- A command is a run command with a nonzero step count. -/
def is_motion_command : cmd_t → Bool
  | cmd_t.stpmot_run n => decide (n ≠ 0)
  | _ => false

/-- Two successive ticks of `choke_control`; the ECU data written by the first
tick is the ECU data read by the second. -/
def choke_control_twice (b : build_t) (x1 x2 : extern_t) (d : ecudata_t) (c : choke_st_t) :
    Option (choke_st_t × ecudata_t × List cmd_t) :=
  match choke_control b x1 d c with
  | none => none
  | some r => choke_control b x2 r.2.1 r.1

/-- Successive ticks of `choke_control`, one per driver feedback; the ECU data
written by a tick is the ECU data read by the next.  The list holds the result
of each tick; `none` when a tick divides by zero. -/
def choke_run (b : build_t) :
    choke_st_t → ecudata_t → List extern_t → Option (List (choke_st_t × ecudata_t × List cmd_t))
  | _, _, [] => some []
  | c, d, x :: xs =>
    match choke_control b x d c with
    | none => none
    | some r =>
      match choke_run b r.1 r.2.1 xs with
      | none => none
      | some rs => some (r :: rs)

/-- The test mode (6 or 7) in which tick number `k` of a test oscillation
starts, when tick number 0 starts in mode `s0`. -/
def test_mode_at (s0 : Int) (k : Nat) : Int := if k % 2 = 0 then s0 else 13 - s0

/-- Successive calls of `calc_startup_corr`, one per input (timer reading and
lookups, ECU data); the result is the state after the last call. -/
def startup_corr_run (c : choke_st_t) : List (extern_t × ecudata_t) → choke_st_t
  | [] => c
  | i :: rest => startup_corr_run (calc_startup_corr i.1 i.2 c).2.1 rest

/-! ## Example inputs -/

/-- An idle stepper, relay on, stepper output configured, constant lookups. -/
def ex_feedback : extern_t :=
  { stpmot_is_busy := false, stpmot_stpcnt := 0, pwrrelay_get_state := true,
    IOP_SM_STP := true, IOP_PWRRELAY := false, IOP_IAC_PWM := false, IOP_SPDSENS := false,
    s_timer_gtc := 0,
    choke_closing_lookup := fun _ t => (0, t),
    choke_rpm_regulator := fun _ p => (0, p),
    inj_iac_pos_lookup := fun _ t _ => (0, t),
    inj_idling_rpm := fun _ => 0,
    inj_idlreg_rigidity := fun _ _ _ => 0 }

/-- The feedback of `ex_feedback` with the stepper busy. -/
def ex_feedback_busy : extern_t := { ex_feedback with stpmot_is_busy := true }

/-- The feedback of `ex_feedback` with the power relay off. -/
def ex_feedback_off : extern_t := { ex_feedback with pwrrelay_get_state := false }

/-- Calibration with `sm_steps = 200`. -/
def ex_params : params_t :=
  { sm_steps := 200, choke_flags := 0, tmp_use := 0, choke_rpm0 := 0, choke_corr_time := 0,
    choke_corr_temp := 0, choke_startup_corr := 0, idlreg_turn_on_temp := 0, idl_flags := 0,
    inj_cranktorun_time := 0, rpm_on_run_add := 0, idl_coef_thrd1 := 0, idl_coef_thrd2 := 0,
    idl_to_run_add := 0, idl_map_value := 0, idl_intrpm_lim := 0, idl_reg_p := 0,
    idl_reg_i := 0 }

/-- ECU data with `sm_steps = 200`, no test request, no manual delta. -/
def ex_ecudata : ecudata_t :=
  { param := ex_params,
    sens := { temperat := 0, frequen := 0, inst_frq := 0, carb := 0, gas := 0, speed := 0 },
    st_block := 0, choke_pos := 0, engine_mode := 0, choke_testing := 0,
    choke_manpos_d := 0, choke_rpm_reg := 0 }

/-- The all-zero controller state (`choke_st_t chks = {0}`). -/
def ex_chks : choke_st_t :=
  { state := 0, smpos := 0, prev_temp := 0, cur_dir := 0, smpos_prev := 0, strt_mode := 0,
    strt_t1 := 0, flags := 0, rpmreg_t1 := 0, rpmreg_prev := 0, rpmval_prev := 0,
    prev_rpm_error := 0, iac_pos := 0 }

/-- A used controller state: normal mode, every flag set, a stored regulator
output. -/
def ex_chks_used : choke_st_t :=
  { ex_chks with state := 5, flags := 255, rpmreg_prev := 17 }

/-- The carburetor build. -/
def ex_build : build_t := { FUEL_INJECT := false, SPEED_SENSOR := false }

/-- The injection build. -/
def ex_build_inj : build_t := { FUEL_INJECT := true, SPEED_SENSOR := false }

/-- Feedback at timer reading 10 with a target idling RPM of 1000 and a
regulator rigidity of 1.0 (128). -/
def ex_feedback_idle : extern_t :=
  { ex_feedback with
    s_timer_gtc := 10, inj_idling_rpm := fun _ => 1000,
    inj_idlreg_rigidity := fun _ _ _ => 128 }

/-- Calibration with the closed-loop regulator enabled: entry below 1.2 and
exit above 1.4 times the target RPM, error limit 200 RPM, idle-to-run addition
of 50 (25 percent), regulator turn-on temperature 50.0 degrees. -/
def ex_params_idle : params_t :=
  { ex_params with
    idl_flags := 4, idl_coef_thrd1 := 26, idl_coef_thrd2 := 51, idl_intrpm_lim := 20,
    idl_to_run_add := 50, idl_reg_p := 256, idl_reg_i := 256, idlreg_turn_on_temp := 500 }

/-- A running, idling, cold engine (10.0 degrees) at 900 RPM. -/
def ex_ecudata_idle : ecudata_t :=
  { ex_ecudata with
    param := ex_params_idle, st_block := 1, engine_mode := EM_IDLE,
    sens := { ex_ecudata.sens with temperat := 100, frequen := 900, inst_frq := 900 } }

/-- Run mode with the closed loop active, the accumulator at 400 and the last
RPM error 100. -/
def ex_chks_loop : choke_st_t :=
  { ex_chks with strt_mode := 2, flags := 8, iac_pos := 400, prev_rpm_error := 100 }

/-- The engine of `ex_ecudata_idle` hot (60.0 degrees), at 900 RPM. -/
def ex_ecudata_hot : ecudata_t :=
  { ex_ecudata_idle with sens := { ex_ecudata_idle.sens with temperat := 600 } }

/-- The hot engine at 950 RPM, below the target 1000. -/
def ex_ecudata_below : ecudata_t :=
  { ex_ecudata_idle with
    sens := { ex_ecudata_idle.sens with temperat := 600, frequen := 950, inst_frq := 950 } }

/-- The hot engine at 1010 RPM, above the target 1000. -/
def ex_ecudata_above : ecudata_t :=
  { ex_ecudata_idle with
    sens := { ex_ecudata_idle.sens with temperat := 600, frequen := 1010, inst_frq := 1010 } }

/-- A hot engine at 450 RPM with strong regulator gains: error limit 550,
Kp 1000, Ki 0. -/
def ex_ecudata_gain : ecudata_t :=
  { ex_ecudata_idle with
    param := { ex_params_idle with idl_intrpm_lim := 55, idl_reg_p := 1000, idl_reg_i := 0 },
    sens := { ex_ecudata_idle.sens with temperat := 600, frequen := 450, inst_frq := 450 } }

/-! ## Flag byte and clamp lemmas -/

theorem restrict_value_to_eq_clamp (v top : Int) (h0 : 0 ≤ top) (h1 : top ≤ 32767) :
    restrict_value_to v 0 (i16 top) = max 0 (min v top) := by
  have ht : i16 top = top := by unfold i16; omega
  rw [ht]
  unfold restrict_value_to
  simp only []
  split_ifs <;> omega

theorem CHECKBIT_SETBIT (f i j : Nat) :
    CHECKBIT (SETBIT f i) j = (CHECKBIT f j || decide (i = j)) := by
  simp [CHECKBIT, SETBIT, Nat.testBit_or, Nat.testBit_two_pow]

theorem clear_mask_testBit :
    ∀ i : Fin 8, ∀ j : Fin 8, Nat.testBit (255 - 2 ^ i.val) j.val = decide (i ≠ j) := by
  decide

theorem CHECKBIT_CLEARBIT (f i j : Nat) (hi : i < 8) (hj : j < 8) :
    CHECKBIT (CLEARBIT f i) j = (CHECKBIT f j && decide (i ≠ j)) := by
  have h := clear_mask_testBit ⟨i, hi⟩ ⟨j, hj⟩
  simp only [] at h
  simp [CHECKBIT, CLEARBIT, Nat.testBit_and, h, Fin.ext_iff]

theorem CF_SMDIR_CHG_cases (b : build_t) : CF_SMDIR_CHG b = 2 ∨ CF_SMDIR_CHG b = 3 := by
  unfold CF_SMDIR_CHG; split_ifs <;> simp

theorem CF_SMDIR_CHG_lt (b : build_t) : CF_SMDIR_CHG b < 8 := by
  rcases CF_SMDIR_CHG_cases b with h | h <;> omega

theorem CHECKBIT_CLEARBIT_SMDIR_CHG (b : build_t) (f : Nat) :
    CHECKBIT (CLEARBIT f (CF_SMDIR_CHG b)) (CF_SMDIR_CHG b) = false := by
  rw [CHECKBIT_CLEARBIT f _ _ (CF_SMDIR_CHG_lt b) (CF_SMDIR_CHG_lt b)]
  simp

theorem CHECKBIT_SETBIT_SMDIR_CHG (b : build_t) (f : Nat) :
    CHECKBIT (SETBIT f (CF_SMDIR_CHG b)) (CF_SMDIR_CHG b) = true := by
  rw [CHECKBIT_SETBIT]; simp

/-! ## The position tracker -/

theorem sm_dir_chg_resolve_clear (b : build_t) (x : extern_t) (c : choke_st_t)
    (hflag : CHECKBIT c.flags (CF_SMDIR_CHG b) = false) :
    sm_dir_chg_resolve b x c = c := by
  simp [sm_dir_chg_resolve, hflag]

theorem sm_dir_chg_resolve_busy (b : build_t) (x : extern_t) (c : choke_st_t)
    (hbusy : x.stpmot_is_busy = true) :
    sm_dir_chg_resolve b x c = c := by
  simp [sm_dir_chg_resolve, hbusy]

theorem sm_dir_chg_resolve_idle (b : build_t) (x : extern_t) (c : choke_st_t)
    (hflag : CHECKBIT c.flags (CF_SMDIR_CHG b) = true) (hidle : x.stpmot_is_busy = false) :
    sm_dir_chg_resolve b x c =
      { c with
        smpos := u16 (c.smpos_prev +
          (if c.cur_dir = SM_DIR_CW then u16 (-x.stpmot_stpcnt) else x.stpmot_stpcnt)),
        flags := CLEARBIT c.flags (CF_SMDIR_CHG b) } := by
  simp [sm_dir_chg_resolve, hflag, hidle]

/-- C1 (amended): with reversal-pending clear, the actuator idle, and both
`sm_steps` and the tracked position `smpos` within 0..32767, let `t` be the
request clamped to `[0, sm_steps]`.  If `t` differs from `smpos` the call sets
the direction to CW when `t < smpos` and to CCW when `t > smpos`, issues that
direction command and exactly one `run(|t - smpos|)`, stores the old `smpos` as
motion start and sets `smpos = t`, leaving everything else alone.  If `t`
equals `smpos` it issues no command and changes no state. -/
theorem C1_new_motion (b : build_t) (x : extern_t) (d : ecudata_t) (c : choke_st_t)
    (pos : Int)
    (hflag : CHECKBIT c.flags (CF_SMDIR_CHG b) = false)
    (hidle : x.stpmot_is_busy = false)
    (hs0 : 0 ≤ d.param.sm_steps) (hs1 : d.param.sm_steps ≤ 32767)
    (hp0 : 0 ≤ c.smpos) (hp1 : c.smpos ≤ 32767) :
    (max 0 (min pos d.param.sm_steps) ≠ c.smpos →
      sm_motion_control b x d c pos =
        ({ c with
           cur_dir := if max 0 (min pos d.param.sm_steps) < c.smpos then SM_DIR_CW
                      else SM_DIR_CCW,
           smpos_prev := c.smpos,
           smpos := max 0 (min pos d.param.sm_steps) },
         [cmd_t.stpmot_dir (if max 0 (min pos d.param.sm_steps) < c.smpos then SM_DIR_CW
                            else SM_DIR_CCW),
          cmd_t.stpmot_run |max 0 (min pos d.param.sm_steps) - c.smpos|])) ∧
    (max 0 (min pos d.param.sm_steps) = c.smpos →
      sm_motion_control b x d c pos = (c, [])) := by
  have hc := restrict_value_to_eq_clamp pos d.param.sm_steps hs0 hs1
  generalize ht : max 0 (min pos d.param.sm_steps) = t at hc ⊢
  have ht0 : 0 ≤ t := by omega
  have ht1 : t ≤ 32767 := by omega
  have hdiff : i16 (t - c.smpos) = t - c.smpos := by unfold i16; omega
  have hsp : i16 c.smpos = c.smpos := by unfold i16; omega
  have htu : u16 t = t := by unfold u16; omega
  unfold sm_motion_control
  rw [sm_dir_chg_resolve_clear b x c hflag]
  simp only [hc, hdiff, hsp, htu]
  constructor
  · intro hne
    have hne2 : t - c.smpos ≠ 0 := by omega
    by_cases hlt : t < c.smpos
    · have h1 : t - c.smpos < 0 := by omega
      have h2 : u16 (abs16 (t - c.smpos)) = |t - c.smpos| := by
        rw [abs_of_neg h1]; unfold u16 abs16 i16; rw [if_pos h1]; omega
      simp [hflag, hidle, hne2, hlt, h1, h2]
    · have h1 : ¬ (t - c.smpos < 0) := by omega
      have h2 : u16 (abs16 (t - c.smpos)) = |t - c.smpos| := by
        rw [abs_of_nonneg (by omega)]; unfold u16 abs16; rw [if_neg h1]; omega
      simp [hflag, hidle, hne2, hlt, h1, h2]
  · intro heq
    simp [hflag, hidle, heq]

/-- C1, the scenario of the specification: `sm_steps = 200`, target 150,
tracked position 0, actuator idle gives direction CCW (closing) and
`run(150)`. -/
theorem C1_new_motion_witness :
    sm_motion_control ex_build ex_feedback ex_ecudata ex_chks 150 =
      ({ ex_chks with cur_dir := SM_DIR_CCW, smpos_prev := 0, smpos := 150 },
       [cmd_t.stpmot_dir SM_DIR_CCW, cmd_t.stpmot_run 150]) :=
  (C1_new_motion ex_build ex_feedback ex_ecudata ex_chks 150 (by decide) (by decide)
    (by decide) (by decide) (by decide) (by decide)).1 (by decide)

/-- C1 as stated fails for a tracked position outside the `int16_t` range:
with `sm_steps = 200`, `smpos = 40000`, reversal-pending clear, actuator idle
and request 0, the clamped request 0 is below `smpos`, yet the call commands
the CCW direction and `run(25536)` and stores -25536 as motion start, where the
claim has CW, `run(40000)` and motion start 40000. -/
theorem C1_counterexample :
    CHECKBIT ({ ex_chks with smpos := 40000 } : choke_st_t).flags (CF_SMDIR_CHG ex_build)
      = false ∧
    ex_feedback.stpmot_is_busy = false ∧
    max 0 (min 0 ex_ecudata.param.sm_steps) < (40000 : Int) ∧
    sm_motion_control ex_build ex_feedback ex_ecudata { ex_chks with smpos := 40000 } 0 =
      ({ ex_chks with cur_dir := SM_DIR_CCW, smpos_prev := -25536, smpos := 0 },
       [cmd_t.stpmot_dir SM_DIR_CCW, cmd_t.stpmot_run 25536]) ∧
    (sm_motion_control ex_build ex_feedback ex_ecudata
        { ex_chks with smpos := 40000 } 0).1.cur_dir ≠ SM_DIR_CW ∧
    cmd_t.stpmot_run 40000 ∉
      (sm_motion_control ex_build ex_feedback ex_ecudata { ex_chks with smpos := 40000 } 0).2 ∧
    (sm_motion_control ex_build ex_feedback ex_ecudata
        { ex_chks with smpos := 40000 } 0).1.smpos_prev ≠ 40000 := by
  decide

theorem and_0x8000_ne_iff (a b : Int) :
    and_0x8000 a ≠ and_0x8000 b ↔ ¬ (i16 a < 0 ↔ i16 b < 0) := by
  unfold and_0x8000 u16 i16
  by_cases ha : (a + 32768) % 65536 - 32768 < 0 <;>
    by_cases hb : (b + 32768) % 65536 - 32768 < 0 <;>
    simp only [ha, hb, ne_eq, iff_true, iff_false, not_true, not_false_iff, true_iff,
      false_iff, iff_self] <;> omega

theorem sm_motion_control_busy_differ (b : build_t) (x : extern_t) (d : ecudata_t)
    (c : choke_st_t) (pos : Int)
    (hflag : CHECKBIT c.flags (CF_SMDIR_CHG b) = false)
    (hbusy : x.stpmot_is_busy = true)
    (h : ¬ (i16 (c.smpos - c.smpos_prev) < 0 ↔
          i16 (restrict_value_to pos 0 (i16 d.param.sm_steps) - c.smpos_prev) < 0)) :
    sm_motion_control b x d c pos =
      ({ c with flags := SETBIT c.flags (CF_SMDIR_CHG b) }, [cmd_t.stpmot_run 0]) := by
  have h1 := (and_0x8000_ne_iff _ _).2 h
  unfold sm_motion_control
  rw [sm_dir_chg_resolve_clear b x c hflag]
  simp only [ne_eq] at h1
  simp [hflag, hbusy, h1]

theorem sm_motion_control_busy_agree (b : build_t) (x : extern_t) (d : ecudata_t)
    (c : choke_st_t) (pos : Int)
    (hflag : CHECKBIT c.flags (CF_SMDIR_CHG b) = false)
    (hbusy : x.stpmot_is_busy = true)
    (h : i16 (c.smpos - c.smpos_prev) < 0 ↔
          i16 (restrict_value_to pos 0 (i16 d.param.sm_steps) - c.smpos_prev) < 0) :
    sm_motion_control b x d c pos = (c, []) := by
  have h1 : ¬ (and_0x8000 (c.smpos - c.smpos_prev) ≠
      and_0x8000 (restrict_value_to pos 0 (i16 d.param.sm_steps) - c.smpos_prev)) := by
    rw [and_0x8000_ne_iff]; exact not_not.2 h
  unfold sm_motion_control
  rw [sm_dir_chg_resolve_clear b x c hflag]
  simp only [ne_eq, not_not] at h1
  simp [hflag, hbusy, h1]

theorem sm_motion_control_pending_busy (b : build_t) (x : extern_t) (d : ecudata_t)
    (c : choke_st_t) (pos : Int)
    (hflag : CHECKBIT c.flags (CF_SMDIR_CHG b) = true)
    (hbusy : x.stpmot_is_busy = true) :
    sm_motion_control b x d c pos = (c, []) := by
  unfold sm_motion_control
  rw [sm_dir_chg_resolve_busy b x c hbusy]
  simp [hflag]

/-- C2: with reversal-pending clear and the actuator busy, let `t` be the
clamped new target.  The call issues the stop `run(0)` and sets
reversal-pending exactly when the sign of `smpos - smpos_prev` differs from the
sign of `t - smpos_prev`, both taken as bit 15 of the 16-bit difference (zero
is non-negative).  In that case the stop is the only command and only the flag
byte changes (`smpos`, `smpos_prev`, `cur_dir` are kept); when the signs agree
no command is issued and the state is unchanged.  For `sm_steps` within
0..32767 the clamped target is the request clamped to `[0, sm_steps]`. -/
theorem C2_busy_cycle (b : build_t) (x : extern_t) (d : ecudata_t) (c : choke_st_t)
    (pos : Int)
    (hflag : CHECKBIT c.flags (CF_SMDIR_CHG b) = false)
    (hbusy : x.stpmot_is_busy = true) :
    (¬ (i16 (c.smpos - c.smpos_prev) < 0 ↔
          i16 (restrict_value_to pos 0 (i16 d.param.sm_steps) - c.smpos_prev) < 0) →
      sm_motion_control b x d c pos =
        ({ c with flags := SETBIT c.flags (CF_SMDIR_CHG b) }, [cmd_t.stpmot_run 0]) ∧
      CHECKBIT (sm_motion_control b x d c pos).1.flags (CF_SMDIR_CHG b) = true ∧
      (sm_motion_control b x d c pos).1.smpos = c.smpos ∧
      (sm_motion_control b x d c pos).1.smpos_prev = c.smpos_prev ∧
      (sm_motion_control b x d c pos).1.cur_dir = c.cur_dir) ∧
    ((i16 (c.smpos - c.smpos_prev) < 0 ↔
          i16 (restrict_value_to pos 0 (i16 d.param.sm_steps) - c.smpos_prev) < 0) →
      sm_motion_control b x d c pos = (c, [])) ∧
    ((cmd_t.stpmot_run 0 ∈ (sm_motion_control b x d c pos).2 ∧
        CHECKBIT (sm_motion_control b x d c pos).1.flags (CF_SMDIR_CHG b) = true) ↔
      ¬ (i16 (c.smpos - c.smpos_prev) < 0 ↔
          i16 (restrict_value_to pos 0 (i16 d.param.sm_steps) - c.smpos_prev) < 0)) ∧
    (0 ≤ d.param.sm_steps → d.param.sm_steps ≤ 32767 →
      restrict_value_to pos 0 (i16 d.param.sm_steps) = max 0 (min pos d.param.sm_steps)) := by
  have hd := sm_motion_control_busy_differ b x d c pos hflag hbusy
  have ha := sm_motion_control_busy_agree b x d c pos hflag hbusy
  refine ⟨fun h => ?_, ha, ?_, fun h0 h1 => restrict_value_to_eq_clamp pos _ h0 h1⟩
  · rw [hd h]
    exact ⟨rfl, CHECKBIT_SETBIT_SMDIR_CHG b c.flags, rfl, rfl, rfl⟩
  · constructor
    · intro h hs
      rw [ha hs] at h
      simp at h
    · intro h
      rw [hd h]
      exact ⟨by simp, CHECKBIT_SETBIT_SMDIR_CHG b c.flags⟩

/-- C2 at a concrete input: motion 100 -> 150 under way (motion start 100),
new request 50 on the other side of the motion start: stop and raise the
flag. -/
theorem C2_busy_cycle_witness :
    sm_motion_control ex_build ex_feedback_busy ex_ecudata
        { ex_chks with smpos := 150, smpos_prev := 100 } 50 =
      ({ ex_chks with smpos := 150, smpos_prev := 100, flags := 8 },
       [cmd_t.stpmot_run 0]) :=
  ((C2_busy_cycle ex_build ex_feedback_busy ex_ecudata
      { ex_chks with smpos := 150, smpos_prev := 100 } 50 (by decide) (by decide)).1
    (by decide)).1

theorem restrict_value_to_range (v top : Int) :
    0 ≤ restrict_value_to v 0 (i16 top) ∧ restrict_value_to v 0 (i16 top) ≤ 32767 := by
  have h : i16 top ≤ 32767 := by unfold i16; omega
  unfold restrict_value_to
  simp only []
  split_ifs <;> omega

theorem u16_abs16_i16 (v : Int) : u16 (abs16 (i16 v)) = |i16 v| := by
  have h1 : -32768 ≤ i16 v := by unfold i16; omega
  have h2 : i16 v ≤ 32767 := by unfold i16; omega
  generalize i16 v = w at h1 h2
  by_cases hw : w < 0
  · rw [abs_of_neg hw]; unfold u16 abs16 i16; rw [if_pos hw]; omega
  · rw [abs_of_nonneg (by omega)]; unfold u16 abs16; rw [if_neg hw]; omega

/-- Normal operation with the actuator idle, in 16-bit terms: no range
assumption on `smpos` or `sm_steps`. -/
theorem sm_motion_control_idle16 (b : build_t) (x : extern_t) (d : ecudata_t)
    (c : choke_st_t) (pos : Int)
    (hflag : CHECKBIT c.flags (CF_SMDIR_CHG b) = false)
    (hidle : x.stpmot_is_busy = false) :
    sm_motion_control b x d c pos =
      if i16 (restrict_value_to pos 0 (i16 d.param.sm_steps) - c.smpos) = 0 then (c, [])
      else
        ({ c with
           cur_dir := if i16 (restrict_value_to pos 0 (i16 d.param.sm_steps) - c.smpos) < 0
                      then SM_DIR_CW else SM_DIR_CCW,
           smpos_prev := i16 c.smpos,
           smpos := restrict_value_to pos 0 (i16 d.param.sm_steps) },
         [cmd_t.stpmot_dir
            (if i16 (restrict_value_to pos 0 (i16 d.param.sm_steps) - c.smpos) < 0
             then SM_DIR_CW else SM_DIR_CCW),
          cmd_t.stpmot_run |i16 (restrict_value_to pos 0 (i16 d.param.sm_steps) - c.smpos)|]) := by
  have hr := restrict_value_to_range pos d.param.sm_steps
  have hu : u16 (restrict_value_to pos 0 (i16 d.param.sm_steps)) =
      restrict_value_to pos 0 (i16 d.param.sm_steps) := by unfold u16; omega
  unfold sm_motion_control
  rw [sm_dir_chg_resolve_clear b x c hflag]
  simp only [hu, u16_abs16_i16]
  simp [hflag, hidle]

/-- With reversal-pending set and the actuator idle, the call is the
normal-operation call made from the state with the recomputed position and the
flag cleared. -/
theorem sm_motion_control_pending_idle (b : build_t) (x : extern_t) (d : ecudata_t)
    (c : choke_st_t) (pos : Int)
    (hflag : CHECKBIT c.flags (CF_SMDIR_CHG b) = true)
    (hidle : x.stpmot_is_busy = false) :
    sm_motion_control b x d c pos =
      sm_motion_control b x d
        { c with
          smpos := if c.cur_dir = SM_DIR_CW then u16 (c.smpos_prev - x.stpmot_stpcnt)
                   else u16 (c.smpos_prev + x.stpmot_stpcnt),
          flags := CLEARBIT c.flags (CF_SMDIR_CHG b) } pos := by
  have h1 : u16 (c.smpos_prev +
      (if c.cur_dir = SM_DIR_CW then u16 (-x.stpmot_stpcnt) else x.stpmot_stpcnt)) =
      (if c.cur_dir = SM_DIR_CW then u16 (c.smpos_prev - x.stpmot_stpcnt)
       else u16 (c.smpos_prev + x.stpmot_stpcnt)) := by
    split_ifs
    · unfold u16; omega
    · rfl
  have hres := sm_dir_chg_resolve_idle b x c hflag hidle
  rw [h1] at hres
  have hclr : sm_dir_chg_resolve b x
      { c with
        smpos := if c.cur_dir = SM_DIR_CW then u16 (c.smpos_prev - x.stpmot_stpcnt)
                 else u16 (c.smpos_prev + x.stpmot_stpcnt),
        flags := CLEARBIT c.flags (CF_SMDIR_CHG b) } = _ :=
    sm_dir_chg_resolve_clear b x _ (CHECKBIT_CLEARBIT_SMDIR_CHG b c.flags)
  unfold sm_motion_control
  rw [hres, hclr]

/-- C3 (amended): with `sm_steps = 200`, an idle cycle from tracked position 0
with request 150 commands CCW and `run(150)` (motion start 0, tracked target
150).  A following busy cycle with request 50 issues no command and leaves the
state, and so reversal-pending, unchanged: 50 and 150 lie on the same side of
the motion start, and the motion to 150 goes on. -/
theorem C3_retarget_same_side (b : build_t) (x1 x2 : extern_t) (d : ecudata_t)
    (c : choke_st_t)
    (hs : d.param.sm_steps = 200) (hp : c.smpos = 0)
    (hflag : CHECKBIT c.flags (CF_SMDIR_CHG b) = false)
    (hidle : x1.stpmot_is_busy = false) (hbusy : x2.stpmot_is_busy = true) :
    sm_motion_control b x1 d c 150 =
      ({ c with cur_dir := SM_DIR_CCW, smpos_prev := 0, smpos := 150 },
       [cmd_t.stpmot_dir SM_DIR_CCW, cmd_t.stpmot_run 150]) ∧
    sm_motion_control b x2 d (sm_motion_control b x1 d c 150).1 50 =
      ((sm_motion_control b x1 d c 150).1, []) ∧
    CHECKBIT (sm_motion_control b x2 d (sm_motion_control b x1 d c 150).1 50).1.flags
      (CF_SMDIR_CHG b) = false := by
  have h1 : sm_motion_control b x1 d c 150 =
      ({ c with cur_dir := SM_DIR_CCW, smpos_prev := 0, smpos := 150 },
       [cmd_t.stpmot_dir SM_DIR_CCW, cmd_t.stpmot_run 150]) := by
    rw [sm_motion_control_idle16 b x1 d c 150 hflag hidle]
    simp only [hs, hp]
    have e1 : restrict_value_to 150 0 (i16 200) = 150 := by decide
    have e2 : i16 (150 - 0) = 150 := by decide
    have e3 : i16 0 = 0 := by decide
    have e4 : |(150 : Int)| = 150 := by norm_num
    simp only [e1, e2, e3, e4]
    simp
  have h2 : sm_motion_control b x2 d
      { c with cur_dir := SM_DIR_CCW, smpos_prev := 0, smpos := 150 } 50 =
      ({ c with cur_dir := SM_DIR_CCW, smpos_prev := 0, smpos := 150 }, []) := by
    exact sm_motion_control_busy_agree b x2 d
      { c with cur_dir := SM_DIR_CCW, smpos_prev := 0, smpos := 150 } 50 hflag hbusy
      (by simp only [hs]; decide)
  rw [h1]
  exact ⟨rfl, h2, by rw [h2]; exact hflag⟩

/-- C3 at the all-zero state in the carburetor build. -/
theorem C3_retarget_same_side_witness :
    sm_motion_control ex_build ex_feedback_busy ex_ecudata
        (sm_motion_control ex_build ex_feedback ex_ecudata ex_chks 150).1 50 =
      ((sm_motion_control ex_build ex_feedback ex_ecudata ex_chks 150).1, []) :=
  (C3_retarget_same_side ex_build ex_feedback ex_feedback_busy ex_ecudata ex_chks
    (by decide) (by decide) (by decide) (by decide) (by decide)).2.1

/-- C3 as stated fails: after the idle cycle that commanded 0 -> 150 with
`sm_steps = 200`, the busy cycle with request 50 issues no stop and does not
set reversal-pending. -/
theorem C3_counterexample :
    (sm_motion_control ex_build ex_feedback ex_ecudata ex_chks 150).1.smpos_prev = 0 ∧
    (sm_motion_control ex_build ex_feedback ex_ecudata ex_chks 150).1.smpos = 150 ∧
    (sm_motion_control ex_build ex_feedback ex_ecudata ex_chks 150).1.cur_dir = SM_DIR_CCW ∧
    ex_feedback_busy.stpmot_is_busy = true ∧
    cmd_t.stpmot_run 0 ∉
      (sm_motion_control ex_build ex_feedback_busy ex_ecudata
        (sm_motion_control ex_build ex_feedback ex_ecudata ex_chks 150).1 50).2 ∧
    CHECKBIT (sm_motion_control ex_build ex_feedback_busy ex_ecudata
        (sm_motion_control ex_build ex_feedback ex_ecudata ex_chks 150).1 50).1.flags
      (CF_SMDIR_CHG ex_build) = false := by
  decide

/-- C4: with reversal-pending set and the actuator idle, the call recomputes
the tracked position `r` as motion start minus steps traveled when the last
commanded direction is CW and motion start plus steps traveled when it is CCW
(16-bit arithmetic), clears reversal-pending, and computes any motion command
from `r`: with `t` the clamped target, no command when the 16-bit difference
`t - r` is zero, else the direction from its sign and `run(|t - r|)`, with `r`
remembered as motion start.  With the actuator busy the call issues no command
and changes no state. -/
theorem C4_reversal_resolution (b : build_t) (x : extern_t) (d : ecudata_t)
    (c : choke_st_t) (pos : Int)
    (hflag : CHECKBIT c.flags (CF_SMDIR_CHG b) = true) :
    (x.stpmot_is_busy = false →
      ∃ r : Int,
        (c.cur_dir = SM_DIR_CW → r = u16 (c.smpos_prev - x.stpmot_stpcnt)) ∧
        (c.cur_dir = SM_DIR_CCW → r = u16 (c.smpos_prev + x.stpmot_stpcnt)) ∧
        sm_dir_chg_resolve b x c =
          { c with smpos := r, flags := CLEARBIT c.flags (CF_SMDIR_CHG b) } ∧
        CHECKBIT (sm_motion_control b x d c pos).1.flags (CF_SMDIR_CHG b) = false ∧
        (i16 (restrict_value_to pos 0 (i16 d.param.sm_steps) - r) = 0 →
          sm_motion_control b x d c pos =
            ({ c with smpos := r, flags := CLEARBIT c.flags (CF_SMDIR_CHG b) }, [])) ∧
        (i16 (restrict_value_to pos 0 (i16 d.param.sm_steps) - r) ≠ 0 →
          sm_motion_control b x d c pos =
            ({ c with
               cur_dir := if i16 (restrict_value_to pos 0 (i16 d.param.sm_steps) - r) < 0
                          then SM_DIR_CW else SM_DIR_CCW,
               smpos_prev := i16 r,
               smpos := restrict_value_to pos 0 (i16 d.param.sm_steps),
               flags := CLEARBIT c.flags (CF_SMDIR_CHG b) },
             [cmd_t.stpmot_dir
                (if i16 (restrict_value_to pos 0 (i16 d.param.sm_steps) - r) < 0
                 then SM_DIR_CW else SM_DIR_CCW),
              cmd_t.stpmot_run |i16 (restrict_value_to pos 0 (i16 d.param.sm_steps) - r)|]))) ∧
    (x.stpmot_is_busy = true → sm_motion_control b x d c pos = (c, [])) := by
  refine ⟨fun hidle => ?_, fun hbusy => sm_motion_control_pending_busy b x d c pos hflag hbusy⟩
  refine ⟨if c.cur_dir = SM_DIR_CW then u16 (c.smpos_prev - x.stpmot_stpcnt)
          else u16 (c.smpos_prev + x.stpmot_stpcnt), ?_, ?_, ?_, ?_, ?_, ?_⟩
  · intro h; rw [if_pos h]
  · intro h
    have hne : ¬ (c.cur_dir = SM_DIR_CW) := by rw [h]; decide
    rw [if_neg hne]
  · rw [sm_dir_chg_resolve_idle b x c hflag hidle]
    have h1 : u16 (c.smpos_prev +
        (if c.cur_dir = SM_DIR_CW then u16 (-x.stpmot_stpcnt) else x.stpmot_stpcnt)) =
        (if c.cur_dir = SM_DIR_CW then u16 (c.smpos_prev - x.stpmot_stpcnt)
         else u16 (c.smpos_prev + x.stpmot_stpcnt)) := by
      split_ifs
      · unfold u16; omega
      · rfl
    rw [h1]
  · rw [sm_motion_control_pending_idle b x d c pos hflag hidle,
      sm_motion_control_idle16 b x d _ pos (CHECKBIT_CLEARBIT_SMDIR_CHG b c.flags) hidle]
    split_ifs <;> exact CHECKBIT_CLEARBIT_SMDIR_CHG b c.flags
  · intro h0
    rw [sm_motion_control_pending_idle b x d c pos hflag hidle,
      sm_motion_control_idle16 b x d _ pos (CHECKBIT_CLEARBIT_SMDIR_CHG b c.flags) hidle]
    simp only [] at h0 ⊢
    rw [if_pos h0]
  · intro h0
    rw [sm_motion_control_pending_idle b x d c pos hflag hidle,
      sm_motion_control_idle16 b x d _ pos (CHECKBIT_CLEARBIT_SMDIR_CHG b c.flags) hidle]
    simp only [] at h0 ⊢
    rw [if_neg h0]

/-- C4 at a concrete input: reversal pending after a CCW motion from 0, the
actuator busy: nothing happens. -/
theorem C4_reversal_resolution_witness :
    sm_motion_control ex_build ex_feedback_busy ex_ecudata
        { ex_chks with cur_dir := SM_DIR_CCW, smpos := 150, flags := 8 } 50 =
      ({ ex_chks with cur_dir := SM_DIR_CCW, smpos := 150, flags := 8 }, []) :=
  (C4_reversal_resolution ex_build ex_feedback_busy ex_ecudata
    { ex_chks with cur_dir := SM_DIR_CCW, smpos := 150, flags := 8 } 50 (by decide)).2
    (by decide)

/-- C5 (amended): from motion start 0, last direction CCW, reversal-pending
set, `sm_steps = 200` and request 50, the cycle in which the actuator is idle
and reports 60 steps recomputes the position 60, clears reversal-pending and,
in that same cycle, commands direction CW and `run(10)`, with 60 remembered as
motion start and 50 as tracked target.  The following cycle with request 50
issues no command, whether the actuator is busy or idle. -/
theorem C5_after_stop (b : build_t) (x x2 : extern_t) (d : ecudata_t) (c : choke_st_t)
    (hs : d.param.sm_steps = 200) (hprev : c.smpos_prev = 0)
    (hdir : c.cur_dir = SM_DIR_CCW)
    (hflag : CHECKBIT c.flags (CF_SMDIR_CHG b) = true)
    (hidle : x.stpmot_is_busy = false) (hcnt : x.stpmot_stpcnt = 60) :
    (sm_dir_chg_resolve b x c).smpos = 60 ∧
    sm_motion_control b x d c 50 =
      ({ c with
         cur_dir := SM_DIR_CW, smpos_prev := 60, smpos := 50,
         flags := CLEARBIT c.flags (CF_SMDIR_CHG b) },
       [cmd_t.stpmot_dir SM_DIR_CW, cmd_t.stpmot_run 10]) ∧
    sm_motion_control b x2 d (sm_motion_control b x d c 50).1 50 =
      ((sm_motion_control b x d c 50).1, []) := by
  have hne : ¬ (c.cur_dir = SM_DIR_CW) := by rw [hdir]; decide
  have h0 : (sm_dir_chg_resolve b x c).smpos = 60 := by
    rw [sm_dir_chg_resolve_idle b x c hflag hidle]
    simp only [if_neg hne, hprev, hcnt]
    decide
  have h1 : sm_motion_control b x d c 50 =
      ({ c with
         cur_dir := SM_DIR_CW, smpos_prev := 60, smpos := 50,
         flags := CLEARBIT c.flags (CF_SMDIR_CHG b) },
       [cmd_t.stpmot_dir SM_DIR_CW, cmd_t.stpmot_run 10]) := by
    rw [sm_motion_control_pending_idle b x d c 50 hflag hidle,
      sm_motion_control_idle16 b x d _ 50 (CHECKBIT_CLEARBIT_SMDIR_CHG b c.flags) hidle]
    simp only [if_neg hne, hprev, hcnt, hs]
    have e1 : restrict_value_to 50 0 (i16 200) = 50 := by decide
    have e2 : u16 (0 + 60) = 60 := by decide
    have e3 : i16 (50 - 60) = -10 := by decide
    have e4 : i16 60 = 60 := by decide
    have e5 : |(-10 : Int)| = 10 := by norm_num
    simp only [e1, e2, e3, e4, e5]
    simp
  have hclr : CHECKBIT ({ c with
         cur_dir := SM_DIR_CW, smpos_prev := 60, smpos := 50,
         flags := CLEARBIT c.flags (CF_SMDIR_CHG b) } : choke_st_t).flags (CF_SMDIR_CHG b)
      = false := CHECKBIT_CLEARBIT_SMDIR_CHG b c.flags
  refine ⟨h0, h1, ?_⟩
  rw [h1]
  simp only []
  cases hb : x2.stpmot_is_busy
  · rw [sm_motion_control_idle16 b x2 d _ 50 hclr hb]
    simp only [hs]
    have e1 : restrict_value_to 50 0 (i16 200) = 50 := by decide
    have e2 : i16 (50 - 50) = 0 := by decide
    simp only [e1, e2]
    simp
  · exact sm_motion_control_busy_agree b x2 d _ 50 hclr hb (by simp only [hs]; decide)

/-- C5 at the all-zero state with the flag set, carburetor build. -/
theorem C5_after_stop_witness :
    sm_motion_control ex_build { ex_feedback with stpmot_stpcnt := 60 } ex_ecudata
        { ex_chks with cur_dir := SM_DIR_CCW, smpos := 150, flags := 8 } 50 =
      ({ ex_chks with cur_dir := SM_DIR_CW, smpos_prev := 60, smpos := 50, flags := 0 },
       [cmd_t.stpmot_dir SM_DIR_CW, cmd_t.stpmot_run 10]) :=
  (C5_after_stop ex_build { ex_feedback with stpmot_stpcnt := 60 } ex_feedback ex_ecudata
    { ex_chks with cur_dir := SM_DIR_CCW, smpos := 150, flags := 8 }
    (by decide) (by decide) (by decide) (by decide) (by decide) (by decide)).2.1

/-- C5 as stated fails: in the cycle in which the actuator is idle and reports
60 steps, the call does issue a run command, `run(10)` in the CW direction,
and ends with tracked position 50, not 60. -/
theorem C5_counterexample :
    ¬ ((sm_motion_control ex_build { ex_feedback with stpmot_stpcnt := 60 } ex_ecudata
          { ex_chks with cur_dir := SM_DIR_CCW, smpos := 150, flags := 8 } 50).1.smpos = 60 ∧
       (sm_motion_control ex_build { ex_feedback with stpmot_stpcnt := 60 } ex_ecudata
          { ex_chks with cur_dir := SM_DIR_CCW, smpos := 150, flags := 8 } 50).2.all
          (fun k => !is_run_command k) = true) ∧
    (sm_motion_control ex_build { ex_feedback with stpmot_stpcnt := 60 } ex_ecudata
        { ex_chks with cur_dir := SM_DIR_CCW, smpos := 150, flags := 8 } 50).2 =
      [cmd_t.stpmot_dir SM_DIR_CW, cmd_t.stpmot_run 10] ∧
    (sm_motion_control ex_build { ex_feedback with stpmot_stpcnt := 60 } ex_ecudata
        { ex_chks with cur_dir := SM_DIR_CCW, smpos := 150, flags := 8 } 50).1.smpos = 50 := by
  decide

/-- The commands of one call of `sm_motion_control`: none, or the stop in a
busy cycle, or one direction command followed by one run command in an idle
cycle. -/
theorem sm_motion_control_cmds (b : build_t) (x : extern_t) (d : ecudata_t)
    (c : choke_st_t) (pos : Int) :
    (sm_motion_control b x d c pos).2 = [] ∨
    (x.stpmot_is_busy = true ∧ (sm_motion_control b x d c pos).2 = [cmd_t.stpmot_run 0]) ∨
    (x.stpmot_is_busy = false ∧
      ∃ dir n, (sm_motion_control b x d c pos).2 = [cmd_t.stpmot_dir dir, cmd_t.stpmot_run n]) := by
  cases hb : x.stpmot_is_busy
  · -- idle
    have key : ∀ c1 : choke_st_t, CHECKBIT c1.flags (CF_SMDIR_CHG b) = false →
        (sm_motion_control b x d c1 pos).2 = [] ∨
        (false = true ∧ (sm_motion_control b x d c1 pos).2 = [cmd_t.stpmot_run 0]) ∨
        (false = false ∧ ∃ dir n,
          (sm_motion_control b x d c1 pos).2 = [cmd_t.stpmot_dir dir, cmd_t.stpmot_run n]) := by
      intro c1 h1
      rw [sm_motion_control_idle16 b x d c1 pos h1 hb]
      by_cases h0 : i16 (restrict_value_to pos 0 (i16 d.param.sm_steps) - c1.smpos) = 0
      · rw [if_pos h0]
        exact Or.inl rfl
      · rw [if_neg h0]
        exact Or.inr (Or.inr ⟨rfl, _, _, rfl⟩)
    cases hf : CHECKBIT c.flags (CF_SMDIR_CHG b)
    · exact key c hf
    · rw [sm_motion_control_pending_idle b x d c pos hf hb]
      exact key _ (CHECKBIT_CLEARBIT_SMDIR_CHG b c.flags)
  · -- busy
    cases hf : CHECKBIT c.flags (CF_SMDIR_CHG b)
    · by_cases hs : (i16 (c.smpos - c.smpos_prev) < 0 ↔
          i16 (restrict_value_to pos 0 (i16 d.param.sm_steps) - c.smpos_prev) < 0)
      · rw [sm_motion_control_busy_agree b x d c pos hf hb hs]
        exact Or.inl rfl
      · rw [sm_motion_control_busy_differ b x d c pos hf hb hs]
        exact Or.inr (Or.inl ⟨rfl, rfl⟩)
    · rw [sm_motion_control_pending_busy b x d c pos hf hb]
      exact Or.inl rfl

/-- Every entry of a run of the tracker is the command list of one call made
with the input of that cycle. -/
theorem sm_run_getElem (b : build_t) :
    ∀ (inputs : List (extern_t × ecudata_t × Int)) (c : choke_st_t) (k : Nat)
      (i : extern_t × ecudata_t × Int) (cmds : List cmd_t),
      inputs[k]? = some i → (sm_run b c inputs)[k]? = some cmds →
      ∃ c1, cmds = (sm_motion_control b i.1 i.2.1 c1 i.2.2).2 := by
  intro inputs
  induction inputs with
  | nil => intro c k i cmds h; simp at h
  | cons a rest ih =>
    intro c k i cmds h1 h2
    cases k with
    | zero =>
      simp only [List.getElem?_cons_zero, Option.some.injEq] at h1
      simp only [sm_run, List.getElem?_cons_zero, Option.some.injEq] at h2
      subst h1
      exact ⟨c, h2.symm⟩
    | succ k =>
      simp only [List.getElem?_cons_succ] at h1
      simp only [sm_run, List.getElem?_cons_succ] at h2
      exact ih _ k i cmds h1 h2

theorem sm_run_length (b : build_t) :
    ∀ (inputs : List (extern_t × ecudata_t × Int)) (c : choke_st_t),
      (sm_run b c inputs).length = inputs.length := by
  intro inputs
  induction inputs with
  | nil => intro c; rfl
  | cons a rest ih => intro c; simp [sm_run, ih]

/-- C6: for every initial state and every sequence of driver feedbacks and
requests fed to `sm_motion_control`, each cycle yields one command list, and
in every cycle: a set-direction command is issued only if the actuator is
observed idle in that cycle; in a busy cycle the command list is empty or the
single stop `run(0)`; at most one direction command is issued.  Hence, of two
cycles `j < k` that both issue a direction command, the later one is itself a
cycle in which the actuator was observed idle. -/
theorem C6_direction_only_when_idle (b : build_t) (c : choke_st_t)
    (inputs : List (extern_t × ecudata_t × Int)) :
    (sm_run b c inputs).length = inputs.length ∧
    (∀ (k : Nat) (i : extern_t × ecudata_t × Int) (cmds : List cmd_t),
      inputs[k]? = some i → (sm_run b c inputs)[k]? = some cmds →
        ((∃ q ∈ cmds, is_dir_command q = true) → i.1.stpmot_is_busy = false) ∧
        (i.1.stpmot_is_busy = true → cmds = [] ∨ cmds = [cmd_t.stpmot_run 0]) ∧
        (cmds.filter is_dir_command).length ≤ 1) ∧
    (∀ (j k : Nat) (ik : extern_t × ecudata_t × Int) (cj ck : List cmd_t),
      j < k → inputs[k]? = some ik →
      (sm_run b c inputs)[j]? = some cj → (sm_run b c inputs)[k]? = some ck →
      (∃ q ∈ cj, is_dir_command q = true) → (∃ q ∈ ck, is_dir_command q = true) →
        ∃ m, j < m ∧ m ≤ k ∧ ∃ im, inputs[m]? = some im ∧ im.1.stpmot_is_busy = false) := by
  have step : ∀ (k : Nat) (i : extern_t × ecudata_t × Int) (cmds : List cmd_t),
      inputs[k]? = some i → (sm_run b c inputs)[k]? = some cmds →
        ((∃ q ∈ cmds, is_dir_command q = true) → i.1.stpmot_is_busy = false) ∧
        (i.1.stpmot_is_busy = true → cmds = [] ∨ cmds = [cmd_t.stpmot_run 0]) ∧
        (cmds.filter is_dir_command).length ≤ 1 := by
    intro k i cmds h1 h2
    obtain ⟨c1, hc⟩ := sm_run_getElem b inputs c k i cmds h1 h2
    rcases sm_motion_control_cmds b i.1 i.2.1 c1 i.2.2 with h | ⟨hb, h⟩ | ⟨hb, dir, n, h⟩
    · rw [hc, h]
      exact ⟨by simp, fun _ => Or.inl rfl, by simp⟩
    · rw [hc, h]
      exact ⟨by simp [is_dir_command], fun _ => Or.inr rfl, by simp [is_dir_command]⟩
    · rw [hc, h]
      refine ⟨fun _ => hb, fun hbusy => ?_, by simp [is_dir_command]⟩
      rw [hb] at hbusy
      exact absurd hbusy (by decide)
  refine ⟨sm_run_length b inputs c, step, ?_⟩
  intro j k ik cj ck hjk hik _ hck _ hdk
  exact ⟨k, hjk, le_refl k, ik, hik, (step k ik ck hik hck).1 hdk⟩

/-- C6 on a three-cycle run: idle (0 -> 150), busy, busy. -/
theorem C6_direction_only_when_idle_witness :
    sm_run ex_build ex_chks
        [(ex_feedback, ex_ecudata, 150), (ex_feedback_busy, ex_ecudata, 50),
         (ex_feedback_busy, ex_ecudata, 150)] =
      [[cmd_t.stpmot_dir SM_DIR_CCW, cmd_t.stpmot_run 150], [], []] ∧
    (sm_run ex_build ex_chks
        [(ex_feedback, ex_ecudata, 150), (ex_feedback_busy, ex_ecudata, 50),
         (ex_feedback_busy, ex_ecudata, 150)]).length = 3 :=
  ⟨by decide,
   (C6_direction_only_when_idle ex_build ex_chks
      [(ex_feedback, ex_ecudata, 150), (ex_feedback_busy, ex_ecudata, 50),
       (ex_feedback_busy, ex_ecudata, 150)]).1⟩

/-! ## The mode state machine -/

theorem rpmreg_exit_check_param (d : ecudata_t) (rc : Int × choke_st_t) :
    (rpmreg_exit_check d rc).2.2.param = d.param := by
  unfold rpmreg_exit_check
  split_ifs <;> rfl

theorem rpmreg_gas_off_param (r : Int × choke_st_t × ecudata_t) :
    (rpmreg_gas_off r).2.2.param = r.2.2.param := by
  unfold rpmreg_gas_off
  split_ifs <;> rfl

theorem startup_rpm_regulation_param (x : extern_t) (d : ecudata_t) (c : choke_st_t) :
    (startup_rpm_regulation x d c).2.2.param = d.param := by
  unfold startup_rpm_regulation
  rw [rpmreg_gas_off_param]
  split_ifs
  · exact rpmreg_exit_check_param d _
  · rfl

theorem calc_startup_corr_param (x : extern_t) (d : ecudata_t) (c : choke_st_t) :
    (calc_startup_corr x d c).2.2.param = d.param := by
  unfold calc_startup_corr
  simp only []
  split_ifs <;> first | rfl | exact startup_rpm_regulation_param x d c

theorem calc_sm_position_param (b : build_t) (x : extern_t) (d : ecudata_t) (c : choke_st_t)
    (pwm : Int) : (calc_sm_position b x d c pwm).2.2.param = d.param := by
  unfold calc_sm_position
  simp only []
  split_ifs <;> first | rfl | exact calc_startup_corr_param x d _

theorem normal_mode_motion_param (b : build_t) (x : extern_t) (d : ecudata_t)
    (c : choke_st_t) : (normal_mode_motion b x d c).2.1.param = d.param := by
  unfold normal_mode_motion
  simp only []
  split_ifs <;> first | exact calc_sm_position_param b x d c 0 | rfl

/-- The commands of the tracker branch of the normal mode are the commands of
one call of `sm_motion_control`. -/
theorem normal_mode_motion_cmds (b : build_t) (x : extern_t) (d : ecudata_t)
    (c : choke_st_t) :
    ∃ d1 c1 p1, (normal_mode_motion b x d c).2.2 = (sm_motion_control b x d1 c1 p1).2 := by
  unfold normal_mode_motion
  simp only []
  split_ifs <;> exact ⟨_, _, _, rfl⟩

theorem initial_pos_shape (d : ecudata_t) (dir : Int) :
    ∃ n, initial_pos d dir = [cmd_t.stpmot_dir dir, cmd_t.stpmot_run n] := by
  unfold initial_pos
  split_ifs
  · exact ⟨_, rfl⟩
  · exact ⟨_, rfl⟩

/-- The stepper branch of `choke_control` is taken: the stepper output is
configured and the PWM IAC branch of the injection build is not. -/
theorem choke_control_eq_sm (b : build_t) (x : extern_t) (d : ecudata_t) (c : choke_st_t)
    (hstp : x.IOP_SM_STP = true)
    (hpwm : ¬ (b.FUEL_INJECT = true ∧ x.IOP_IAC_PWM = true)) :
    choke_control b x d c = choke_control_sm b x d c := by
  unfold choke_control
  rw [if_neg hpwm]
  simp [hstp]

theorem normal_mode_branch_param (b : build_t) (x : extern_t) (d : ecudata_t)
    (c : choke_st_t) : (normal_mode_branch b x d c).2.1.param = d.param := by
  unfold normal_mode_branch
  split_ifs
  · rfl
  · exact normal_mode_motion_param b x d c

/-- The normal-mode tick when `sm_steps` is not zero. -/
theorem normal_mode_some (b : build_t) (x : extern_t) (d : ecudata_t) (c : choke_st_t)
    (hs : d.param.sm_steps ≠ 0) :
    normal_mode b x d c =
      some (check_pwr x (normal_mode_branch b x d c).1,
            { (normal_mode_branch b x d c).2.1 with
              choke_pos := u8 (u32 ((normal_mode_branch b x d c).1.smpos * 200) /
                d.param.sm_steps) },
            (normal_mode_branch b x d c).2.2) := by
  unfold normal_mode calc_percent_pos
  rw [normal_mode_branch_param, if_neg hs]

/-- Whenever the normal-mode tick has a result, it is the result of
`normal_mode_some`: the state and the commands do not depend on the
division. -/
theorem normal_mode_eq_some (b : build_t) (x : extern_t) (d : ecudata_t) (c : choke_st_t)
    (r : choke_st_t × ecudata_t × List cmd_t) (h : normal_mode b x d c = some r) :
    d.param.sm_steps ≠ 0 ∧
    r.1 = check_pwr x (normal_mode_branch b x d c).1 ∧
    r.2.2 = (normal_mode_branch b x d c).2.2 := by
  by_cases hs : d.param.sm_steps = 0
  · exfalso
    unfold normal_mode calc_percent_pos at h
    rw [normal_mode_branch_param, if_pos hs] at h
    exact Option.noConfusion h
  · rw [normal_mode_some b x d c hs] at h
    injection h with h
    subst h
    exact ⟨hs, rfl, rfl⟩

theorem choke_control_sm_state0 (b : build_t) (x : extern_t) (d : ecudata_t)
    (c : choke_st_t) (h : c.state = 0) :
    choke_control_sm b x d c =
      some ({ c with state := 2, prev_temp := d.sens.temperat }, d,
            if !x.IOP_PWRRELAY then initial_pos d INIT_POS_DIR else []) := by
  unfold choke_control_sm
  rw [if_pos h]

theorem choke_control_sm_state1 (b : build_t) (x : extern_t) (d : ecudata_t)
    (c : choke_st_t) (h : c.state = 1) :
    choke_control_sm b x d c = some ({ c with state := 2 }, d, initial_pos d INIT_POS_DIR) := by
  unfold choke_control_sm
  rw [if_neg (by omega), if_pos h]

theorem choke_control_sm_state2 (b : build_t) (x : extern_t) (d : ecudata_t)
    (c : choke_st_t) (h : c.state = 2) :
    choke_control_sm b x d c =
      if !x.stpmot_is_busy then
        some ({ c with
                state := if CHECKBIT c.flags CF_POWERDOWN then 3 else 5,
                smpos := 0,
                flags := CLEARBIT c.flags (CF_SMDIR_CHG b) }, d, [])
      else some (c, d, []) := by
  unfold choke_control_sm
  rw [if_neg (by omega), if_neg (by omega), if_pos h]

theorem choke_control_sm_state3 (b : build_t) (x : extern_t) (d : ecudata_t)
    (c : choke_st_t) (h : c.state = 3) :
    choke_control_sm b x d c =
      if x.pwrrelay_get_state then
        some ({ c with flags := CLEARBIT c.flags CF_POWERDOWN, state := 5 }, d, [])
      else some (c, d, []) := by
  unfold choke_control_sm
  rw [if_neg (by omega), if_neg (by omega), if_neg (by omega), if_pos h]

theorem choke_control_sm_state5 (b : build_t) (x : extern_t) (d : ecudata_t)
    (c : choke_st_t) (h : c.state = 5) :
    choke_control_sm b x d c = normal_mode b x d c := by
  unfold choke_control_sm
  rw [if_neg (by omega), if_neg (by omega), if_neg (by omega), if_neg (by omega), if_pos h]

theorem choke_control_sm_state6 (b : build_t) (x : extern_t) (d : ecudata_t)
    (c : choke_st_t) (h : c.state = 6) :
    choke_control_sm b x d c =
      if !x.stpmot_is_busy then
        some (check_tst x d { c with state := 7 }, { d with choke_pos := 0 },
              [cmd_t.stpmot_dir SM_DIR_CCW, cmd_t.stpmot_run d.param.sm_steps])
      else some (check_tst x d c, d, []) := by
  unfold choke_control_sm
  rw [if_neg (by omega), if_neg (by omega), if_neg (by omega), if_neg (by omega),
    if_neg (by omega), if_pos h]

theorem choke_control_sm_state7 (b : build_t) (x : extern_t) (d : ecudata_t)
    (c : choke_st_t) (h : c.state = 7) :
    choke_control_sm b x d c =
      if !x.stpmot_is_busy then
        some (check_tst x d { c with state := 6 }, { d with choke_pos := 200 },
              [cmd_t.stpmot_dir SM_DIR_CW, cmd_t.stpmot_run d.param.sm_steps])
      else some (check_tst x d c, d, []) := by
  unfold choke_control_sm
  rw [if_neg (by omega), if_neg (by omega), if_neg (by omega), if_neg (by omega),
    if_neg (by omega), if_neg (by omega), if_pos h]

theorem choke_control_sm_default (b : build_t) (x : extern_t) (d : ecudata_t)
    (c : choke_st_t) (h0 : c.state ≠ 0) (h1 : c.state ≠ 1) (h2 : c.state ≠ 2)
    (h3 : c.state ≠ 3) (h5 : c.state ≠ 5) (h6 : c.state ≠ 6) (h7 : c.state ≠ 7) :
    choke_control_sm b x d c = some (check_tst x d c, d, []) := by
  unfold choke_control_sm
  rw [if_neg h0, if_neg h1, if_neg h2, if_neg h3, if_neg h5, if_neg h6, if_neg h7]

/-- A tick divides by zero only in the normal mode with `sm_steps = 0`. -/
theorem choke_control_isSome (b : build_t) (x : extern_t) (d : ecudata_t) (c : choke_st_t)
    (h : c.state = 5 → d.param.sm_steps ≠ 0) :
    (choke_control b x d c).isSome = true := by
  unfold choke_control
  split_ifs with h1 h2
  · simp [calc_percent_pos]
  · rfl
  · by_cases s0 : c.state = 0
    · rw [choke_control_sm_state0 b x d c s0]; rfl
    by_cases s1 : c.state = 1
    · rw [choke_control_sm_state1 b x d c s1]; rfl
    by_cases s2 : c.state = 2
    · rw [choke_control_sm_state2 b x d c s2]; split_ifs <;> rfl
    by_cases s3 : c.state = 3
    · rw [choke_control_sm_state3 b x d c s3]; split_ifs <;> rfl
    by_cases s5 : c.state = 5
    · rw [choke_control_sm_state5 b x d c s5, normal_mode_some b x d c (h s5)]; rfl
    by_cases s6 : c.state = 6
    · rw [choke_control_sm_state6 b x d c s6]; split_ifs <;> rfl
    by_cases s7 : c.state = 7
    · rw [choke_control_sm_state7 b x d c s7]; split_ifs <;> rfl
    rw [choke_control_sm_default b x d c s0 s1 s2 s3 s5 s6 s7]; rfl

/-- The commands of one tick: the seek-to-zero motion on a seek tick; else
nothing, or the stop in a busy cycle, or one direction command followed by one
run command in an idle cycle, or one duty command. -/
theorem choke_control_cmds (b : build_t) (x : extern_t) (d : ecudata_t) (c : choke_st_t)
    (r : choke_st_t × ecudata_t × List cmd_t) (h : choke_control b x d c = some r) :
    (seek_tick b x d c ∧ r.2.2 = initial_pos d INIT_POS_DIR) ∨
    (¬ seek_tick b x d c ∧
      (r.2.2 = [] ∨
       (x.stpmot_is_busy = true ∧ r.2.2 = [cmd_t.stpmot_run 0]) ∨
       (x.stpmot_is_busy = false ∧ ∃ dir n, r.2.2 = [cmd_t.stpmot_dir dir, cmd_t.stpmot_run n]) ∨
       ∃ v, r.2.2 = [cmd_t.vent_set_duty8 v])) := by
  by_cases hpwm : b.FUEL_INJECT = true ∧ x.IOP_IAC_PWM = true
  · -- PWM IAC
    refine Or.inr ⟨fun hk => hk.2.1 hpwm, Or.inr (Or.inr (Or.inr ?_))⟩
    unfold choke_control at h
    rw [if_pos hpwm] at h
    simp only [calc_percent_pos] at h
    rw [if_neg (by decide)] at h
    injection h with h
    subst h
    exact ⟨_, rfl⟩
  cases hstp : x.IOP_SM_STP
  · -- stepper not configured
    refine Or.inr ⟨fun hk => by have h1 := hk.1; rw [hstp] at h1; exact absurd h1 (by decide),
      Or.inl ?_⟩
    unfold choke_control at h
    rw [if_neg hpwm] at h
    simp only [hstp, Bool.not_false, if_true] at h
    injection h with h
    subst h
    rfl
  rw [choke_control_eq_sm b x d c hstp hpwm] at h
  by_cases s0 : c.state = 0
  · rw [choke_control_sm_state0 b x d c s0] at h
    injection h with h
    subst h
    cases hp : x.IOP_PWRRELAY
    · exact Or.inl ⟨⟨hstp, hpwm, Or.inl ⟨s0, hp⟩⟩, rfl⟩
    · refine Or.inr ⟨?_, Or.inl rfl⟩
      rintro ⟨_, _, ⟨_, h2⟩ | h2 | ⟨h2, _⟩⟩
      · rw [hp] at h2; exact absurd h2 (by decide)
      · omega
      · omega
  by_cases s1 : c.state = 1
  · rw [choke_control_sm_state1 b x d c s1] at h
    injection h with h
    subst h
    exact Or.inl ⟨⟨hstp, hpwm, Or.inr (Or.inl s1)⟩, rfl⟩
  by_cases s5 : c.state = 5
  · rw [choke_control_sm_state5 b x d c s5] at h
    obtain ⟨_, _, hc⟩ := normal_mode_eq_some b x d c r h
    by_cases ht : d.choke_testing ≠ 0
    · refine Or.inl ⟨⟨hstp, hpwm, Or.inr (Or.inr ⟨s5, ht⟩)⟩, ?_⟩
      rw [hc]; unfold normal_mode_branch; rw [if_pos ht]
    · refine Or.inr ⟨?_, ?_⟩
      · rintro ⟨_, _, ⟨h2, _⟩ | h2 | ⟨_, h2⟩⟩
        · omega
        · omega
        · exact ht h2
      · have hb : (normal_mode_branch b x d c).2.2 = (normal_mode_motion b x d c).2.2 := by
          unfold normal_mode_branch; rw [if_neg ht]
        obtain ⟨d1, c1, p1, hm⟩ := normal_mode_motion_cmds b x d c
        rw [hc, hb, hm]
        rcases sm_motion_control_cmds b x d1 c1 p1 with h1 | h1 | h1
        · exact Or.inl h1
        · exact Or.inr (Or.inl h1)
        · exact Or.inr (Or.inr (Or.inl h1))
  -- the remaining modes never seek
  have hns : ¬ seek_tick b x d c := by
    rintro ⟨_, _, ⟨h2, _⟩ | h2 | ⟨h2, _⟩⟩
    · exact s0 h2
    · exact s1 h2
    · exact s5 h2
  refine Or.inr ⟨hns, ?_⟩
  by_cases s2 : c.state = 2
  · rw [choke_control_sm_state2 b x d c s2] at h
    split_ifs at h <;> (injection h with h; subst h; exact Or.inl rfl)
  by_cases s3 : c.state = 3
  · rw [choke_control_sm_state3 b x d c s3] at h
    split_ifs at h <;> (injection h with h; subst h; exact Or.inl rfl)
  by_cases s6 : c.state = 6
  · rw [choke_control_sm_state6 b x d c s6] at h
    cases hb : x.stpmot_is_busy
    · simp only [hb, Bool.not_false, if_true] at h
      injection h with h; subst h
      exact Or.inr (Or.inr (Or.inl ⟨rfl, _, _, rfl⟩))
    · simp only [hb, Bool.not_true] at h
      injection h with h; subst h
      exact Or.inl rfl
  by_cases s7 : c.state = 7
  · rw [choke_control_sm_state7 b x d c s7] at h
    cases hb : x.stpmot_is_busy
    · simp only [hb, Bool.not_false, if_true] at h
      injection h with h; subst h
      exact Or.inr (Or.inr (Or.inl ⟨rfl, _, _, rfl⟩))
    · simp only [hb, Bool.not_true] at h
      injection h with h; subst h
      exact Or.inl rfl
  rw [choke_control_sm_default b x d c s0 s1 s2 s3 s5 s6 s7] at h
  injection h with h; subst h
  exact Or.inl rfl

/-- C7 (amended): in a tick of `choke_control` in which the actuator reports
busy, the seek-to-zero motion of mode INIT (without power management
configured), of mode PREPARE_POWERDOWN and of the test entry from NORMAL is
issued all the same: one set-direction command and one run command.  In every
other case (WAIT_INIT_MOTION, POWERED_DOWN, NORMAL without test request,
TEST_A, TEST_B, INIT with power management, the PWM and the disabled branch)
the tick issues no set-direction command and no run command with a nonzero
step count: it issues nothing, or the stop `run(0)`, or a duty command.  The
tick has a result unless it is a NORMAL tick with `sm_steps = 0`. -/
theorem C7_busy_tick (b : build_t) (x : extern_t) (d : ecudata_t) (c : choke_st_t)
    (hbusy : x.stpmot_is_busy = true) :
    ((c.state = 5 → d.param.sm_steps ≠ 0) → (choke_control b x d c).isSome = true) ∧
    ∀ r, choke_control b x d c = some r →
      (seek_tick b x d c →
        r.2.2 = initial_pos d INIT_POS_DIR ∧
        ∃ n, r.2.2 = [cmd_t.stpmot_dir INIT_POS_DIR, cmd_t.stpmot_run n]) ∧
      (¬ seek_tick b x d c →
        (r.2.2 = [] ∨ r.2.2 = [cmd_t.stpmot_run 0] ∨ ∃ v, r.2.2 = [cmd_t.vent_set_duty8 v]) ∧
        ∀ q ∈ r.2.2, is_dir_command q = false ∧ is_motion_command q = false) := by
  refine ⟨choke_control_isSome b x d c, fun r h => ?_⟩
  rcases choke_control_cmds b x d c r h with ⟨hk, hc⟩ | ⟨hk, hc⟩
  · refine ⟨fun _ => ⟨hc, ?_⟩, fun hn => absurd hk hn⟩
    obtain ⟨n, hn⟩ := initial_pos_shape d INIT_POS_DIR
    exact ⟨n, by rw [hc, hn]⟩
  · refine ⟨fun hs => absurd hs hk, fun _ => ?_⟩
    rcases hc with h0 | ⟨_, h0⟩ | ⟨hi, _⟩ | ⟨v, h0⟩
    · rw [h0]; exact ⟨Or.inl rfl, by simp⟩
    · rw [h0]; exact ⟨Or.inr (Or.inl rfl), by simp [is_dir_command, is_motion_command]⟩
    · rw [hbusy] at hi; exact absurd hi (by decide)
    · rw [h0]; exact ⟨Or.inr (Or.inr ⟨v, rfl⟩), by simp [is_dir_command, is_motion_command]⟩

/-- C7 at a concrete input: a busy tick in mode TEST_A has a result and issues
nothing. -/
theorem C7_busy_tick_witness :
    (choke_control ex_build ex_feedback_busy { ex_ecudata with choke_testing := 1 }
        { ex_chks with state := 6 }).isSome = true ∧
    ∀ r, choke_control ex_build ex_feedback_busy { ex_ecudata with choke_testing := 1 }
        { ex_chks with state := 6 } = some r →
      (r.2.2 = [] ∨ r.2.2 = [cmd_t.stpmot_run 0] ∨ ∃ v, r.2.2 = [cmd_t.vent_set_duty8 v]) ∧
      ∀ q ∈ r.2.2, is_dir_command q = false ∧ is_motion_command q = false :=
  ⟨(C7_busy_tick ex_build ex_feedback_busy { ex_ecudata with choke_testing := 1 }
      { ex_chks with state := 6 } (by decide)).1 (by decide),
   fun r h =>
    ((C7_busy_tick ex_build ex_feedback_busy { ex_ecudata with choke_testing := 1 }
        { ex_chks with state := 6 } (by decide)).2 r h).2
      (by unfold seek_tick; decide)⟩

/-- C7 as stated fails.  A tick in mode PREPARE_POWERDOWN with the actuator
busy issues the direction command and `run(206)` of the seek-to-zero motion.
The situation is reached in two ticks from NORMAL: a manual move by 10 steps with
the relay off starts a motion and enters PREPARE_POWERDOWN, and the next tick,
with the actuator busy, issues the seek-to-zero commands. -/
theorem C7_counterexample :
    ex_feedback_busy.stpmot_is_busy = true ∧
    (choke_control ex_build ex_feedback_busy ex_ecudata { ex_chks with state := 1 }).map
        (fun r => r.2.2) =
      some [cmd_t.stpmot_dir SM_DIR_CW, cmd_t.stpmot_run 206] ∧
    is_dir_command (cmd_t.stpmot_dir SM_DIR_CW) = true ∧
    is_motion_command (cmd_t.stpmot_run 206) = true ∧
    (choke_control ex_build ex_feedback_off { ex_ecudata with choke_manpos_d := 10 }
        { ex_chks with state := 5, flags := 2 }).map (fun r => (r.1.state, r.2.2)) =
      some (1, [cmd_t.stpmot_dir SM_DIR_CCW, cmd_t.stpmot_run 10]) ∧
    (choke_control_twice ex_build ex_feedback_off ex_feedback_busy
        { ex_ecudata with choke_manpos_d := 10 }
        { ex_chks with state := 5, flags := 2 }).map (fun r => r.2.2) =
      some [cmd_t.stpmot_dir SM_DIR_CW, cmd_t.stpmot_run 206] := by
  decide

/-- C8: one tick of `choke_control`, in any mode and for any inputs, issues at
most one set-direction command and at most one run command (the stop `run(0)`
counts as a run command).  The tick has a result unless it is a NORMAL tick
with `sm_steps = 0`. -/
theorem C8_one_command_per_tick (b : build_t) (x : extern_t) (d : ecudata_t)
    (c : choke_st_t) :
    ((c.state = 5 → d.param.sm_steps ≠ 0) → (choke_control b x d c).isSome = true) ∧
    ∀ r, choke_control b x d c = some r →
      (r.2.2.filter is_dir_command).length ≤ 1 ∧
      (r.2.2.filter is_run_command).length ≤ 1 := by
  refine ⟨choke_control_isSome b x d c, fun r h => ?_⟩
  rcases choke_control_cmds b x d c r h with ⟨_, hc⟩ | ⟨_, hc⟩
  · obtain ⟨n, hn⟩ := initial_pos_shape d INIT_POS_DIR
    rw [hc, hn]
    simp [is_dir_command, is_run_command]
  · rcases hc with h0 | ⟨_, h0⟩ | ⟨_, dir, n, h0⟩ | ⟨v, h0⟩ <;> rw [h0] <;>
      simp [is_dir_command, is_run_command]

/-- C8 at a concrete input: the idle NORMAL tick in manual mode with delta 10. -/
theorem C8_one_command_per_tick_witness :
    (choke_control ex_build ex_feedback { ex_ecudata with choke_manpos_d := 10 }
        { ex_chks with state := 5, flags := 2 }).isSome = true ∧
    ∀ r, choke_control ex_build ex_feedback { ex_ecudata with choke_manpos_d := 10 }
        { ex_chks with state := 5, flags := 2 } = some r →
      (r.2.2.filter is_dir_command).length ≤ 1 ∧
      (r.2.2.filter is_run_command).length ≤ 1 :=
  ⟨(C8_one_command_per_tick ex_build ex_feedback { ex_ecudata with choke_manpos_d := 10 }
      { ex_chks with state := 5, flags := 2 }).1 (by decide),
   (C8_one_command_per_tick ex_build ex_feedback { ex_ecudata with choke_manpos_d := 10 }
      { ex_chks with state := 5, flags := 2 }).2⟩

theorem choke_init_powerdown_clear (b : build_t) (c : choke_st_t) :
    (choke_init b c).state = 0 ∧ CHECKBIT (choke_init b c).flags CF_POWERDOWN = false := by
  unfold choke_init
  cases b.FUEL_INJECT <;>
    simp [CHECKBIT_CLEARBIT, CF_POWERDOWN, CF_MAN_CNTR, CF_CL_LOOP, CF_RPMREG_ENEX]

theorem CHECKBIT_CLEARBIT_SMDIR_CHG_POWERDOWN (b : build_t) (f : Nat) :
    CHECKBIT (CLEARBIT f (CF_SMDIR_CHG b)) CF_POWERDOWN = CHECKBIT f CF_POWERDOWN := by
  rw [CHECKBIT_CLEARBIT f _ _ (CF_SMDIR_CHG_lt b) (by decide)]
  rcases CF_SMDIR_CHG_cases b with h | h <;> rw [h] <;> simp [CF_POWERDOWN]

/-- C9 (amended): from the freshly initialised controller (mode INIT,
power-down pending clear) with the stepper enabled, the INIT tick moves to
WAIT_INIT_MOTION and a following tick in which the actuator reports idle moves
to NORMAL with the tracked position reset to 0, whatever the power relay
reports in either tick. -/
theorem C9_start_up (b : build_t) (x1 x2 : extern_t) (d1 d2 : ecudata_t) (c : choke_st_t)
    (hstp1 : x1.IOP_SM_STP = true)
    (hpwm1 : ¬ (b.FUEL_INJECT = true ∧ x1.IOP_IAC_PWM = true))
    (hstp2 : x2.IOP_SM_STP = true)
    (hpwm2 : ¬ (b.FUEL_INJECT = true ∧ x2.IOP_IAC_PWM = true))
    (hidle : x2.stpmot_is_busy = false) :
    (choke_init b c).state = 0 ∧
    CHECKBIT (choke_init b c).flags CF_POWERDOWN = false ∧
    ∃ r1, choke_control b x1 d1 (choke_init b c) = some r1 ∧ r1.1.state = 2 ∧
      ∃ r2, choke_control b x2 d2 r1.1 = some r2 ∧ r2.1.state = 5 ∧ r2.1.smpos = 0 := by
  obtain ⟨hs, hf⟩ := choke_init_powerdown_clear b c
  have e1 : choke_control b x1 d1 (choke_init b c) =
      some ({ choke_init b c with state := 2, prev_temp := d1.sens.temperat }, d1,
            if !x1.IOP_PWRRELAY then initial_pos d1 INIT_POS_DIR else []) := by
    rw [choke_control_eq_sm b x1 d1 _ hstp1 hpwm1, choke_control_sm_state0 b x1 d1 _ hs]
  have e2 : choke_control b x2 d2
      { choke_init b c with state := 2, prev_temp := d1.sens.temperat } =
      some ({ choke_init b c with
              state := 5, prev_temp := d1.sens.temperat, smpos := 0,
              flags := CLEARBIT (choke_init b c).flags (CF_SMDIR_CHG b) }, d2, []) := by
    rw [choke_control_eq_sm b x2 d2 _ hstp2 hpwm2, choke_control_sm_state2 b x2 d2 _ rfl]
    simp [hidle, hf]
  exact ⟨hs, hf, _, e1, rfl, _, e2, rfl, rfl⟩

/-- C9 at a concrete input: relay off in both ticks. -/
theorem C9_start_up_witness :
    ∃ r1, choke_control ex_build ex_feedback_off ex_ecudata (choke_init ex_build ex_chks)
        = some r1 ∧ r1.1.state = 2 ∧
      ∃ r2, choke_control ex_build ex_feedback_off ex_ecudata r1.1 = some r2 ∧
        r2.1.state = 5 ∧ r2.1.smpos = 0 :=
  (C9_start_up ex_build ex_feedback_off ex_feedback_off ex_ecudata ex_ecudata ex_chks
    (by decide) (by decide) (by decide) (by decide) (by decide)).2.2

/-- C9 as stated fails on the relay-off branch: from the freshly initialised
controller with the stepper enabled and the relay off, the INIT tick and a
following idle tick end in mode NORMAL (5), not POWERED_DOWN (3). -/
theorem C9_counterexample :
    ex_feedback_off.pwrrelay_get_state = false ∧
    ex_feedback_off.stpmot_is_busy = false ∧
    ex_feedback_off.IOP_SM_STP = true ∧
    (choke_control_twice ex_build ex_feedback_off ex_feedback_off ex_ecudata
        (choke_init ex_build ex_chks)).map (fun r => r.1.state) = some 5 ∧
    (choke_control_twice ex_build ex_feedback_off ex_feedback_off ex_ecudata
        (choke_init ex_build ex_chks)).map (fun r => r.1.state) ≠ some 3 ∧
    (choke_control_twice ex_build { ex_feedback_off with IOP_PWRRELAY := true }
        { ex_feedback_off with IOP_PWRRELAY := true } ex_ecudata
        (choke_init ex_build ex_chks)).map (fun r => r.1.state) = some 5 := by
  decide

theorem check_pwr_off (x : extern_t) (c : choke_st_t) (h : x.pwrrelay_get_state = false) :
    (check_pwr x c).state = 1 ∧ CHECKBIT (check_pwr x c).flags CF_POWERDOWN = true := by
  have e : check_pwr x c = { c with flags := SETBIT c.flags CF_POWERDOWN, state := 1 } := by
    unfold check_pwr
    rw [if_pos (by simp [h])]
  rw [e]
  refine ⟨rfl, ?_⟩
  show CHECKBIT (SETBIT c.flags CF_POWERDOWN) CF_POWERDOWN = true
  rw [CHECKBIT_SETBIT]
  simp

/-- C11: for every state in WAIT_INIT_MOTION on the stepper branch, a tick with
the actuator idle sets the tracked position to 0, clears reversal-pending and
moves to POWERED_DOWN if power-down pending is set and to NORMAL otherwise,
changing nothing else; a tick with the actuator busy leaves the whole state
unchanged.  Neither tick issues a command or touches the ECU data. -/
theorem C11_wait_init_motion (b : build_t) (x : extern_t) (d : ecudata_t) (c : choke_st_t)
    (hstp : x.IOP_SM_STP = true)
    (hpwm : ¬ (b.FUEL_INJECT = true ∧ x.IOP_IAC_PWM = true))
    (hs : c.state = 2) :
    (x.stpmot_is_busy = false →
      choke_control b x d c =
        some ({ c with
                state := if CHECKBIT c.flags CF_POWERDOWN then 3 else 5,
                smpos := 0,
                flags := CLEARBIT c.flags (CF_SMDIR_CHG b) }, d, []) ∧
      CHECKBIT (CLEARBIT c.flags (CF_SMDIR_CHG b)) (CF_SMDIR_CHG b) = false ∧
      CHECKBIT (CLEARBIT c.flags (CF_SMDIR_CHG b)) CF_POWERDOWN =
        CHECKBIT c.flags CF_POWERDOWN ∧
      (CHECKBIT c.flags CF_POWERDOWN = true →
        ∃ r, choke_control b x d c = some r ∧ r.1.state = 3 ∧ r.1.smpos = 0 ∧ r.2.2 = []) ∧
      (CHECKBIT c.flags CF_POWERDOWN = false →
        ∃ r, choke_control b x d c = some r ∧ r.1.state = 5 ∧ r.1.smpos = 0 ∧ r.2.2 = [])) ∧
    (x.stpmot_is_busy = true → choke_control b x d c = some (c, d, [])) := by
  rw [choke_control_eq_sm b x d c hstp hpwm, choke_control_sm_state2 b x d c hs]
  constructor
  · intro hidle
    have e : (if (!x.stpmot_is_busy) = true then
        some (({ c with
                state := if CHECKBIT c.flags CF_POWERDOWN then 3 else 5,
                smpos := 0,
                flags := CLEARBIT c.flags (CF_SMDIR_CHG b) } : choke_st_t), d, ([] : List cmd_t))
        else some (c, d, [])) =
        some ({ c with
                state := if CHECKBIT c.flags CF_POWERDOWN then 3 else 5,
                smpos := 0,
                flags := CLEARBIT c.flags (CF_SMDIR_CHG b) }, d, []) := by
      rw [if_pos (by simp [hidle])]
    rw [e]
    refine ⟨rfl, CHECKBIT_CLEARBIT_SMDIR_CHG b c.flags,
      CHECKBIT_CLEARBIT_SMDIR_CHG_POWERDOWN b c.flags, ?_, ?_⟩
    · intro hpd
      exact ⟨_, rfl, by simp [hpd], rfl, rfl⟩
    · intro hpd
      exact ⟨_, rfl, by simp [hpd], rfl, rfl⟩
  · intro hbusy
    rw [if_neg (by simp [hbusy])]

/-- C11 at a concrete input: idle, power-down pending clear: to NORMAL. -/
theorem C11_wait_init_motion_witness :
    choke_control ex_build ex_feedback ex_ecudata
        { ex_chks with state := 2, smpos := 77, flags := 8 } =
      some ({ ex_chks with state := 5, smpos := 0, flags := 0 }, ex_ecudata, []) :=
  ((C11_wait_init_motion ex_build ex_feedback ex_ecudata
      { ex_chks with state := 2, smpos := 77, flags := 8 }
      (by decide) (by decide) (by decide)).1 (by decide)).1

/-- C12 (amended): the seek-to-zero motion issued by `initial_pos` from INIT,
PREPARE_POWERDOWN and on test entry is one command in the initial-position
direction CW followed by one run command.  Unless the throttle limit switch
option applies, and for `sm_steps` within 32..63550, it commands
`sm_steps + sm_steps / 32` steps, strictly more than `sm_steps`.  When the
option applies (`carb = 0` and `CKF_USETHROTTLEPOS` set) it commands
`sm_steps / 4` steps, a quarter of the nominal travel. -/
theorem C12_seek_to_zero (d : ecudata_t) :
    (∃ n, initial_pos d INIT_POS_DIR = [cmd_t.stpmot_dir SM_DIR_CW, cmd_t.stpmot_run n]) ∧
    (¬ (d.sens.carb = 0 ∧ CHECKBIT d.param.choke_flags CKF_USETHROTTLEPOS = true) →
      32 ≤ d.param.sm_steps → d.param.sm_steps ≤ 63550 →
      initial_pos d INIT_POS_DIR =
        [cmd_t.stpmot_dir SM_DIR_CW,
         cmd_t.stpmot_run (d.param.sm_steps + d.param.sm_steps / 32)] ∧
      d.param.sm_steps < d.param.sm_steps + d.param.sm_steps / 32) ∧
    ((d.sens.carb = 0 ∧ CHECKBIT d.param.choke_flags CKF_USETHROTTLEPOS = true) →
      initial_pos d INIT_POS_DIR =
        [cmd_t.stpmot_dir SM_DIR_CW, cmd_t.stpmot_run (d.param.sm_steps / 4)] ∧
      (0 < d.param.sm_steps → d.param.sm_steps / 4 < d.param.sm_steps)) ∧
    (∀ (b : build_t) (x : extern_t) (c : choke_st_t) (r : choke_st_t × ecudata_t × List cmd_t),
      seek_tick b x d c → choke_control b x d c = some r →
        r.2.2 = initial_pos d INIT_POS_DIR) := by
  refine ⟨initial_pos_shape d INIT_POS_DIR, ?_, ?_, ?_⟩
  · intro hn h1 h2
    have hu : u16 (d.param.sm_steps + d.param.sm_steps / 32) =
        d.param.sm_steps + d.param.sm_steps / 32 := by unfold u16; omega
    refine ⟨?_, by omega⟩
    unfold initial_pos
    rw [if_neg hn, hu]
    rfl
  · intro hy
    refine ⟨?_, fun h0 => by omega⟩
    unfold initial_pos
    rw [if_pos hy]
    rfl
  · intro b x c r hk hr
    rcases choke_control_cmds b x d c r hr with ⟨_, h⟩ | ⟨hn, _⟩
    · exact h
    · exact absurd hk hn

/-- C12 at a concrete input: `sm_steps = 200` without the throttle option gives
`run(206)`. -/
theorem C12_seek_to_zero_witness :
    initial_pos ex_ecudata INIT_POS_DIR =
      [cmd_t.stpmot_dir SM_DIR_CW, cmd_t.stpmot_run 206] ∧ (200 : Int) < 206 :=
  ((C12_seek_to_zero ex_ecudata).2.1 (by decide) (by decide) (by decide))

/-- C12 as stated fails: with `sm_steps = 200`, the throttle limit switch
closed (`carb = 0`) and `CKF_USETHROTTLEPOS` set, the seek-to-zero motion of a
PREPARE_POWERDOWN tick commands 50 steps, fewer than `sm_steps`. -/
theorem C12_counterexample :
    (0 : Int) < ({ ex_ecudata with param := { ex_params with choke_flags := 4 } }
      : ecudata_t).param.sm_steps ∧
    initial_pos { ex_ecudata with param := { ex_params with choke_flags := 4 } } INIT_POS_DIR =
      [cmd_t.stpmot_dir SM_DIR_CW, cmd_t.stpmot_run 50] ∧
    (choke_control ex_build ex_feedback
        { ex_ecudata with param := { ex_params with choke_flags := 4 } }
        { ex_chks with state := 1 }).map (fun r => r.2.2) =
      some [cmd_t.stpmot_dir SM_DIR_CW, cmd_t.stpmot_run 50] ∧
    ¬ ((200 : Int) < 50) := by
  decide

theorem check_tst_held (x : extern_t) (d : ecudata_t) (c : choke_st_t)
    (ht : d.choke_testing ≠ 0) (hon : x.pwrrelay_get_state = true) :
    check_tst x d c = c := by
  unfold check_tst check_pwr
  rw [if_neg ht, if_neg (by simp [hon])]

/-- One idle tick of the test oscillation, from TEST_A or TEST_B. -/
theorem test_tick_idle (b : build_t) (x : extern_t) (d : ecudata_t) (c : choke_st_t)
    (hstp : x.IOP_SM_STP = true)
    (hpwm : ¬ (b.FUEL_INJECT = true ∧ x.IOP_IAC_PWM = true))
    (hidle : x.stpmot_is_busy = false) (hon : x.pwrrelay_get_state = true)
    (ht : d.choke_testing ≠ 0) (hs : c.state = 6 ∨ c.state = 7) :
    choke_control b x d c =
      some ({ c with state := 13 - c.state },
            { d with choke_pos := if c.state = 6 then 0 else 200 },
            [cmd_t.stpmot_dir (if c.state = 6 then SM_DIR_CCW else SM_DIR_CW),
             cmd_t.stpmot_run d.param.sm_steps]) := by
  rw [choke_control_eq_sm b x d c hstp hpwm]
  rcases hs with hs | hs
  · rw [choke_control_sm_state6 b x d c hs, if_pos (by simp [hidle]),
      check_tst_held x d _ ht hon, hs]
    rfl
  · rw [choke_control_sm_state7 b x d c hs, if_pos (by simp [hidle]),
      check_tst_held x d _ ht hon, hs]
    rfl

/-- One busy tick in TEST_A or TEST_B with the request held and the relay on. -/
theorem test_tick_busy (b : build_t) (x : extern_t) (d : ecudata_t) (c : choke_st_t)
    (hstp : x.IOP_SM_STP = true)
    (hpwm : ¬ (b.FUEL_INJECT = true ∧ x.IOP_IAC_PWM = true))
    (hbusy : x.stpmot_is_busy = true) (hon : x.pwrrelay_get_state = true)
    (ht : d.choke_testing ≠ 0) (hs : c.state = 6 ∨ c.state = 7) :
    choke_control b x d c = some (c, d, []) := by
  rw [choke_control_eq_sm b x d c hstp hpwm]
  rcases hs with hs | hs
  · rw [choke_control_sm_state6 b x d c hs, if_neg (by simp [hbusy]),
      check_tst_held x d _ ht hon]
  · rw [choke_control_sm_state7 b x d c hs, if_neg (by simp [hbusy]),
      check_tst_held x d _ ht hon]

/-- The test oscillation over any number of idle ticks, from TEST_A or
TEST_B. -/
theorem test_run_idle (b : build_t) :
    ∀ (xs : List extern_t) (c : choke_st_t) (d : ecudata_t),
      (∀ x ∈ xs, x.IOP_SM_STP = true ∧ ¬ (b.FUEL_INJECT = true ∧ x.IOP_IAC_PWM = true) ∧
        x.stpmot_is_busy = false ∧ x.pwrrelay_get_state = true) →
      (c.state = 6 ∨ c.state = 7) → d.choke_testing ≠ 0 →
      ∃ rs, choke_run b c d xs = some rs ∧ rs.length = xs.length ∧
        ∀ (k : Nat) (r : choke_st_t × ecudata_t × List cmd_t), rs[k]? = some r →
          r.1.state = 13 - test_mode_at c.state k ∧
          r.2.1.choke_pos = (if test_mode_at c.state k = 6 then 0 else 200) ∧
          r.2.2 = [cmd_t.stpmot_dir
                     (if test_mode_at c.state k = 6 then SM_DIR_CCW else SM_DIR_CW),
                   cmd_t.stpmot_run d.param.sm_steps] := by
  intro xs
  induction xs with
  | nil =>
    intro c d _ _ _
    exact ⟨[], rfl, rfl, fun k r h => by simp at h⟩
  | cons x xs ih =>
    intro c d hall hs ht
    obtain ⟨hstp, hpwm, hidle, hon⟩ := hall x (List.mem_cons_self x xs)
    have htick := test_tick_idle b x d c hstp hpwm hidle hon ht hs
    have hs1 : (13 - c.state = 6 ∨ 13 - c.state = 7) := by omega
    obtain ⟨rs, hrun, hlen, hrs⟩ :=
      ih { c with state := 13 - c.state }
        { d with choke_pos := if c.state = 6 then 0 else 200 }
        (fun y hy => hall y (List.mem_cons_of_mem x hy)) hs1 ht
    refine ⟨(({ c with state := 13 - c.state } : choke_st_t),
            ({ d with choke_pos := if c.state = 6 then 0 else 200 } : ecudata_t),
            [cmd_t.stpmot_dir (if c.state = 6 then SM_DIR_CCW else SM_DIR_CW),
             cmd_t.stpmot_run d.param.sm_steps]) :: rs, ?_, by simp [hlen], ?_⟩
    · simp only [choke_run, htick, hrun]
    · intro k r hk
      cases k with
      | zero =>
        simp only [List.getElem?_cons_zero, Option.some.injEq] at hk
        subst hk
        simp [test_mode_at]
      | succ k =>
        simp only [List.getElem?_cons_succ] at hk
        have h := hrs k r hk
        have e : test_mode_at (13 - c.state) k = test_mode_at c.state (k + 1) := by
          unfold test_mode_at
          by_cases hk2 : k % 2 = 0
          · have : ¬ ((k + 1) % 2 = 0) := by omega
            rw [if_pos hk2, if_neg this]
          · have : (k + 1) % 2 = 0 := by omega
            rw [if_neg hk2, if_pos this]
            omega
        simp only [e] at h
        exact h

/-- C13: with the stepper enabled, the test request held, the power relay on
and the actuator idle at every tick, a run of ticks starting in TEST_A has a
result for every tick, and tick number `k` (from 0) reports position 0,
commands CCW and `sm_steps` steps and ends in TEST_B when `k` is even, and
reports 200, commands CW and `sm_steps` steps and ends in TEST_A when `k` is
odd.  With the request held and the relay on, a tick in TEST_A or TEST_B with
the actuator busy changes nothing and issues no command. -/
theorem C13_test_oscillation (b : build_t) (xs : List extern_t) (c : choke_st_t)
    (d : ecudata_t)
    (hall : ∀ x ∈ xs, x.IOP_SM_STP = true ∧ ¬ (b.FUEL_INJECT = true ∧ x.IOP_IAC_PWM = true) ∧
        x.stpmot_is_busy = false ∧ x.pwrrelay_get_state = true)
    (hs : c.state = 6) (ht : d.choke_testing ≠ 0) :
    (∃ rs, choke_run b c d xs = some rs ∧ rs.length = xs.length ∧
      ∀ (k : Nat) (r : choke_st_t × ecudata_t × List cmd_t), rs[k]? = some r →
        (k % 2 = 0 →
          r.2.1.choke_pos = 0 ∧ r.1.state = 7 ∧
          r.2.2 = [cmd_t.stpmot_dir SM_DIR_CCW, cmd_t.stpmot_run d.param.sm_steps]) ∧
        (k % 2 = 1 →
          r.2.1.choke_pos = 200 ∧ r.1.state = 6 ∧
          r.2.2 = [cmd_t.stpmot_dir SM_DIR_CW, cmd_t.stpmot_run d.param.sm_steps])) ∧
    (∀ (x : extern_t) (c1 : choke_st_t) (d1 : ecudata_t),
      x.IOP_SM_STP = true → ¬ (b.FUEL_INJECT = true ∧ x.IOP_IAC_PWM = true) →
      x.stpmot_is_busy = true → x.pwrrelay_get_state = true → d1.choke_testing ≠ 0 →
      (c1.state = 6 ∨ c1.state = 7) → choke_control b x d1 c1 = some (c1, d1, [])) := by
  constructor
  · obtain ⟨rs, hrun, hlen, hrs⟩ := test_run_idle b xs c d hall (Or.inl hs) ht
    refine ⟨rs, hrun, hlen, fun k r hk => ?_⟩
    obtain ⟨h1, h2, h3⟩ := hrs k r hk
    rw [hs] at h1 h2 h3
    constructor
    · intro hk2
      have e : test_mode_at 6 k = 6 := by unfold test_mode_at; rw [if_pos hk2]
      rw [e] at h1 h2 h3
      exact ⟨by simpa using h2, by omega, by simpa using h3⟩
    · intro hk2
      have e : test_mode_at 6 k = 7 := by
        unfold test_mode_at; rw [if_neg (by omega)]; rfl
      rw [e] at h1 h2 h3
      exact ⟨by simpa using h2, by omega, by simpa using h3⟩
  · intro x c1 d1 hstp hpwm hbusy hon ht1 hs1
    exact test_tick_busy b x d1 c1 hstp hpwm hbusy hon ht1 hs1

/-- C13 on four idle ticks from TEST_A with `sm_steps = 200`: the reported
positions are 0, 200, 0, 200. -/
theorem C13_test_oscillation_witness :
    (choke_run ex_build { ex_chks with state := 6 } { ex_ecudata with choke_testing := 1 }
        [ex_feedback, ex_feedback, ex_feedback, ex_feedback]).map
        (fun rs => rs.map (fun r => (r.2.1.choke_pos, r.1.state))) =
      some [(0, 7), (200, 6), (0, 7), (200, 6)] ∧
    ∃ rs, choke_run ex_build { ex_chks with state := 6 }
        { ex_ecudata with choke_testing := 1 }
        [ex_feedback, ex_feedback, ex_feedback, ex_feedback] = some rs ∧ rs.length = 4 :=
  ⟨by decide,
   let ⟨rs, h1, h2, _⟩ := (C13_test_oscillation ex_build
      [ex_feedback, ex_feedback, ex_feedback, ex_feedback] { ex_chks with state := 6 }
      { ex_ecudata with choke_testing := 1 } (by decide) (by decide) (by decide)).1
   ⟨rs, h1, h2⟩⟩

theorem check_tst_withdrawn (x : extern_t) (d : ecudata_t) (c : choke_st_t)
    (ht : d.choke_testing = 0) :
    (check_tst x d c).state = 1 ∧
    (x.pwrrelay_get_state = false → CHECKBIT (check_tst x d c).flags CF_POWERDOWN = true) ∧
    (x.pwrrelay_get_state = true → (check_tst x d c).flags = c.flags) := by
  unfold check_tst
  rw [if_pos ht]
  cases hr : x.pwrrelay_get_state
  · obtain ⟨h1, h2⟩ := check_pwr_off x { c with state := 1 } hr
    exact ⟨h1, fun _ => h2, fun h => absurd h (by decide)⟩
  · have e : check_pwr x { c with state := 1 } = { c with state := 1 } := by
      unfold check_pwr
      rw [if_neg (by simp [hr])]
    rw [e]
    exact ⟨rfl, fun h => absurd h (by decide), fun _ => rfl⟩

/-- C14: on the stepper branch, every tick in TEST_A or TEST_B in which the
test request is withdrawn has a result and ends in PREPARE_POWERDOWN, whether
the actuator is busy or idle; in that tick the relay is read: with the relay
off power-down pending is set, with the relay on the flag byte keeps its
previous value. -/
theorem C14_leave_test (b : build_t) (x : extern_t) (d : ecudata_t) (c : choke_st_t)
    (hstp : x.IOP_SM_STP = true)
    (hpwm : ¬ (b.FUEL_INJECT = true ∧ x.IOP_IAC_PWM = true))
    (hs : c.state = 6 ∨ c.state = 7) (ht : d.choke_testing = 0) :
    ∃ r, choke_control b x d c = some r ∧ r.1.state = 1 ∧
      (x.pwrrelay_get_state = false → CHECKBIT r.1.flags CF_POWERDOWN = true) ∧
      (x.pwrrelay_get_state = true → r.1.flags = c.flags ∧
        CHECKBIT r.1.flags CF_POWERDOWN = CHECKBIT c.flags CF_POWERDOWN) := by
  rw [choke_control_eq_sm b x d c hstp hpwm]
  have key : ∀ (c1 : choke_st_t) (d1 : ecudata_t) (l : List cmd_t), c1.flags = c.flags →
      ∃ r, some (check_tst x d c1, d1, l) = some r ∧ r.1.state = 1 ∧
        (x.pwrrelay_get_state = false → CHECKBIT r.1.flags CF_POWERDOWN = true) ∧
        (x.pwrrelay_get_state = true → r.1.flags = c.flags ∧
          CHECKBIT r.1.flags CF_POWERDOWN = CHECKBIT c.flags CF_POWERDOWN) := by
    intro c1 d1 l hf
    obtain ⟨h1, h2, h3⟩ := check_tst_withdrawn x d c1 ht
    refine ⟨_, rfl, h1, h2, fun hon => ?_⟩
    have e : (check_tst x d c1).flags = c.flags := by rw [h3 hon, hf]
    exact ⟨e, by rw [e]⟩
  rcases hs with hs | hs
  · rw [choke_control_sm_state6 b x d c hs]
    split_ifs
    · exact key _ _ _ rfl
    · exact key _ _ _ rfl
  · rw [choke_control_sm_state7 b x d c hs]
    split_ifs
    · exact key _ _ _ rfl
    · exact key _ _ _ rfl

/-- C14 at a concrete input: TEST_B, busy, request withdrawn, relay off. -/
theorem C14_leave_test_witness :
    ∃ r, choke_control ex_build { ex_feedback_off with stpmot_is_busy := true } ex_ecudata
        { ex_chks with state := 7 } = some r ∧ r.1.state = 1 ∧
      CHECKBIT r.1.flags CF_POWERDOWN = true :=
  let ⟨r, h1, h2, h3, _⟩ := C14_leave_test ex_build
    { ex_feedback_off with stpmot_is_busy := true } ex_ecudata { ex_chks with state := 7 }
    (by decide) (by decide) (by decide) (by decide)
  ⟨r, h1, h2, h3 (by decide)⟩

/-- C16: `choke_is_ready` returns true exactly when the mode is NORMAL (5) or
POWERED_DOWN (3) or the stepper output is not configured; with the stepper
configured it returns false in INIT, PREPARE_POWERDOWN, WAIT_INIT_MOTION,
TEST_A and TEST_B. -/
theorem C16_choke_is_ready (x : extern_t) (c : choke_st_t) :
    (choke_is_ready x c = true ↔ (c.state = 5 ∨ c.state = 3 ∨ x.IOP_SM_STP = false)) ∧
    (x.IOP_SM_STP = true →
      (c.state = 0 ∨ c.state = 1 ∨ c.state = 2 ∨ c.state = 6 ∨ c.state = 7) →
      choke_is_ready x c = false) := by
  have h1 : choke_is_ready x c = true ↔
      (c.state = 5 ∨ c.state = 3 ∨ x.IOP_SM_STP = false) := by
    unfold choke_is_ready
    simp only [Bool.or_eq_true, decide_eq_true_eq, Bool.not_eq_true']
    tauto
  refine ⟨h1, fun hstp hs => ?_⟩
  cases hr : choke_is_ready x c
  · rfl
  · rcases h1.1 hr with h | h | h
    · omega
    · omega
    · rw [hstp] at h; exact absurd h (by decide)

/-- C16 at a concrete input: WAIT_INIT_MOTION with the stepper configured is
not ready. -/
theorem C16_choke_is_ready_witness :
    choke_is_ready ex_feedback { ex_chks with state := 2 } = false :=
  (C16_choke_is_ready ex_feedback { ex_chks with state := 2 }).2 (by decide) (by decide)

/-- C17: whatever the state before, `choke_init` leaves the mode at INIT (0)
and the startup sub-state at 0, clears the power-down and the manual-control
flag, and in the carburetor build zeroes the previous regulator output and
clears the exit-allowed flag, in the injection build clears the closed-loop
flag and zeroes the previous RPM error and the position accumulator. -/
theorem C17_choke_init (b : build_t) (c : choke_st_t) :
    (choke_init b c).state = 0 ∧
    (choke_init b c).strt_mode = 0 ∧
    CHECKBIT (choke_init b c).flags CF_POWERDOWN = false ∧
    CHECKBIT (choke_init b c).flags CF_MAN_CNTR = false ∧
    (b.FUEL_INJECT = false →
      (choke_init b c).rpmreg_prev = 0 ∧
      CHECKBIT (choke_init b c).flags CF_RPMREG_ENEX = false) ∧
    (b.FUEL_INJECT = true →
      CHECKBIT (choke_init b c).flags CF_CL_LOOP = false ∧
      (choke_init b c).prev_rpm_error = 0 ∧
      (choke_init b c).iac_pos = 0) := by
  unfold choke_init
  cases hb : b.FUEL_INJECT <;>
    simp [CHECKBIT_CLEARBIT, CF_POWERDOWN, CF_MAN_CNTR, CF_CL_LOOP, CF_RPMREG_ENEX]

/-- C17 at a concrete input: all flags set, carburetor build. -/
theorem C17_choke_init_witness :
    (choke_init ex_build ex_chks_used).rpmreg_prev = 0 ∧
    CHECKBIT (choke_init ex_build ex_chks_used).flags CF_RPMREG_ENEX = false :=
  (C17_choke_init ex_build ex_chks_used).2.2.2.2.1 (by decide)

theorem ecudata_rpm_reg_self (d : ecudata_t) :
    d = { d with choke_rpm_reg := d.choke_rpm_reg } := by
  cases d; rfl

/-- The only field of the ECU data that `calc_startup_corr` writes is
`choke_rpm_reg`. -/
theorem calc_startup_corr_ecudata (x : extern_t) (d : ecudata_t) (c : choke_st_t) :
    ∃ v, (calc_startup_corr x d c).2.2 = { d with choke_rpm_reg := v } := by
  have hexit : ∀ rc, ∃ v, (rpmreg_exit_check d rc).2.2 = { d with choke_rpm_reg := v } := by
    intro rc
    unfold rpmreg_exit_check
    split_ifs
    · exact ⟨0, rfl⟩
    · exact ⟨_, ecudata_rpm_reg_self d⟩
  have hgas : ∀ r : Int × choke_st_t × ecudata_t,
      (∃ v, r.2.2 = { d with choke_rpm_reg := v }) →
      ∃ v, (rpmreg_gas_off r).2.2 = { d with choke_rpm_reg := v } := by
    intro r hr
    obtain ⟨v, hv⟩ := hr
    unfold rpmreg_gas_off
    split_ifs
    · exact ⟨0, by simp only [hv]⟩
    · exact ⟨v, hv⟩
  have hreg : ∃ v, (startup_rpm_regulation x d c).2.2 = { d with choke_rpm_reg := v } := by
    unfold startup_rpm_regulation
    apply hgas
    split_ifs
    · exact hexit _
    · exact ⟨_, ecudata_rpm_reg_self d⟩
  unfold calc_startup_corr
  split_ifs <;>
    first
    | exact hreg
    | exact ⟨_, ecudata_rpm_reg_self d⟩
    | exact ⟨_, rfl⟩

/-- A call of `sm_motion_control` leaves every flag other than `CF_SMDIR_CHG`
as it was. -/
theorem sm_motion_control_other_flags (b : build_t) (x : extern_t) (d : ecudata_t)
    (c : choke_st_t) (pos : Int) (j : Nat) (hj : j < 8) (hne : CF_SMDIR_CHG b ≠ j) :
    CHECKBIT (sm_motion_control b x d c pos).1.flags j = CHECKBIT c.flags j := by
  have hclr : CHECKBIT (CLEARBIT c.flags (CF_SMDIR_CHG b)) j = CHECKBIT c.flags j := by
    rw [CHECKBIT_CLEARBIT _ _ _ (CF_SMDIR_CHG_lt b) hj]; simp [hne]
  have hset : CHECKBIT (SETBIT c.flags (CF_SMDIR_CHG b)) j = CHECKBIT c.flags j := by
    rw [CHECKBIT_SETBIT]; simp [hne]
  have hidle : ∀ c1 : choke_st_t, CHECKBIT c1.flags (CF_SMDIR_CHG b) = false →
      x.stpmot_is_busy = false →
      (sm_motion_control b x d c1 pos).1.flags = c1.flags := by
    intro c1 h1 h2
    rw [sm_motion_control_idle16 b x d c1 pos h1 h2]
    split_ifs <;> rfl
  cases hb : x.stpmot_is_busy
  · cases hf : CHECKBIT c.flags (CF_SMDIR_CHG b)
    · rw [hidle c hf hb]
    · rw [sm_motion_control_pending_idle b x d c pos hf hb,
        hidle _ (CHECKBIT_CLEARBIT_SMDIR_CHG b c.flags) hb]
      exact hclr
  · cases hf : CHECKBIT c.flags (CF_SMDIR_CHG b)
    · by_cases hs : (i16 (c.smpos - c.smpos_prev) < 0 ↔
          i16 (restrict_value_to pos 0 (i16 d.param.sm_steps) - c.smpos_prev) < 0)
      · rw [sm_motion_control_busy_agree b x d c pos hf hb hs]
      · rw [sm_motion_control_busy_differ b x d c pos hf hb hs]
        exact hset
    · rw [sm_motion_control_pending_busy b x d c pos hf hb]

theorem CF_SMDIR_CHG_ne_MAN_CNTR (b : build_t) : CF_SMDIR_CHG b ≠ CF_MAN_CNTR := by
  rcases CF_SMDIR_CHG_cases b with h | h <;> rw [h] <;> decide

theorem check_pwr_other_flags (x : extern_t) (c : choke_st_t) (j : Nat)
    (hne : CF_POWERDOWN ≠ j) :
    CHECKBIT (check_pwr x c).flags j = CHECKBIT c.flags j := by
  unfold check_pwr
  split_ifs
  · show CHECKBIT (SETBIT c.flags CF_POWERDOWN) j = CHECKBIT c.flags j
    rw [CHECKBIT_SETBIT]; simp [hne]
  · rfl

/-- The manual branch of the normal mode (flag `CF_MAN_CNTR` set). -/
theorem normal_mode_motion_manual (b : build_t) (x : extern_t) (d : ecudata_t)
    (c : choke_st_t) (hm : CHECKBIT c.flags CF_MAN_CNTR = true) :
    normal_mode_motion b x d c =
      ((sm_motion_control b x { d with choke_manpos_d := 0 } c
          (i16 (c.smpos + d.choke_manpos_d))).1,
       { d with choke_manpos_d := 0 },
       (sm_motion_control b x { d with choke_manpos_d := 0 } c
          (i16 (c.smpos + d.choke_manpos_d))).2) := by
  unfold normal_mode_motion
  rw [if_neg (by simp [hm])]

/-- In the sub-states 0 (starting) and 1 (waiting), and for any value outside
0..3, `calc_startup_corr` returns the open-loop correction computed after the
`switch`. -/
theorem calc_startup_corr_fallback (x : extern_t) (d : ecudata_t) (c : choke_st_t)
    (h : c.strt_mode ≠ 2 ∧ c.strt_mode ≠ 3) :
    (calc_startup_corr x d c).1 = startup_corr_fallback d := by
  unfold calc_startup_corr
  split_ifs <;> first | rfl | omega

theorem i16_of_fits (v : Int) (h0 : 0 ≤ v) (h1 : v ≤ 32767) : i16 v = v := by
  unfold i16; omega

/-- The interpolated correction of the last branch of `startup_corr_fallback`
for operands in the range of their types. -/
theorem startup_interpolation (s p : Int) (hs0 : 0 ≤ s) (hs1 : s ≤ 65535)
    (hp0 : 0 ≤ p) (hp1 : p ≤ 255) :
    (i32 (s * p)).tdiv 200 = s * p / 200 ∧ 0 ≤ s * p / 200 := by
  have h0 : 0 ≤ s * p := mul_nonneg hs0 hp0
  have h1 : s * p ≤ 65535 * 255 := mul_le_mul hs1 hp1 hp0 (by norm_num)
  generalize s * p = q at h0 h1
  have e : i32 q = q := by unfold i32; omega
  rw [e, Int.tdiv_eq_ediv h0 (by norm_num)]
  exact ⟨rfl, by omega⟩

/-- C18 (amended): in the carburetor build, `calc_startup_corr` called in
sub-state STARTING (0) or WARMUP_DELAY (1), with `sm_steps` an unsigned 16-bit
and `choke_startup_corr` an unsigned 8-bit value, returns 0 if the coolant
temperature is above `choke_corr_temp` or the fuel is gas with
`CKF_OFFSTRTADDONGAS` set; otherwise, if the temperature is below 0 degrees,
`sm_steps` as `int16_t`, which is `sm_steps` itself when `sm_steps ≤ 32767`;
otherwise `floor(sm_steps * choke_startup_corr / 200)`, computed in 32 bits,
as `int16_t`, which is that value itself when it does not exceed 32767. -/
theorem C18_fallback_correction (x : extern_t) (d : ecudata_t) (c : choke_st_t)
    (hm : c.strt_mode = 0 ∨ c.strt_mode = 1)
    (hs0 : 0 ≤ d.param.sm_steps) (hs1 : d.param.sm_steps ≤ 65535)
    (hp0 : 0 ≤ d.param.choke_startup_corr) (hp1 : d.param.choke_startup_corr ≤ 255) :
    ((d.sens.temperat > d.param.choke_corr_temp ∨
        (d.sens.gas ≠ 0 ∧ CHECKBIT d.param.choke_flags CKF_OFFSTRTADDONGAS = true)) →
      (calc_startup_corr x d c).1 = 0) ∧
    (¬ (d.sens.temperat > d.param.choke_corr_temp ∨
        (d.sens.gas ≠ 0 ∧ CHECKBIT d.param.choke_flags CKF_OFFSTRTADDONGAS = true)) →
      d.sens.temperat < TEMPERATURE_MAGNITUDE 0 →
      (calc_startup_corr x d c).1 = i16 d.param.sm_steps ∧
      (d.param.sm_steps ≤ 32767 → (calc_startup_corr x d c).1 = d.param.sm_steps)) ∧
    (¬ (d.sens.temperat > d.param.choke_corr_temp ∨
        (d.sens.gas ≠ 0 ∧ CHECKBIT d.param.choke_flags CKF_OFFSTRTADDONGAS = true)) →
      ¬ (d.sens.temperat < TEMPERATURE_MAGNITUDE 0) →
      (calc_startup_corr x d c).1 = i16 (d.param.sm_steps * d.param.choke_startup_corr / 200) ∧
      (d.param.sm_steps * d.param.choke_startup_corr / 200 ≤ 32767 →
        (calc_startup_corr x d c).1 =
          d.param.sm_steps * d.param.choke_startup_corr / 200) ∧
      (d.param.sm_steps ≤ 32767 → d.param.choke_startup_corr ≤ 200 →
        (calc_startup_corr x d c).1 =
          d.param.sm_steps * d.param.choke_startup_corr / 200)) := by
  rw [calc_startup_corr_fallback x d c (by omega)]
  refine ⟨fun h => ?_, fun h ht => ?_, fun h ht => ?_⟩
  · unfold startup_corr_fallback
    rw [if_pos h]
  · have e : startup_corr_fallback d = i16 d.param.sm_steps := by
      unfold startup_corr_fallback
      rw [if_neg h, if_pos ht]
    rw [e]
    exact ⟨rfl, fun h1 => i16_of_fits _ hs0 h1⟩
  · obtain ⟨e1, e2⟩ := startup_interpolation _ _ hs0 hs1 hp0 hp1
    have e : startup_corr_fallback d =
        i16 (d.param.sm_steps * d.param.choke_startup_corr / 200) := by
      unfold startup_corr_fallback
      rw [if_neg h, if_neg ht, e1]
    rw [e]
    refine ⟨rfl, fun h1 => i16_of_fits _ e2 h1, fun h1 h2 => ?_⟩
    apply i16_of_fits _ e2
    have h3 : d.param.sm_steps * d.param.choke_startup_corr ≤ 32767 * 200 :=
      mul_le_mul h1 h2 hp0 (by norm_num)
    omega

/-- C18 at a concrete input: `sm_steps = 200`, startup correction 50 (25 %),
temperature 20 degrees under a ceiling of 40 degrees: 50 steps. -/
theorem C18_fallback_correction_witness :
    (calc_startup_corr ex_feedback
      { ex_ecudata with
        param := { ex_params with choke_startup_corr := 50,
                                  choke_corr_temp := TEMPERATURE_MAGNITUDE 40 },
        sens := { ex_ecudata.sens with temperat := TEMPERATURE_MAGNITUDE 20 } } ex_chks).1 =
      200 * 50 / 200 :=
  ((C18_fallback_correction ex_feedback
      { ex_ecudata with
        param := { ex_params with choke_startup_corr := 50,
                                  choke_corr_temp := TEMPERATURE_MAGNITUDE 40 },
        sens := { ex_ecudata.sens with temperat := TEMPERATURE_MAGNITUDE 20 } } ex_chks
      (by decide) (by decide) (by decide) (by decide) (by decide)).2.2
    (by decide) (by decide)).2.2 (by decide) (by decide)

/-- C18 as stated fails where the value does not fit the `int16_t` return type:
with `sm_steps = 40000` and a temperature below 0 degrees the call returns
-25536, not 40000; with `sm_steps = 30000`, `choke_startup_corr = 250` and a
temperature of 0 degrees it returns -28036, not 37500. -/
theorem C18_counterexample :
    (calc_startup_corr ex_feedback
      { ex_ecudata with
        param := { ex_params with sm_steps := 40000 },
        sens := { ex_ecudata.sens with temperat := TEMPERATURE_MAGNITUDE (-5) } } ex_chks).1 =
      -25536 ∧
    (calc_startup_corr ex_feedback
      { ex_ecudata with
        param := { ex_params with sm_steps := 40000 },
        sens := { ex_ecudata.sens with temperat := TEMPERATURE_MAGNITUDE (-5) } } ex_chks).1 ≠
      40000 ∧
    (calc_startup_corr ex_feedback
      { ex_ecudata with
        param := { ex_params with sm_steps := 30000, choke_startup_corr := 250 } } ex_chks).1 =
      -28036 ∧
    (30000 : Int) * 250 / 200 = 37500 := by
  decide
/-- C19 (amended): in sub-state STARTING (0) or WARMUP_DELAY (1), for every
state and calibration in which the temperature is not above the ceiling
`choke_corr_temp`, the fuel is not gas with `CKF_OFFSTRTADDONGAS` set and
`sm_steps` is within 0..32767, a coolant temperature below 0 degrees (-5
degrees is one) makes `calc_startup_corr` return `sm_steps`, whatever the
calibrated startup percentage. -/
theorem C19_below_freezing (x : extern_t) (d : ecudata_t) (c : choke_st_t)
    (hm : c.strt_mode = 0 ∨ c.strt_mode = 1)
    (ht : d.sens.temperat < TEMPERATURE_MAGNITUDE 0)
    (hceil : d.sens.temperat ≤ d.param.choke_corr_temp)
    (hgas : ¬ (d.sens.gas ≠ 0 ∧ CHECKBIT d.param.choke_flags CKF_OFFSTRTADDONGAS = true))
    (hs0 : 0 ≤ d.param.sm_steps) (hs1 : d.param.sm_steps ≤ 32767) :
    (calc_startup_corr x d c).1 = d.param.sm_steps ∧
    (∀ p : Int,
      (calc_startup_corr x
        { d with param := { d.param with choke_startup_corr := p } } c).1 =
        d.param.sm_steps) ∧
    TEMPERATURE_MAGNITUDE (-5) < TEMPERATURE_MAGNITUDE 0 := by
  have key : ∀ d1 : ecudata_t, d1.sens = d.sens → d1.param.choke_corr_temp =
      d.param.choke_corr_temp → d1.param.choke_flags = d.param.choke_flags →
      d1.param.sm_steps = d.param.sm_steps →
      (calc_startup_corr x d1 c).1 = d.param.sm_steps := by
    intro d1 h1 h2 h3 h4
    rw [calc_startup_corr_fallback x d1 c (by omega)]
    unfold startup_corr_fallback
    rw [h1, h2, h3, h4]
    have hn : ¬ (d.sens.temperat > d.param.choke_corr_temp ∨
        (d.sens.gas ≠ 0 ∧ CHECKBIT d.param.choke_flags CKF_OFFSTRTADDONGAS = true)) := by
      rintro (h | h)
      · omega
      · exact hgas h
    rw [if_neg hn, if_pos ht]
    exact i16_of_fits _ hs0 hs1
  exact ⟨key d rfl rfl rfl rfl, fun p => key _ rfl rfl rfl rfl, by decide⟩

/-- C19 at a concrete input: -5 degrees, ceiling 40 degrees, `sm_steps = 200`,
startup percentage 50: the correction is 200. -/
theorem C19_below_freezing_witness :
    (calc_startup_corr ex_feedback
      { ex_ecudata with
        param := { ex_params with choke_startup_corr := 50,
                                  choke_corr_temp := TEMPERATURE_MAGNITUDE 40 },
        sens := { ex_ecudata.sens with temperat := TEMPERATURE_MAGNITUDE (-5) } } ex_chks).1 =
      200 :=
  (C19_below_freezing ex_feedback
      { ex_ecudata with
        param := { ex_params with choke_startup_corr := 50,
                                  choke_corr_temp := TEMPERATURE_MAGNITUDE 40 },
        sens := { ex_ecudata.sens with temperat := TEMPERATURE_MAGNITUDE (-5) } } ex_chks
      (by decide) (by decide) (by decide) (by decide) (by decide) (by decide)).1

/-- C19 as stated fails: at -5 degrees in sub-state STARTING with
`sm_steps = 200`, the correction is 0 when the fuel is gas and
`CKF_OFFSTRTADDONGAS` is set, and also when the calibrated ceiling
`choke_corr_temp` is -10 degrees. -/
theorem C19_counterexample :
    ex_chks.strt_mode = 0 ∧
    (calc_startup_corr ex_feedback
      { ex_ecudata with
        param := { ex_params with choke_flags := 1,
                                  choke_corr_temp := TEMPERATURE_MAGNITUDE 40 },
        sens := { ex_ecudata.sens with temperat := TEMPERATURE_MAGNITUDE (-5), gas := 1 } }
      ex_chks).1 = 0 ∧
    (calc_startup_corr ex_feedback
      { ex_ecudata with
        param := { ex_params with choke_corr_temp := TEMPERATURE_MAGNITUDE (-10) },
        sens := { ex_ecudata.sens with temperat := TEMPERATURE_MAGNITUDE (-5) } }
      ex_chks).1 = 0 ∧
    (0 : Int) ≠ 200 := by
  decide

theorem startup_corr_fallback_rpm_reg (d : ecudata_t) (v : Int) :
    startup_corr_fallback { d with choke_rpm_reg := v } = startup_corr_fallback d := rfl

theorem is_rpmreg_allowed_rpm_reg (d : ecudata_t) (v : Int) :
    is_rpmreg_allowed { d with choke_rpm_reg := v } = is_rpmreg_allowed d := rfl

/-- The case-2 body between two regulator calls: the stored regulator output,
or 0 when the fuel type forbids regulation; `chks` is left alone. -/
theorem startup_rpm_regulation_hold (x : extern_t) (d : ecudata_t) (c : choke_st_t)
    (hc : u16 (u16 x.s_timer_gtc - c.rpmreg_t1) < RPMREG_CORR_TIME) :
    startup_rpm_regulation x d c =
      if is_rpmreg_allowed d = true then (c.rpmreg_prev, c, d)
      else (0, c, { d with choke_rpm_reg := 0 }) := by
  unfold startup_rpm_regulation rpmreg_gas_off
  rw [if_neg (not_le.mpr hc)]
  cases h : is_rpmreg_allowed d <;> simp [h]

/-- C20 (amended): two successive calls of `calc_startup_corr` with the same
snapshot and timer reading (the second call reads the state and the ECU data
the first call left) return the same correction when the first call is made
in sub-state STARTING (0); in WARMUP_DELAY (1) before the delay has elapsed;
in RPM_REGULATION (2) between two regulator calls with the engine running; in
EXIT (3) with the engine running; or in a sub-state outside 0..3. -/
theorem C20_idempotent (x : extern_t) (d : ecudata_t) (c : choke_st_t)
    (h : c.strt_mode = 0 ∨
      (c.strt_mode = 1 ∧ u16 (u16 x.s_timer_gtc - c.strt_t1) < d.param.choke_corr_time) ∨
      (c.strt_mode = 2 ∧ u16 (u16 x.s_timer_gtc - c.rpmreg_t1) < RPMREG_CORR_TIME ∧
        d.st_block ≠ 0) ∨
      (c.strt_mode = 3 ∧ d.st_block ≠ 0) ∨
      (c.strt_mode ≠ 0 ∧ c.strt_mode ≠ 1 ∧ c.strt_mode ≠ 2 ∧ c.strt_mode ≠ 3)) :
    (calc_startup_corr x (calc_startup_corr x d c).2.2 (calc_startup_corr x d c).2.1).1 =
      (calc_startup_corr x d c).1 := by
  obtain ⟨v, hv⟩ := calc_startup_corr_ecudata x d c
  rcases h with h0 | ⟨h1, ht⟩ | ⟨h2, ht, hb⟩ | ⟨h3, hb⟩ | h4
  · -- STARTING: both calls return the open-loop correction
    have hm : (calc_startup_corr x d c).2.1.strt_mode ≠ 2 ∧
        (calc_startup_corr x d c).2.1.strt_mode ≠ 3 := by
      unfold calc_startup_corr
      rw [if_pos h0]
      split_ifs <;> simp [h0]
    rw [calc_startup_corr_fallback x _ _ hm, calc_startup_corr_fallback x d c (by omega), hv]
    rfl
  · -- WARMUP_DELAY, delay not elapsed: the state is left alone
    have e : calc_startup_corr x d c = (startup_corr_fallback d, c, d) := by
      unfold calc_startup_corr
      rw [if_neg (by omega), if_pos h1, if_neg (by omega)]
    rw [e]
    show (calc_startup_corr x d c).1 = _
    rw [e]
  · -- RPM_REGULATION between regulator calls, engine running
    have hcalc : ∀ d1 : ecudata_t, d1.st_block ≠ 0 → d1.param = d.param →
        (calc_startup_corr x d1 c).2.1 = c ∧
        (calc_startup_corr x d1 c).1 =
          (if is_rpmreg_allowed d1 = true then c.rpmreg_prev else 0) ∧
        (calc_startup_corr x d1 c).2.2.st_block = d1.st_block := by
      intro d1 hb1 _
      unfold calc_startup_corr
      rw [if_neg (by omega), if_neg (by omega), if_pos h2,
        startup_rpm_regulation_hold x d1 c ht]
      cases ha : is_rpmreg_allowed d1 <;> simp [hb1]
    obtain ⟨e1, e2, _⟩ := hcalc d hb rfl
    have hb2 : (calc_startup_corr x d c).2.2.st_block ≠ 0 := by rw [hv]; exact hb
    have hp2 : (calc_startup_corr x d c).2.2.param = d.param := by rw [hv]
    obtain ⟨_, e4, _⟩ := hcalc _ hb2 hp2
    rw [e1, e4, e2, hv]
    rfl
  · -- EXIT, engine running
    have hcalc : ∀ d1 : ecudata_t, d1.st_block ≠ 0 →
        calc_startup_corr x d1 c = (0, c, d1) := by
      intro d1 hb1
      unfold calc_startup_corr
      rw [if_neg (by omega), if_neg (by omega), if_neg (by omega), if_pos h3, if_neg hb1]
    rw [hcalc d hb]
    show (calc_startup_corr x d c).1 = _
    rw [hcalc d hb]
  · -- no case of the switch
    have e : calc_startup_corr x d c = (startup_corr_fallback d, c, d) := by
      unfold calc_startup_corr
      rw [if_neg h4.1, if_neg h4.2.1, if_neg h4.2.2.1, if_neg h4.2.2.2]
    rw [e]
    show (calc_startup_corr x d c).1 = _
    rw [e]

/-- C20 at a concrete input: sub-state STARTING, engine running, -5 degrees:
both calls return 200. -/
theorem C20_idempotent_witness :
    (calc_startup_corr ex_feedback
      (calc_startup_corr ex_feedback
        { ex_ecudata with
          st_block := 1,
          sens := { ex_ecudata.sens with temperat := TEMPERATURE_MAGNITUDE (-5) } }
        ex_chks).2.2
      (calc_startup_corr ex_feedback
        { ex_ecudata with
          st_block := 1,
          sens := { ex_ecudata.sens with temperat := TEMPERATURE_MAGNITUDE (-5) } }
        ex_chks).2.1).1 =
    (calc_startup_corr ex_feedback
        { ex_ecudata with
          st_block := 1,
          sens := { ex_ecudata.sens with temperat := TEMPERATURE_MAGNITUDE (-5) } }
        ex_chks).1 :=
  C20_idempotent ex_feedback
    { ex_ecudata with
      st_block := 1,
      sens := { ex_ecudata.sens with temperat := TEMPERATURE_MAGNITUDE (-5) } }
    ex_chks (Or.inl (by decide))

/-- C20 as stated fails at the end of the warm-up delay: in sub-state
WARMUP_DELAY with the delay of 300 ticks elapsed (timer 500, delay started at
0), at -5 degrees with `sm_steps = 200` and the engine running, the first call
returns the open-loop correction 200 and moves to RPM_REGULATION; the second
call, with the same snapshot and timer reading, returns the regulator
correction 0. -/
theorem C20_counterexample :
    (calc_startup_corr { ex_feedback with s_timer_gtc := 500 }
        { ex_ecudata with
          st_block := 1,
          param := { ex_params with choke_corr_time := 300 },
          sens := { ex_ecudata.sens with temperat := TEMPERATURE_MAGNITUDE (-5) } }
        { ex_chks with strt_mode := 1 }).1 = 200 ∧
    (calc_startup_corr { ex_feedback with s_timer_gtc := 500 }
      (calc_startup_corr { ex_feedback with s_timer_gtc := 500 }
        { ex_ecudata with
          st_block := 1,
          param := { ex_params with choke_corr_time := 300 },
          sens := { ex_ecudata.sens with temperat := TEMPERATURE_MAGNITUDE (-5) } }
        { ex_chks with strt_mode := 1 }).2.2
      (calc_startup_corr { ex_feedback with s_timer_gtc := 500 }
        { ex_ecudata with
          st_block := 1,
          param := { ex_params with choke_corr_time := 300 },
          sens := { ex_ecudata.sens with temperat := TEMPERATURE_MAGNITUDE (-5) } }
        { ex_chks with strt_mode := 1 }).2.1).1 = 0 ∧
    (200 : Int) ≠ 0 := by
  decide

/-! ## The RPM regulation sub-states (carburetor build) -/

theorem rpmreg_set_flags_fields (tmr : Int) (c : choke_st_t) :
    (rpmreg_set_flags tmr c).strt_mode = c.strt_mode ∧
    (rpmreg_set_flags tmr c).rpmval_prev = c.rpmval_prev ∧
    (rpmreg_set_flags tmr c).rpmreg_prev = c.rpmreg_prev := by
  unfold rpmreg_set_flags
  simp only []
  split_ifs <;> exact ⟨rfl, rfl, rfl⟩

/-- After the flag update of a regulator tick the exit-eligible flag is set
exactly if it was set before or 10 seconds have passed since the regulation
started. -/
theorem rpmreg_set_flags_ENEX (tmr : Int) (c : choke_st_t) :
    CHECKBIT (rpmreg_set_flags tmr c).flags CF_RPMREG_ENEX = true ↔
      (CHECKBIT c.flags CF_RPMREG_ENEX = true ∨ u16 (tmr - c.strt_t1) ≥ RPMREG_ENEX_TIME) := by
  unfold rpmreg_set_flags
  simp only []
  split_ifs with h1 h2 h2 <;>
    simp [CHECKBIT_SETBIT, CF_RPMREG_ENEX, CF_PRMREG_ENTO, h1]

theorem rpmreg_call_fields (x : extern_t) (d : ecudata_t) (c : choke_st_t) :
    (rpmreg_call x d c).2.strt_mode = c.strt_mode ∧
    (rpmreg_call x d c).2.rpmval_prev = c.rpmval_prev ∧
    (rpmreg_call x d c).2.flags = c.flags := by
  unfold rpmreg_call
  split_ifs <;> exact ⟨rfl, rfl, rfl⟩

theorem rpmreg_gas_off_state (r : Int × choke_st_t × ecudata_t) :
    (rpmreg_gas_off r).2.1 = r.2.1 := by
  unfold rpmreg_gas_off
  split_ifs <;> rfl

theorem rpmreg_gas_off_zero (r : Int × choke_st_t × ecudata_t)
    (h1 : r.1 = 0) (h2 : r.2.2.choke_rpm_reg = 0) :
    (rpmreg_gas_off r).1 = 0 ∧ (rpmreg_gas_off r).2.2.choke_rpm_reg = 0 := by
  unfold rpmreg_gas_off
  split_ifs
  · exact ⟨rfl, rfl⟩
  · exact ⟨h1, h2⟩

theorem rpmreg_gas_off_st_block (r : Int × choke_st_t × ecudata_t) :
    (rpmreg_gas_off r).2.2.st_block = r.2.2.st_block := by
  unfold rpmreg_gas_off
  split_ifs <;> rfl

theorem startup_rpm_regulation_st_block (x : extern_t) (d : ecudata_t) (c : choke_st_t) :
    (startup_rpm_regulation x d c).2.2.st_block = d.st_block := by
  unfold startup_rpm_regulation
  rw [rpmreg_gas_off_st_block]
  split_ifs
  · unfold rpmreg_exit_check
    split_ifs <;> rfl
  · rfl

/-- C21 (amended): in sub-state RPM_REGULATION (2) with the engine running, on
a call made at least 10 timer ticks after the last regulator tick, the
sub-state becomes EXIT (3), the returned correction is 0 and `choke_rpm_reg`
is cleared if and only if the coolant temperature is at or above
`idlreg_turn_on_temp`, or the exit-eligible flag is set (it was set before, or
1000 ticks have passed since the regulation started) and RPM > 1000 and the
16-bit signed difference between the RPM and the RPM snapshot is more than
180; otherwise the sub-state stays 2 and the snapshot becomes the current RPM.
The difference is the plain one for RPM values up to 32767. -/
theorem C21_regulation_exit (x : extern_t) (d : ecudata_t) (c : choke_st_t)
    (hm : c.strt_mode = 2) (hb : d.st_block ≠ 0)
    (hcad : u16 (u16 x.s_timer_gtc - c.rpmreg_t1) ≥ RPMREG_CORR_TIME) :
    ((calc_startup_corr x d c).2.1.strt_mode = 3 ∧ (calc_startup_corr x d c).1 = 0 ∧
        (calc_startup_corr x d c).2.2.choke_rpm_reg = 0 ↔
      d.sens.temperat ≥ d.param.idlreg_turn_on_temp ∨
        ((CHECKBIT c.flags CF_RPMREG_ENEX = true ∨
            u16 (u16 x.s_timer_gtc - c.strt_t1) ≥ RPMREG_ENEX_TIME) ∧
          d.sens.frequen > 1000 ∧
          i16 (i16 d.sens.frequen - i16 c.rpmval_prev) > 180)) ∧
    (¬ (d.sens.temperat ≥ d.param.idlreg_turn_on_temp ∨
        ((CHECKBIT c.flags CF_RPMREG_ENEX = true ∨
            u16 (u16 x.s_timer_gtc - c.strt_t1) ≥ RPMREG_ENEX_TIME) ∧
          d.sens.frequen > 1000 ∧
          i16 (i16 d.sens.frequen - i16 c.rpmval_prev) > 180)) →
      (calc_startup_corr x d c).2.1.strt_mode = 2 ∧
      (calc_startup_corr x d c).2.1.rpmval_prev = d.sens.frequen) ∧
    (0 ≤ d.sens.frequen → d.sens.frequen ≤ 32767 →
      0 ≤ c.rpmval_prev → c.rpmval_prev ≤ 32767 →
      i16 (i16 d.sens.frequen - i16 c.rpmval_prev) = d.sens.frequen - c.rpmval_prev) := by
  have hsb := startup_rpm_regulation_st_block x d c
  have hcalc : calc_startup_corr x d c =
      ((startup_rpm_regulation x d c).1, (startup_rpm_regulation x d c).2.1,
        (startup_rpm_regulation x d c).2.2) := by
    unfold calc_startup_corr
    rw [if_neg (by omega), if_neg (by omega), if_pos hm]
    simp only []
    rw [hsb, if_neg hb]
  obtain ⟨f1, f2, f3⟩ := rpmreg_call_fields x d
    (rpmreg_set_flags (u16 x.s_timer_gtc) { c with rpmreg_t1 := u16 x.s_timer_gtc })
  obtain ⟨g1, g2, _⟩ := rpmreg_set_flags_fields (u16 x.s_timer_gtc)
    { c with rpmreg_t1 := u16 x.s_timer_gtc }
  have hen := rpmreg_set_flags_ENEX (u16 x.s_timer_gtc)
    { c with rpmreg_t1 := u16 x.s_timer_gtc }
  rw [← f3] at hen
  rw [g1] at f1
  rw [g2] at f2
  have hreg : startup_rpm_regulation x d c =
      rpmreg_gas_off (rpmreg_exit_check d (rpmreg_call x d
        (rpmreg_set_flags (u16 x.s_timer_gtc) { c with rpmreg_t1 := u16 x.s_timer_gtc }))) := by
    unfold startup_rpm_regulation
    rw [if_pos hcad]
  generalize rpmreg_call x d
    (rpmreg_set_flags (u16 x.s_timer_gtc) { c with rpmreg_t1 := u16 x.s_timer_gtc }) = rc
    at f1 f2 hen hreg
  have hexit : (d.sens.temperat ≥ d.param.idlreg_turn_on_temp ∨
        ((CHECKBIT c.flags CF_RPMREG_ENEX = true ∨
            u16 (u16 x.s_timer_gtc - c.strt_t1) ≥ RPMREG_ENEX_TIME) ∧
          d.sens.frequen > 1000 ∧
          i16 (i16 d.sens.frequen - i16 c.rpmval_prev) > 180)) →
      (calc_startup_corr x d c).2.1.strt_mode = 3 ∧ (calc_startup_corr x d c).1 = 0 ∧
        (calc_startup_corr x d c).2.2.choke_rpm_reg = 0 := by
    intro hcond
    have he : rpmreg_exit_check d rc =
        (0, { rc.2 with strt_mode := 3 }, { d with choke_rpm_reg := 0 }) := by
      unfold rpmreg_exit_check
      rw [if_pos]
      rw [f2]
      rcases hcond with h | ⟨h1, h2, h3⟩
      · exact Or.inl h
      · exact Or.inr ⟨hen.mpr h1, h2, h3⟩
    rw [hcalc, hreg, he]
    refine ⟨?_, ?_⟩
    · show (rpmreg_gas_off _).2.1.strt_mode = 3
      rw [rpmreg_gas_off_state]
    · exact rpmreg_gas_off_zero _ rfl rfl
  have hstay : ¬ (d.sens.temperat ≥ d.param.idlreg_turn_on_temp ∨
        ((CHECKBIT c.flags CF_RPMREG_ENEX = true ∨
            u16 (u16 x.s_timer_gtc - c.strt_t1) ≥ RPMREG_ENEX_TIME) ∧
          d.sens.frequen > 1000 ∧
          i16 (i16 d.sens.frequen - i16 c.rpmval_prev) > 180)) →
      (calc_startup_corr x d c).2.1.strt_mode = 2 ∧
      (calc_startup_corr x d c).2.1.rpmval_prev = d.sens.frequen := by
    intro hcond
    have he : rpmreg_exit_check d rc =
        (rc.1, { rc.2 with rpmval_prev := d.sens.frequen }, d) := by
      unfold rpmreg_exit_check
      rw [if_neg]
      rw [f2]
      intro h
      apply hcond
      rcases h with h | ⟨h1, h2, h3⟩
      · exact Or.inl h
      · exact Or.inr ⟨hen.mp h1, h2, h3⟩
    rw [hcalc, hreg, he]
    show (rpmreg_gas_off _).2.1.strt_mode = 2 ∧ (rpmreg_gas_off _).2.1.rpmval_prev = _
    rw [rpmreg_gas_off_state]
    exact ⟨by show rc.2.strt_mode = 2; rw [f1, hm], rfl⟩
  refine ⟨⟨?_, hexit⟩, hstay, ?_⟩
  · intro h
    by_contra hn
    have h2 := (hstay hn).1
    omega
  · intro h1 h2 h3 h4
    unfold i16
    omega

/-- C21 at a concrete input: a cold engine at 900 RPM, the flag clear, 10
ticks after the last regulator tick: the sub-state stays 2 and the snapshot
becomes 900. -/
theorem C21_regulation_exit_witness :
    (calc_startup_corr { ex_feedback with s_timer_gtc := 10 }
        { ex_ecudata with
          st_block := 1,
          sens := { ex_ecudata.sens with temperat := -50, frequen := 900 } }
        { ex_chks with strt_mode := 2 }).2.1.strt_mode = 2 ∧
    (calc_startup_corr { ex_feedback with s_timer_gtc := 10 }
        { ex_ecudata with
          st_block := 1,
          sens := { ex_ecudata.sens with temperat := -50, frequen := 900 } }
        { ex_chks with strt_mode := 2 }).2.1.rpmval_prev = 900 :=
  (C21_regulation_exit { ex_feedback with s_timer_gtc := 10 }
    { ex_ecudata with
      st_block := 1,
      sens := { ex_ecudata.sens with temperat := -50, frequen := 900 } }
    { ex_chks with strt_mode := 2 } rfl (by decide) (by decide)).2.1 (by decide)

/-- C21 as stated fails: with the coolant temperature equal to the threshold
(both 40.0 degrees), which does not exceed it, and the exit-eligible flag
clear, a regulator tick leaves the regulation: the sub-state becomes EXIT (3),
the correction is 0 and `choke_rpm_reg` is cleared. -/
theorem C21_counterexample :
    ¬ (400 : Int) > 400 ∧
    CHECKBIT ex_chks.flags CF_RPMREG_ENEX = false ∧
    ¬ u16 (u16 10 - ex_chks.strt_t1) ≥ RPMREG_ENEX_TIME ∧
    calc_startup_corr { ex_feedback with s_timer_gtc := 10 }
        { ex_ecudata with
          st_block := 1, choke_rpm_reg := 1,
          param := { ex_params with idlreg_turn_on_temp := 400 },
          sens := { ex_ecudata.sens with temperat := 400, frequen := 900 } }
        { ex_chks with strt_mode := 2 } =
      (0, { ex_chks with strt_mode := 3, rpmreg_t1 := 10 },
        { ex_ecudata with
          st_block := 1, choke_rpm_reg := 0,
          param := { ex_params with idlreg_turn_on_temp := 400 },
          sens := { ex_ecudata.sens with temperat := 400, frequen := 900 } }) := by
  decide

/-- C22: in sub-state RPM_REGULATION (2), a call made fewer than 10 timer
ticks after the last regulator tick does not depend on the regulator (it is
not called), leaves the stored regulator output, both timers and the flag byte
unchanged, and returns the stored regulator output with the ECU data
untouched; except that with gas fuel and `CKF_OFFRPMREGONGAS` set it returns 0
and clears `choke_rpm_reg`. -/
theorem C22_hold_between_ticks (x : extern_t) (d : ecudata_t) (c : choke_st_t)
    (hm : c.strt_mode = 2)
    (hc : u16 (u16 x.s_timer_gtc - c.rpmreg_t1) < RPMREG_CORR_TIME) :
    (∀ f : ecudata_t → Int → Int × Int,
      calc_startup_corr { x with choke_rpm_regulator := f } d c = calc_startup_corr x d c) ∧
    (calc_startup_corr x d c).2.1 = (if d.st_block = 0 then { c with strt_mode := 0 } else c) ∧
    (calc_startup_corr x d c).2.1.rpmreg_prev = c.rpmreg_prev ∧
    (calc_startup_corr x d c).2.1.rpmreg_t1 = c.rpmreg_t1 ∧
    (calc_startup_corr x d c).2.1.strt_t1 = c.strt_t1 ∧
    (calc_startup_corr x d c).2.1.flags = c.flags ∧
    (¬ (d.sens.gas ≠ 0 ∧ CHECKBIT d.param.choke_flags CKF_OFFRPMREGONGAS = true) →
      (calc_startup_corr x d c).1 = c.rpmreg_prev ∧ (calc_startup_corr x d c).2.2 = d) ∧
    ((d.sens.gas ≠ 0 ∧ CHECKBIT d.param.choke_flags CKF_OFFRPMREGONGAS = true) →
      (calc_startup_corr x d c).1 = 0 ∧
      (calc_startup_corr x d c).2.2 = { d with choke_rpm_reg := 0 }) := by
  have hcalc : ∀ x1 : extern_t, x1.s_timer_gtc = x.s_timer_gtc →
      calc_startup_corr x1 d c =
        if is_rpmreg_allowed d = true then
          (c.rpmreg_prev, (if d.st_block = 0 then { c with strt_mode := 0 } else c), d)
        else (0, (if d.st_block = 0 then { c with strt_mode := 0 } else c),
          { d with choke_rpm_reg := 0 }) := by
    intro x1 hx
    unfold calc_startup_corr
    rw [if_neg (by omega), if_neg (by omega), if_pos hm]
    simp only []
    rw [startup_rpm_regulation_hold x1 d c (by rw [hx]; exact hc)]
    cases is_rpmreg_allowed d <;> simp
  have hall : is_rpmreg_allowed d = true ↔
      ¬ (d.sens.gas ≠ 0 ∧ CHECKBIT d.param.choke_flags CKF_OFFRPMREGONGAS = true) := by
    unfold is_rpmreg_allowed
    by_cases hg : d.sens.gas = 0 <;>
      cases CHECKBIT d.param.choke_flags CKF_OFFRPMREGONGAS <;> simp [hg]
  refine ⟨?_, ?_, ?_, ?_, ?_, ?_, ?_, ?_⟩
  · intro f
    exact (hcalc { x with choke_rpm_regulator := f } rfl).trans (hcalc x rfl).symm
  · rw [hcalc x rfl]; split_ifs <;> rfl
  · rw [hcalc x rfl]; split_ifs <;> rfl
  · rw [hcalc x rfl]; split_ifs <;> rfl
  · rw [hcalc x rfl]; split_ifs <;> rfl
  · rw [hcalc x rfl]; split_ifs <;> rfl
  · intro h
    rw [hcalc x rfl, if_pos (hall.mpr h)]
    exact ⟨rfl, rfl⟩
  · intro h
    rw [hcalc x rfl, if_neg (fun ha => (hall.mp ha) h)]
    exact ⟨rfl, rfl⟩

/-- C22 at a concrete input: 4 ticks after the last regulator tick, petrol,
stored regulator output 17: the call returns 17 and leaves the ECU data
untouched. -/
theorem C22_hold_between_ticks_witness :
    (calc_startup_corr { ex_feedback with s_timer_gtc := 4 }
        { ex_ecudata with st_block := 1 }
        { ex_chks with strt_mode := 2, rpmreg_prev := 17 }).1 = 17 ∧
    (calc_startup_corr { ex_feedback with s_timer_gtc := 4 }
        { ex_ecudata with st_block := 1 }
        { ex_chks with strt_mode := 2, rpmreg_prev := 17 }).2.2 =
      { ex_ecudata with st_block := 1 } :=
  (C22_hold_between_ticks { ex_feedback with s_timer_gtc := 4 }
    { ex_ecudata with st_block := 1 }
    { ex_chks with strt_mode := 2, rpmreg_prev := 17 } rfl (by decide)).2.2.2.2.2.2.1
    (by decide)

/-- The difference of two readings of the 16-bit tick counter, reduced modulo
2^16, is the number of ticks between them, also across a wrap-around of the
counter. -/
theorem u16_elapsed (start e : Int) (he : 0 ≤ e) (he2 : e < 65536) :
    u16 (u16 (start + e) - start) = e := by
  unfold u16
  omega

/-- C23: in sub-state WARMUP_DELAY (1) the call moves to RPM_REGULATION (2) if
and only if `(now - start) mod 2^16 >= choke_corr_time`, where that difference
is the number of ticks elapsed also across a wrap-around of the counter; on
the transition it zeroes the stored regulator output, snapshots the current
RPM, sets both timers to `now` and clears the exit-eligible and entry-delay
flags; otherwise the state is unchanged; in both cases the returned correction
is the fallback open-loop correction and the ECU data are untouched. -/
theorem C23_warmup_delay (x : extern_t) (d : ecudata_t) (c : choke_st_t)
    (hm : c.strt_mode = 1) :
    ((calc_startup_corr x d c).2.1.strt_mode = 2 ↔
      u16 (u16 x.s_timer_gtc - c.strt_t1) ≥ d.param.choke_corr_time) ∧
    (∀ start e : Int, 0 ≤ start → start < 65536 → 0 ≤ e → e < 65536 →
      u16 (u16 (start + e) - start) = e) ∧
    (u16 (u16 x.s_timer_gtc - c.strt_t1) ≥ d.param.choke_corr_time →
      (calc_startup_corr x d c).2.1 =
        { c with
          strt_mode := 2, rpmreg_prev := 0, rpmval_prev := d.sens.frequen,
          strt_t1 := u16 x.s_timer_gtc, rpmreg_t1 := u16 x.s_timer_gtc,
          flags := CLEARBIT (CLEARBIT c.flags CF_RPMREG_ENEX) CF_PRMREG_ENTO } ∧
      CHECKBIT (calc_startup_corr x d c).2.1.flags CF_RPMREG_ENEX = false ∧
      CHECKBIT (calc_startup_corr x d c).2.1.flags CF_PRMREG_ENTO = false) ∧
    (¬ u16 (u16 x.s_timer_gtc - c.strt_t1) ≥ d.param.choke_corr_time →
      (calc_startup_corr x d c).2.1 = c) ∧
    (calc_startup_corr x d c).1 = startup_corr_fallback d ∧
    (calc_startup_corr x d c).2.2 = d := by
  have hyes : u16 (u16 x.s_timer_gtc - c.strt_t1) ≥ d.param.choke_corr_time →
      calc_startup_corr x d c = (startup_corr_fallback d,
        { c with
          strt_mode := 2, rpmreg_prev := 0, rpmval_prev := d.sens.frequen,
          strt_t1 := u16 x.s_timer_gtc, rpmreg_t1 := u16 x.s_timer_gtc,
          flags := CLEARBIT (CLEARBIT c.flags CF_RPMREG_ENEX) CF_PRMREG_ENTO }, d) := by
    intro h
    unfold calc_startup_corr
    rw [if_neg (by omega), if_pos hm, if_pos h]
  have hno : ¬ u16 (u16 x.s_timer_gtc - c.strt_t1) ≥ d.param.choke_corr_time →
      calc_startup_corr x d c = (startup_corr_fallback d, c, d) := by
    intro h
    unfold calc_startup_corr
    rw [if_neg (by omega), if_pos hm, if_neg h]
  refine ⟨⟨?_, ?_⟩, fun start e _ _ he he2 => u16_elapsed start e he he2, ?_, ?_, ?_, ?_⟩
  · intro h
    by_contra hn
    rw [hno hn] at h
    change c.strt_mode = 2 at h
    omega
  · intro h
    rw [hyes h]
  · intro h
    rw [hyes h]
    refine ⟨rfl, ?_, ?_⟩
    · show CHECKBIT (CLEARBIT (CLEARBIT c.flags CF_RPMREG_ENEX) CF_PRMREG_ENTO)
        CF_RPMREG_ENEX = false
      rw [CHECKBIT_CLEARBIT _ _ _ (by decide) (by decide),
        CHECKBIT_CLEARBIT _ _ _ (by decide) (by decide)]
      simp
    · show CHECKBIT (CLEARBIT (CLEARBIT c.flags CF_RPMREG_ENEX) CF_PRMREG_ENTO)
        CF_PRMREG_ENTO = false
      rw [CHECKBIT_CLEARBIT _ _ _ (by decide) (by decide)]
      simp
  · intro h
    rw [hno h]
  · by_cases h : u16 (u16 x.s_timer_gtc - c.strt_t1) ≥ d.param.choke_corr_time
    · rw [hyes h]
    · rw [hno h]
  · by_cases h : u16 (u16 x.s_timer_gtc - c.strt_t1) ≥ d.param.choke_corr_time
    · rw [hyes h]
    · rw [hno h]

/-- C23 at a concrete input: the delay of 300 ticks started at counter value
65400 and the counter has wrapped to 200 (336 ticks later): the call moves to
RPM_REGULATION. -/
theorem C23_warmup_delay_witness :
    u16 (u16 200 - 65400) = 336 ∧
    (calc_startup_corr { ex_feedback with s_timer_gtc := 200 }
        { ex_ecudata with st_block := 1, param := { ex_params with choke_corr_time := 300 } }
        { ex_chks_used with strt_mode := 1, strt_t1 := 65400 }).2.1.strt_mode = 2 :=
  ⟨by decide,
   (C23_warmup_delay { ex_feedback with s_timer_gtc := 200 }
      { ex_ecudata with st_block := 1, param := { ex_params with choke_corr_time := 300 } }
      { ex_chks_used with strt_mode := 1, strt_t1 := 65400 } rfl).1.mpr (by decide)⟩

/-- C24: a call of `calc_startup_corr` in sub-state RPM_REGULATION (2) or EXIT
(3) with the engine not running (`st_block = 0`) ends in sub-state STARTING
(0); in EXIT with the engine running the state is unchanged (the sub-state
stays 3), the ECU data are untouched and the returned correction is 0. -/
theorem C24_return_to_starting (x : extern_t) (d : ecudata_t) (c : choke_st_t) :
    ((c.strt_mode = 2 ∨ c.strt_mode = 3) → d.st_block = 0 →
      (calc_startup_corr x d c).2.1.strt_mode = 0) ∧
    (c.strt_mode = 3 → d.st_block ≠ 0 →
      calc_startup_corr x d c = (0, c, d)) := by
  refine ⟨?_, ?_⟩
  · intro hm hb
    rcases hm with hm | hm
    · unfold calc_startup_corr
      rw [if_neg (by omega), if_neg (by omega), if_pos hm]
      simp only []
      rw [startup_rpm_regulation_st_block, if_pos hb]
    · unfold calc_startup_corr
      rw [if_neg (by omega), if_neg (by omega), if_neg (by omega), if_pos hm, if_pos hb]
  · intro hm hb
    unfold calc_startup_corr
    rw [if_neg (by omega), if_neg (by omega), if_neg (by omega), if_pos hm, if_neg hb]

/-- C24 at a concrete input: a regulator tick that leaves the regulation (hot
engine) while the engine is not running ends in STARTING, not in EXIT. -/
theorem C24_return_to_starting_witness :
    (calc_startup_corr { ex_feedback with s_timer_gtc := 10 } ex_ecudata
        { ex_chks with strt_mode := 2 }).2.1.strt_mode = 0 ∧
    calc_startup_corr ex_feedback { ex_ecudata with st_block := 1 }
        { ex_chks with strt_mode := 3 } =
      (0, { ex_chks with strt_mode := 3 }, { ex_ecudata with st_block := 1 }) :=
  ⟨(C24_return_to_starting { ex_feedback with s_timer_gtc := 10 } ex_ecudata
      { ex_chks with strt_mode := 2 }).1 (Or.inl rfl) rfl,
   (C24_return_to_starting ex_feedback { ex_ecudata with st_block := 1 }
      { ex_chks with strt_mode := 3 }).2 rfl (by decide)⟩

/-! ## The closed-loop regulator (injection build) -/

/-- The regulator call of the run mode, in pieces: timestamp, target RPM,
hysteresis, regulator update. -/
theorem iac_closed_loop_eq (b : build_t) (x : extern_t) (d : ecudata_t) (c : choke_st_t) :
    iac_closed_loop b x d c =
      iac_regulator x d (iac_target_rpm b x d)
        (iac_hysteresis d (iac_target_rpm b x d) { c with rpmreg_t1 := u16 x.s_timer_gtc }) := by
  unfold iac_closed_loop iac_regulator iac_hysteresis iac_target_rpm iac_rpm_thrd iac_error
    iac_pi_increment iac_pd_increment
  simp only []
  split_ifs <;> rfl

theorem iac_regulator_inactive (x : extern_t) (d : ecudata_t) (rpm : Int) (c : choke_st_t)
    (hcl : CHECKBIT c.flags CF_CL_LOOP = false) : iac_regulator x d rpm c = c := by
  unfold iac_regulator
  rw [if_neg (by rw [hcl]; decide)]

theorem iac_regulator_hot (x : extern_t) (d : ecudata_t) (rpm : Int) (c : choke_st_t)
    (hcl : CHECKBIT c.flags CF_CL_LOOP = true)
    (hhot : d.sens.temperat ≥ d.param.idlreg_turn_on_temp ∨ d.sens.frequen ≥ u16 rpm) :
    iac_regulator x d rpm c =
      { c with
        prev_rpm_error := iac_error d rpm,
        iac_pos := restrict_value_to
          (i16 (c.iac_pos + iac_pi_increment (iac_rigidity x d rpm) (iac_derror d rpm c)
            (iac_error d rpm) d.param.idl_reg_p d.param.idl_reg_i)) 0 800 } := by
  unfold iac_regulator iac_rigidity iac_derror
  rw [if_pos hcl, if_pos hhot]

theorem iac_regulator_cold_add (x : extern_t) (d : ecudata_t) (rpm : Int) (c : choke_st_t)
    (hcl : CHECKBIT c.flags CF_CL_LOOP = true)
    (hcold : ¬ (d.sens.temperat ≥ d.param.idlreg_turn_on_temp ∨ d.sens.frequen ≥ u16 rpm))
    (hpos : iac_error d rpm > 0 ∧ iac_derror d rpm c > 0) :
    iac_regulator x d rpm c =
      { c with
        prev_rpm_error := iac_error d rpm,
        iac_pos := restrict_value_to
          (i16 (c.iac_pos + iac_pd_increment (iac_rigidity x d rpm) (iac_derror d rpm c)
            d.param.idl_reg_p)) 0 800 } := by
  unfold iac_derror at hpos
  unfold iac_regulator iac_rigidity iac_derror
  rw [if_pos hcl, if_neg hcold, if_pos hpos]

theorem iac_regulator_cold_keep (x : extern_t) (d : ecudata_t) (rpm : Int) (c : choke_st_t)
    (hcl : CHECKBIT c.flags CF_CL_LOOP = true)
    (hcold : ¬ (d.sens.temperat ≥ d.param.idlreg_turn_on_temp ∨ d.sens.frequen ≥ u16 rpm))
    (hpos : ¬ (iac_error d rpm > 0 ∧ iac_derror d rpm c > 0)) :
    iac_regulator x d rpm c =
      { c with
        prev_rpm_error := iac_error d rpm,
        iac_pos := restrict_value_to c.iac_pos 0 800 } := by
  unfold iac_derror at hpos
  unfold iac_regulator
  rw [if_pos hcl, if_neg hcold, if_neg hpos]

/-- The regulator update touches only the accumulator and the stored error. -/
theorem iac_regulator_frame (x : extern_t) (d : ecudata_t) (rpm : Int) (c : choke_st_t) :
    (iac_regulator x d rpm c).flags = c.flags ∧
    (iac_regulator x d rpm c).rpmreg_t1 = c.rpmreg_t1 ∧
    (iac_regulator x d rpm c).strt_mode = c.strt_mode := by
  unfold iac_regulator
  split_ifs <;> exact ⟨rfl, rfl, rfl⟩

theorem restrict_value_to_bounds (v bottom top : Int) (h : bottom ≤ top) :
    bottom ≤ restrict_value_to v bottom top ∧ restrict_value_to v bottom top ≤ top := by
  unfold restrict_value_to
  simp only []
  split_ifs <;> omega

theorem restrict_value_to_inside (v bottom top : Int) (h1 : bottom ≤ v) (h2 : v ≤ top) :
    restrict_value_to v bottom top = v := by
  unfold restrict_value_to
  simp only []
  split_ifs <;> omega

/-- After a regulator update with the closed loop active the accumulator lies
in 0..800. -/
theorem iac_regulator_range (x : extern_t) (d : ecudata_t) (rpm : Int) (c : choke_st_t)
    (hcl : CHECKBIT c.flags CF_CL_LOOP = true) :
    0 ≤ (iac_regulator x d rpm c).iac_pos ∧ (iac_regulator x d rpm c).iac_pos ≤ 800 := by
  unfold iac_regulator
  rw [if_pos hcl]
  exact restrict_value_to_bounds _ 0 800 (by norm_num)

/-- The hysteresis step when the closed loop is not active: the flag is set
exactly on the entry condition; state variables other than the flag byte are
unchanged. -/
theorem iac_hysteresis_inactive (d : ecudata_t) (rpm : Int) (c : choke_st_t)
    (hcl : CHECKBIT c.flags CF_CL_LOOP = false) :
    (CHECKBIT (iac_hysteresis d rpm c).flags CF_CL_LOOP = true ↔
      d.engine_mode = EM_IDLE ∧ d.sens.inst_frq < iac_rpm_thrd rpm d.param.idl_coef_thrd1) ∧
    (iac_hysteresis d rpm c).iac_pos = c.iac_pos ∧
    (iac_hysteresis d rpm c).prev_rpm_error = c.prev_rpm_error := by
  unfold iac_hysteresis
  by_cases h : d.engine_mode = EM_IDLE ∧
      d.sens.inst_frq < iac_rpm_thrd rpm d.param.idl_coef_thrd1
  · rw [if_pos ⟨hcl, h⟩]
    refine ⟨⟨fun _ => h, fun _ => ?_⟩, rfl, rfl⟩
    show CHECKBIT (SETBIT c.flags CF_CL_LOOP) CF_CL_LOOP = true
    rw [CHECKBIT_SETBIT]; simp
  · rw [if_neg (fun hh => h hh.2), if_neg (fun hh => by rw [hcl] at hh; exact absurd hh.1 (by decide))]
    refine ⟨⟨fun hh => ?_, fun hh => absurd hh h⟩, rfl, rfl⟩
    rw [hcl] at hh
    exact absurd hh (by decide)

/-- The hysteresis step when the closed loop is active: the flag is cleared
exactly on the exit condition, and exactly then `idl_to_run_add * 4` is added
to the accumulator. -/
theorem iac_hysteresis_active (d : ecudata_t) (rpm : Int) (c : choke_st_t)
    (hcl : CHECKBIT c.flags CF_CL_LOOP = true) :
    (CHECKBIT (iac_hysteresis d rpm c).flags CF_CL_LOOP = false ↔
      (d.engine_mode ≠ EM_IDLE ∨ d.sens.inst_frq > iac_rpm_thrd rpm d.param.idl_coef_thrd2)) ∧
    ((d.engine_mode ≠ EM_IDLE ∨ d.sens.inst_frq > iac_rpm_thrd rpm d.param.idl_coef_thrd2) →
      (iac_hysteresis d rpm c).iac_pos =
        i16 (c.iac_pos + u16 (u16 d.param.idl_to_run_add * 4))) ∧
    (¬ (d.engine_mode ≠ EM_IDLE ∨ d.sens.inst_frq > iac_rpm_thrd rpm d.param.idl_coef_thrd2) →
      iac_hysteresis d rpm c = c) ∧
    (iac_hysteresis d rpm c).prev_rpm_error = c.prev_rpm_error := by
  have h1 : ¬ (CHECKBIT c.flags CF_CL_LOOP = false ∧ d.engine_mode = EM_IDLE ∧
      d.sens.inst_frq < iac_rpm_thrd rpm d.param.idl_coef_thrd1) := by
    intro hh
    rw [hcl] at hh
    exact absurd hh.1 (by decide)
  unfold iac_hysteresis
  rw [if_neg h1]
  by_cases h : d.engine_mode ≠ EM_IDLE ∨
      d.sens.inst_frq > iac_rpm_thrd rpm d.param.idl_coef_thrd2
  · rw [if_pos ⟨hcl, h⟩]
    refine ⟨⟨fun _ => h, fun _ => ?_⟩, fun _ => rfl, fun hh => absurd h hh, rfl⟩
    show CHECKBIT (CLEARBIT c.flags CF_CL_LOOP) CF_CL_LOOP = false
    rw [CHECKBIT_CLEARBIT _ _ _ (by decide) (by decide)]; simp
  · rw [if_neg (fun hh => h hh.2)]
    refine ⟨⟨fun hh => ?_, fun hh => absurd hh h⟩, fun hh => absurd hh h, fun _ => rfl, rfl⟩
    rw [hcl] at hh
    exact absurd hh (by decide)

/-- The hysteresis step touches only the flag byte and the accumulator. -/
theorem iac_hysteresis_frame (d : ecudata_t) (rpm : Int) (c : choke_st_t) :
    (iac_hysteresis d rpm c).prev_rpm_error = c.prev_rpm_error ∧
    (iac_hysteresis d rpm c).rpmreg_t1 = c.rpmreg_t1 ∧
    (iac_hysteresis d rpm c).strt_mode = c.strt_mode := by
  unfold iac_hysteresis
  split_ifs <;> exact ⟨rfl, rfl, rfl⟩

/-- When the closed loop is active after the hysteresis step, that step has
not moved the accumulator. -/
theorem iac_hysteresis_active_after (d : ecudata_t) (rpm : Int) (c : choke_st_t)
    (hcl : CHECKBIT (iac_hysteresis d rpm c).flags CF_CL_LOOP = true) :
    (iac_hysteresis d rpm c).iac_pos = c.iac_pos := by
  cases h : CHECKBIT c.flags CF_CL_LOOP
  · exact (iac_hysteresis_inactive d rpm c h).2.1
  · obtain ⟨h1, _, h3, _⟩ := iac_hysteresis_active d rpm c h
    by_cases hx : d.engine_mode ≠ EM_IDLE ∨
        d.sens.inst_frq > iac_rpm_thrd rpm d.param.idl_coef_thrd2
    · rw [h1.mpr hx] at hcl
      exact absurd hcl (by decide)
    · rw [h3 hx]

/-- The state after a call of `calc_sm_position` in the injection build. -/
theorem calc_sm_position_state (b : build_t) (x : extern_t) (d : ecudata_t) (c : choke_st_t)
    (pwm : Int) (hFI : b.FUEL_INJECT = true) :
    (calc_sm_position b x d c pwm).2.1 = iac_position_update b x d c := by
  unfold calc_sm_position
  rw [if_pos hFI]
  simp only []
  split_ifs <;> rfl

/-- A regulator tick: run mode, closed loop configured, at least 10 timer
ticks since the last regulator tick.  The state after the call is that of the
regulator call, with the phase reset when the engine is not running. -/
theorem calc_sm_position_tick (b : build_t) (x : extern_t) (d : ecudata_t) (c : choke_st_t)
    (pwm : Int) (hFI : b.FUEL_INJECT = true) (hm : c.strt_mode = 2)
    (hreg : CHECKBIT d.param.idl_flags IRF_USE_INJREG = true)
    (hcad : u16 (u16 x.s_timer_gtc - c.rpmreg_t1) ≥ RPMREG_CORR_TIME) :
    (calc_sm_position b x d c pwm).2.1 =
      if d.st_block = 0 then { iac_closed_loop b x d c with strt_mode := 0 }
      else iac_closed_loop b x d c := by
  rw [calc_sm_position_state b x d c pwm hFI]
  unfold iac_position_update
  rw [if_neg (by omega), if_neg (by omega), if_pos hm]
  unfold iac_run_mode
  rw [if_pos hreg, if_neg (not_lt.mpr hcad)]

/-- The accumulator, the stored error, the flag byte and the regulator
timestamp after a regulator tick. -/
theorem calc_sm_position_tick_fields (b : build_t) (x : extern_t) (d : ecudata_t)
    (c : choke_st_t) (pwm : Int) (hFI : b.FUEL_INJECT = true) (hm : c.strt_mode = 2)
    (hreg : CHECKBIT d.param.idl_flags IRF_USE_INJREG = true)
    (hcad : u16 (u16 x.s_timer_gtc - c.rpmreg_t1) ≥ RPMREG_CORR_TIME) :
    (calc_sm_position b x d c pwm).2.1.iac_pos = (iac_closed_loop b x d c).iac_pos ∧
    (calc_sm_position b x d c pwm).2.1.prev_rpm_error =
      (iac_closed_loop b x d c).prev_rpm_error ∧
    (calc_sm_position b x d c pwm).2.1.flags = (iac_closed_loop b x d c).flags ∧
    (calc_sm_position b x d c pwm).2.1.rpmreg_t1 = (iac_closed_loop b x d c).rpmreg_t1 := by
  rw [calc_sm_position_tick b x d c pwm hFI hm hreg hcad]
  split_ifs <;> exact ⟨rfl, rfl, rfl, rfl⟩

/-- The state handed to the regulator update when the closed loop is active
after the hysteresis step: accumulator and stored error are those of the
state before the call. -/
theorem iac_closed_loop_active (b : build_t) (x : extern_t) (d : ecudata_t) (c : choke_st_t)
    (hcl : CHECKBIT (iac_hysteresis d (iac_target_rpm b x d)
      { c with rpmreg_t1 := u16 x.s_timer_gtc }).flags CF_CL_LOOP = true) :
    (iac_hysteresis d (iac_target_rpm b x d)
      { c with rpmreg_t1 := u16 x.s_timer_gtc }).iac_pos = c.iac_pos ∧
    iac_derror d (iac_target_rpm b x d) (iac_hysteresis d (iac_target_rpm b x d)
      { c with rpmreg_t1 := u16 x.s_timer_gtc }) = iac_derror d (iac_target_rpm b x d) c := by
  refine ⟨iac_hysteresis_active_after d _ _ hcl, ?_⟩
  unfold iac_derror
  rw [(iac_hysteresis_frame d (iac_target_rpm b x d)
    { c with rpmreg_t1 := u16 x.s_timer_gtc }).1]

/-- The RPM error is the difference between target and RPM clamped to plus or
minus `10 * idl_intrpm_lim`, when the difference fits `int16_t`. -/
theorem iac_error_fits (d : ecudata_t) (rpm : Int)
    (h0 : 0 ≤ d.param.idl_intrpm_lim) (h1 : d.param.idl_intrpm_lim ≤ 3276)
    (h2 : -32768 ≤ rpm - d.sens.frequen) (h3 : rpm - d.sens.frequen ≤ 32767) :
    iac_error d rpm =
      max (-(10 * d.param.idl_intrpm_lim)) (min (rpm - d.sens.frequen)
        (10 * d.param.idl_intrpm_lim)) := by
  unfold iac_error restrict_value_to
  have e1 : i16 (d.param.idl_intrpm_lim * 10) = 10 * d.param.idl_intrpm_lim := by
    unfold i16; omega
  have e3 : i16 (rpm - d.sens.frequen) = rpm - d.sens.frequen := by
    unfold i16; omega
  rw [e1, e3]
  have e2 : i16 (-(10 * d.param.idl_intrpm_lim)) = -(10 * d.param.idl_intrpm_lim) := by
    unfold i16; omega
  rw [e2]
  simp only []
  split_ifs <;> omega

/-- Without 32-bit overflow the full increment is
`(rigidity * (derror * Kp + error * Ki)) >> 15`. -/
theorem iac_pi_increment_fits (rigidity derror error kp ki : Int)
    (h1 : -2147483648 ≤ derror * kp ∧ derror * kp ≤ 2147483647)
    (h2 : -2147483648 ≤ error * ki ∧ error * ki ≤ 2147483647)
    (h3 : -2147483648 ≤ derror * kp + error * ki ∧ derror * kp + error * ki ≤ 2147483647)
    (h4 : -2147483648 ≤ rigidity * (derror * kp + error * ki) ∧
      rigidity * (derror * kp + error * ki) ≤ 2147483647) :
    iac_pi_increment rigidity derror error kp ki =
      rigidity * (derror * kp + error * ki) / 32768 := by
  unfold iac_pi_increment
  have e1 : i32 (derror * kp) = derror * kp := by
    generalize derror * kp = p at h1
    unfold i32; omega
  have e2 : i32 (error * ki) = error * ki := by
    generalize error * ki = q at h2
    unfold i32; omega
  rw [e1, e2]
  have e3 : i32 (derror * kp + error * ki) = derror * kp + error * ki := by
    generalize derror * kp + error * ki = s at h3
    unfold i32; omega
  rw [e3]
  have e4 : i32 (rigidity * (derror * kp + error * ki)) =
      rigidity * (derror * kp + error * ki) := by
    generalize rigidity * (derror * kp + error * ki) = s at h4
    unfold i32; omega
  rw [e4]

/-- Without 32-bit overflow the cold-engine increment is
`(rigidity * (derror * Kp)) >> 15`. -/
theorem iac_pd_increment_fits (rigidity derror kp : Int)
    (h1 : -2147483648 ≤ derror * kp ∧ derror * kp ≤ 2147483647)
    (h4 : -2147483648 ≤ rigidity * (derror * kp) ∧ rigidity * (derror * kp) ≤ 2147483647) :
    iac_pd_increment rigidity derror kp = rigidity * (derror * kp) / 32768 := by
  unfold iac_pd_increment
  have e1 : i32 (derror * kp) = derror * kp := by
    generalize derror * kp = p at h1
    unfold i32; omega
  rw [e1]
  have e4 : i32 (rigidity * (derror * kp)) = rigidity * (derror * kp) := by
    generalize rigidity * (derror * kp) = s at h4
    unfold i32; omega
  rw [e4]

/-- Clamping a 16-bit sum that has not wrapped. -/
theorem restrict_i16_sum (a v : Int) (h1 : -32768 ≤ a + v) (h2 : a + v ≤ 32767) :
    restrict_value_to (i16 (a + v)) 0 800 = max 0 (min (a + v) 800) := by
  have e : i16 (a + v) = a + v := by unfold i16; omega
  rw [e]
  unfold restrict_value_to
  simp only []
  split_ifs <;> omega

/-- C25 (amended): on a regulator tick in run mode with the closed loop
active after the hysteresis step, if the coolant temperature is at or above
`idlreg_turn_on_temp` or the RPM is at or above the target, the accumulator
becomes the clamp to 0..800 of the `int16_t` value of
`iac_pos + ((rigidity * (derror * Kp + error * Ki)) >> 15)` (products in
`int32_t`), and the stored previous error becomes `error`.  Here `error` is
the 16-bit difference target - RPM limited to plus or minus
`10 * idl_intrpm_lim` and `derror` the 16-bit difference `error - previous
error`.  When the products fit 32 bits the accumulator is the clamp to 0..800
of the sum reduced modulo 2^16 into -32768..32767: for a sum within
-32768..32767 this is
`clamp(iac_pos + ((rigidity * (derror * Kp + error * Ki)) >> 15), 0, 800)`
over the integers, and for a sum in 32768..65535 it is 0. -/
theorem C25_pi_law (b : build_t) (x : extern_t) (d : ecudata_t) (c : choke_st_t)
    (pwm : Int) (hFI : b.FUEL_INJECT = true) (hm : c.strt_mode = 2)
    (hreg : CHECKBIT d.param.idl_flags IRF_USE_INJREG = true)
    (hcad : u16 (u16 x.s_timer_gtc - c.rpmreg_t1) ≥ RPMREG_CORR_TIME)
    (hcl : CHECKBIT (iac_hysteresis d (iac_target_rpm b x d)
      { c with rpmreg_t1 := u16 x.s_timer_gtc }).flags CF_CL_LOOP = true)
    (hhot : d.sens.temperat ≥ d.param.idlreg_turn_on_temp ∨
      d.sens.frequen ≥ u16 (iac_target_rpm b x d)) :
    (calc_sm_position b x d c pwm).2.1.iac_pos =
      restrict_value_to
        (i16 (c.iac_pos +
          iac_pi_increment (iac_rigidity x d (iac_target_rpm b x d))
            (iac_derror d (iac_target_rpm b x d) c) (iac_error d (iac_target_rpm b x d))
            d.param.idl_reg_p d.param.idl_reg_i)) 0 800 ∧
    (calc_sm_position b x d c pwm).2.1.prev_rpm_error = iac_error d (iac_target_rpm b x d) ∧
    (0 ≤ d.param.idl_intrpm_lim → d.param.idl_intrpm_lim ≤ 3276 →
      -32768 ≤ iac_target_rpm b x d - d.sens.frequen →
      iac_target_rpm b x d - d.sens.frequen ≤ 32767 →
      iac_error d (iac_target_rpm b x d) =
        max (-(10 * d.param.idl_intrpm_lim))
          (min (iac_target_rpm b x d - d.sens.frequen) (10 * d.param.idl_intrpm_lim))) ∧
    (-32768 ≤ iac_error d (iac_target_rpm b x d) - c.prev_rpm_error →
      iac_error d (iac_target_rpm b x d) - c.prev_rpm_error ≤ 32767 →
      iac_derror d (iac_target_rpm b x d) c =
        iac_error d (iac_target_rpm b x d) - c.prev_rpm_error) ∧
    (∀ rigidity derror error : Int,
      rigidity = iac_rigidity x d (iac_target_rpm b x d) →
      derror = iac_derror d (iac_target_rpm b x d) c →
      error = iac_error d (iac_target_rpm b x d) →
      (-2147483648 ≤ derror * d.param.idl_reg_p ∧ derror * d.param.idl_reg_p ≤ 2147483647) →
      (-2147483648 ≤ error * d.param.idl_reg_i ∧ error * d.param.idl_reg_i ≤ 2147483647) →
      (-2147483648 ≤ derror * d.param.idl_reg_p + error * d.param.idl_reg_i ∧
        derror * d.param.idl_reg_p + error * d.param.idl_reg_i ≤ 2147483647) →
      (-2147483648 ≤ rigidity * (derror * d.param.idl_reg_p + error * d.param.idl_reg_i) ∧
        rigidity * (derror * d.param.idl_reg_p + error * d.param.idl_reg_i) ≤ 2147483647) →
      -32768 ≤ c.iac_pos +
        rigidity * (derror * d.param.idl_reg_p + error * d.param.idl_reg_i) / 32768 →
      c.iac_pos +
        rigidity * (derror * d.param.idl_reg_p + error * d.param.idl_reg_i) / 32768 ≤ 32767 →
      (calc_sm_position b x d c pwm).2.1.iac_pos =
        max 0 (min (c.iac_pos +
          rigidity * (derror * d.param.idl_reg_p + error * d.param.idl_reg_i) / 32768) 800)) ∧
    (∀ rigidity derror error : Int,
      rigidity = iac_rigidity x d (iac_target_rpm b x d) →
      derror = iac_derror d (iac_target_rpm b x d) c →
      error = iac_error d (iac_target_rpm b x d) →
      (-2147483648 ≤ derror * d.param.idl_reg_p ∧ derror * d.param.idl_reg_p ≤ 2147483647) →
      (-2147483648 ≤ error * d.param.idl_reg_i ∧ error * d.param.idl_reg_i ≤ 2147483647) →
      (-2147483648 ≤ derror * d.param.idl_reg_p + error * d.param.idl_reg_i ∧
        derror * d.param.idl_reg_p + error * d.param.idl_reg_i ≤ 2147483647) →
      (-2147483648 ≤ rigidity * (derror * d.param.idl_reg_p + error * d.param.idl_reg_i) ∧
        rigidity * (derror * d.param.idl_reg_p + error * d.param.idl_reg_i) ≤ 2147483647) →
      (calc_sm_position b x d c pwm).2.1.iac_pos =
          max 0 (min (i16 (c.iac_pos +
            rigidity * (derror * d.param.idl_reg_p + error * d.param.idl_reg_i) / 32768)) 800) ∧
        (32768 ≤ c.iac_pos +
            rigidity * (derror * d.param.idl_reg_p + error * d.param.idl_reg_i) / 32768 →
          c.iac_pos +
            rigidity * (derror * d.param.idl_reg_p + error * d.param.idl_reg_i) / 32768 ≤ 65535 →
          (calc_sm_position b x d c pwm).2.1.iac_pos = 0)) := by
  obtain ⟨t1, t2, _, _⟩ := calc_sm_position_tick_fields b x d c pwm hFI hm hreg hcad
  rw [iac_closed_loop_eq] at t1 t2
  obtain ⟨a1, a2⟩ := iac_closed_loop_active b x d c hcl
  rw [iac_regulator_hot x d _ _ hcl hhot] at t1 t2
  have hpos : (calc_sm_position b x d c pwm).2.1.iac_pos =
      restrict_value_to
        (i16 (c.iac_pos +
          iac_pi_increment (iac_rigidity x d (iac_target_rpm b x d))
            (iac_derror d (iac_target_rpm b x d) c) (iac_error d (iac_target_rpm b x d))
            d.param.idl_reg_p d.param.idl_reg_i)) 0 800 := by
    rw [t1]
    show restrict_value_to (i16 ((iac_hysteresis d (iac_target_rpm b x d)
      { c with rpmreg_t1 := u16 x.s_timer_gtc }).iac_pos + _)) 0 800 = _
    rw [a1, a2]
  refine ⟨hpos, ?_, ?_, ?_, ?_, ?_⟩
  · rw [t2]
  · intro h0 h1 h2 h3
    exact iac_error_fits d _ h0 h1 h2 h3
  · intro h1 h2
    unfold iac_derror i16
    omega
  · intro rigidity derror error hr hd he h1 h2 h3 h4 h5 h6
    rw [hpos, ← hr, ← hd, ← he, iac_pi_increment_fits rigidity derror error _ _ h1 h2 h3 h4]
    exact restrict_i16_sum _ _ h5 h6
  · intro rigidity derror error hr hd he h1 h2 h3 h4
    rw [hpos, ← hr, ← hd, ← he, iac_pi_increment_fits rigidity derror error _ _ h1 h2 h3 h4]
    generalize c.iac_pos +
      rigidity * (derror * d.param.idl_reg_p + error * d.param.idl_reg_i) / 32768 = v
    refine ⟨?_, ?_⟩
    · unfold restrict_value_to
      simp only []
      split_ifs <;> omega
    · intro h5 h6
      have e : i16 v = v - 65536 := by unfold i16; omega
      rw [e]
      unfold restrict_value_to
      simp only []
      split_ifs <;> omega

/-- C25 at a concrete input: a hot engine (60.0 degrees) at 900 RPM with
target 1000, unchanged error 100, rigidity 128, Kp = Ki = 256: the increment
is `(128 * (0 * 256 + 100 * 256)) >> 15 = 100`, the accumulator goes from 400
to 500. -/
theorem C25_pi_law_witness :
    (calc_sm_position ex_build_inj ex_feedback_idle
        ex_ecudata_hot ex_chks_loop 0).2.1.iac_pos = 500 :=
  (C25_pi_law ex_build_inj ex_feedback_idle ex_ecudata_hot ex_chks_loop 0 rfl rfl (by decide) (by decide) (by decide) (by decide)).1.trans
    (by decide)

/-- C25 as stated fails where the sum leaves `int16_t`: hot engine at 450 RPM
with target 1000, error limit 550, previous error -550 (so error 550, derror
1100), rigidity 1000, Kp 1000, Ki 0 and accumulator 0.  The product
`1000 * 1100000` fits 32 bits, the increment is 33569 and the stated result is
`clamp(33569, 0, 800) = 800`; the code stores the sum in the `int16_t`
accumulator (-31967) and clamps that to 0. -/
theorem C25_counterexample :
    iac_error ex_ecudata_gain 1000 = 550 ∧
    (1000 * ((550 - (-550)) * 1000 + 550 * 0) / 32768 : Int) = 33569 ∧
    max (0 : Int) (min (0 + 33569) 800) = 800 ∧
    (calc_sm_position ex_build_inj
        { ex_feedback_idle with inj_idlreg_rigidity := fun _ _ _ => 1000 } ex_ecudata_gain
        { ex_chks_loop with iac_pos := 0, prev_rpm_error := -550 } 0).2.1.iac_pos = 0 := by
  decide

/-- C26 (amended): on a regulator tick with the closed loop active, the
coolant temperature below `idlreg_turn_on_temp` and the RPM below the target:
when `error > 0` and `derror > 0` the accumulator becomes the clamp to 0..800
of the `int16_t` value of `iac_pos + ((rigidity * (derror * Kp)) >> 15)`,
with no term in Ki; otherwise it becomes the clamp to 0..800 of `iac_pos`.  For an
accumulator that is within 0..800 before the update this means: it is
unchanged unless both errors are positive, and with both positive, Kp
non-negative and no overflow (the products fit 32 bits, the sum fits 16 bits)
it does not decrease. -/
theorem C26_cold_engine (b : build_t) (x : extern_t) (d : ecudata_t) (c : choke_st_t)
    (pwm : Int) (hFI : b.FUEL_INJECT = true) (hm : c.strt_mode = 2)
    (hreg : CHECKBIT d.param.idl_flags IRF_USE_INJREG = true)
    (hcad : u16 (u16 x.s_timer_gtc - c.rpmreg_t1) ≥ RPMREG_CORR_TIME)
    (hcl : CHECKBIT (iac_hysteresis d (iac_target_rpm b x d)
      { c with rpmreg_t1 := u16 x.s_timer_gtc }).flags CF_CL_LOOP = true)
    (hcold : d.sens.temperat < d.param.idlreg_turn_on_temp ∧
      d.sens.frequen < u16 (iac_target_rpm b x d)) :
    ((iac_error d (iac_target_rpm b x d) > 0 ∧ iac_derror d (iac_target_rpm b x d) c > 0) →
      (calc_sm_position b x d c pwm).2.1.iac_pos =
        restrict_value_to
          (i16 (c.iac_pos +
            iac_pd_increment (iac_rigidity x d (iac_target_rpm b x d))
              (iac_derror d (iac_target_rpm b x d) c) d.param.idl_reg_p)) 0 800) ∧
    (¬ (iac_error d (iac_target_rpm b x d) > 0 ∧ iac_derror d (iac_target_rpm b x d) c > 0) →
      (calc_sm_position b x d c pwm).2.1.iac_pos = restrict_value_to c.iac_pos 0 800) ∧
    (0 ≤ c.iac_pos → c.iac_pos ≤ 800 →
      ¬ (iac_error d (iac_target_rpm b x d) > 0 ∧ iac_derror d (iac_target_rpm b x d) c > 0) →
      (calc_sm_position b x d c pwm).2.1.iac_pos = c.iac_pos) ∧
    (∀ rigidity derror : Int,
      rigidity = iac_rigidity x d (iac_target_rpm b x d) →
      derror = iac_derror d (iac_target_rpm b x d) c →
      0 ≤ c.iac_pos → c.iac_pos ≤ 800 →
      (iac_error d (iac_target_rpm b x d) > 0 ∧ derror > 0) →
      0 ≤ d.param.idl_reg_p →
      derror * d.param.idl_reg_p ≤ 2147483647 →
      rigidity * (derror * d.param.idl_reg_p) ≤ 2147483647 →
      c.iac_pos + rigidity * (derror * d.param.idl_reg_p) / 32768 ≤ 32767 →
      (calc_sm_position b x d c pwm).2.1.iac_pos =
          min (c.iac_pos + rigidity * (derror * d.param.idl_reg_p) / 32768) 800 ∧
        c.iac_pos ≤ (calc_sm_position b x d c pwm).2.1.iac_pos) ∧
    (calc_sm_position b x d c pwm).2.1.prev_rpm_error = iac_error d (iac_target_rpm b x d) := by
  obtain ⟨t1, t2, _, _⟩ := calc_sm_position_tick_fields b x d c pwm hFI hm hreg hcad
  rw [iac_closed_loop_eq] at t1 t2
  obtain ⟨a1, a2⟩ := iac_closed_loop_active b x d c hcl
  have hc : ¬ (d.sens.temperat ≥ d.param.idlreg_turn_on_temp ∨
      d.sens.frequen ≥ u16 (iac_target_rpm b x d)) := by
    intro h
    rcases h with h | h <;> omega
  have hadd : (iac_error d (iac_target_rpm b x d) > 0 ∧
        iac_derror d (iac_target_rpm b x d) c > 0) →
      (calc_sm_position b x d c pwm).2.1.iac_pos =
        restrict_value_to
          (i16 (c.iac_pos +
            iac_pd_increment (iac_rigidity x d (iac_target_rpm b x d))
              (iac_derror d (iac_target_rpm b x d) c) d.param.idl_reg_p)) 0 800 := by
    intro hp
    rw [t1, iac_regulator_cold_add x d _ _ hcl hc (by rw [a2]; exact hp)]
    show restrict_value_to (i16 ((iac_hysteresis d (iac_target_rpm b x d)
      { c with rpmreg_t1 := u16 x.s_timer_gtc }).iac_pos + _)) 0 800 = _
    rw [a1, a2]
  have hkeep : ¬ (iac_error d (iac_target_rpm b x d) > 0 ∧
        iac_derror d (iac_target_rpm b x d) c > 0) →
      (calc_sm_position b x d c pwm).2.1.iac_pos = restrict_value_to c.iac_pos 0 800 := by
    intro hp
    rw [t1, iac_regulator_cold_keep x d _ _ hcl hc (by rw [a2]; exact hp)]
    show restrict_value_to (iac_hysteresis d (iac_target_rpm b x d)
      { c with rpmreg_t1 := u16 x.s_timer_gtc }).iac_pos 0 800 = _
    rw [a1]
  refine ⟨hadd, hkeep, ?_, ?_, ?_⟩
  · intro h0 h1 hp
    rw [hkeep hp]
    exact restrict_value_to_inside _ _ _ h0 h1
  · intro rigidity derror hr hd h0 h1 hp hk hP hS hsum
    have hrig : 0 ≤ rigidity := by rw [hr]; unfold iac_rigidity u16; omega
    have hP0 : 0 ≤ derror * d.param.idl_reg_p := mul_nonneg (by omega) hk
    have hS0 : 0 ≤ rigidity * (derror * d.param.idl_reg_p) := mul_nonneg hrig hP0
    rw [hadd (by rw [← hd]; exact hp), ← hr, ← hd,
      iac_pd_increment_fits rigidity derror _ ⟨by omega, hP⟩ ⟨by omega, hS⟩]
    generalize rigidity * (derror * d.param.idl_reg_p) = s at hS hS0 hsum ⊢
    rw [restrict_i16_sum _ _ (by omega) hsum]
    omega
  · rw [t2]
    by_cases hp : iac_error d (iac_target_rpm b x d) > 0 ∧
        iac_derror d (iac_target_rpm b x d) c > 0
    · rw [iac_regulator_cold_add x d _ _ hcl hc (by rw [a2]; exact hp)]
    · rw [iac_regulator_cold_keep x d _ _ hcl hc (by rw [a2]; exact hp)]

/-- C26 at a concrete input: cold engine (10.0 degrees) at 900 RPM with
target 1000, error 100 after a previous error of 0, rigidity 128, Kp 256: the
accumulator goes from 400 to 500 by the term `(128 * (100 * 256)) >> 15`. -/
theorem C26_cold_engine_witness :
    (calc_sm_position ex_build_inj ex_feedback_idle ex_ecudata_idle
        { ex_chks_loop with prev_rpm_error := 0 } 0).2.1.iac_pos = 500 :=
  ((C26_cold_engine ex_build_inj ex_feedback_idle ex_ecudata_idle
    { ex_chks_loop with prev_rpm_error := 0 } 0 rfl rfl (by decide) (by decide) (by decide)
    (by decide)).1 (by decide)).trans (by decide)

/-- C26 as stated fails for an accumulator above 800, which the tick that
leaves the closed loop produces: from accumulator 800 that tick (engine mode
not idle, `idl_to_run_add = 50`) gives 1000 with the closed loop inactive; the
next regulator tick (idle again, cold engine, RPM 900 below the target 1000,
error 100 unchanged, so `derror = 0`) enters the closed loop and its update
takes the accumulator down to 800. -/
theorem C26_counterexample :
    (calc_sm_position ex_build_inj ex_feedback_idle
        { ex_ecudata_idle with engine_mode := 2 }
        { ex_chks_loop with iac_pos := 800 } 0).2.1 =
      { ex_chks_loop with iac_pos := 1000, flags := 0, rpmreg_t1 := 10 } ∧
    iac_derror ex_ecudata_idle 1000
      { ex_chks_loop with iac_pos := 1000, flags := 0, rpmreg_t1 := 10 } = 0 ∧
    (calc_sm_position ex_build_inj { ex_feedback_idle with s_timer_gtc := 20 }
        ex_ecudata_idle
        { ex_chks_loop with iac_pos := 1000, flags := 0, rpmreg_t1 := 10 } 0).2.1 =
      { ex_chks_loop with iac_pos := 800, flags := 8, rpmreg_t1 := 20 } := by
  decide

/-- The accumulator after a regulator update with the closed loop active is
the clamp to 0..800 of the 16-bit sum of accumulator and increment. -/
theorem iac_regulator_increment (x : extern_t) (d : ecudata_t) (rpm : Int) (c : choke_st_t)
    (hcl : CHECKBIT c.flags CF_CL_LOOP = true)
    (h1 : -32768 ≤ c.iac_pos) (h2 : c.iac_pos ≤ 32767) :
    (iac_regulator x d rpm c).iac_pos =
      restrict_value_to (i16 (c.iac_pos + iac_increment x d rpm c)) 0 800 := by
  unfold iac_increment
  by_cases hhot : d.sens.temperat ≥ d.param.idlreg_turn_on_temp ∨ d.sens.frequen ≥ u16 rpm
  · rw [iac_regulator_hot x d rpm c hcl hhot, if_pos hhot]
  · rw [if_neg hhot]
    by_cases hp : iac_error d rpm > 0 ∧ iac_derror d rpm c > 0
    · rw [iac_regulator_cold_add x d rpm c hcl hhot hp, if_pos hp]
    · rw [iac_regulator_cold_keep x d rpm c hcl hhot hp, if_neg hp]
      have e : i16 (c.iac_pos + 0) = c.iac_pos := by unfold i16; omega
      rw [e]

/-- C27 (amended): on a regulator tick with the closed loop active the
accumulator becomes the clamp to 0..800 of the 16-bit sum of accumulator and
increment.  With Kp and Ki non-negative (the rigidity is unsigned) and no
32-bit overflow in the products: once `error <= 0` with the error not growing
(`derror <= 0`, as when the RPM rises) the increment is non-positive; while
`error > 0` the increment is non-negative if the error does not shrink
(`derror >= 0`); while `error > 0` with a hot engine or the RPM at or above
the target it is positive exactly when
`rigidity * (derror * Kp + error * Ki) >= 32768`, and so it is negative when
that product is negative; while `error > 0` on a cold engine with the RPM
below the target and the error not growing it is zero. -/
theorem C27_regulator_sign (b : build_t) (x : extern_t) (d : ecudata_t) (c : choke_st_t)
    (pwm : Int) (rigidity derror error : Int)
    (hFI : b.FUEL_INJECT = true) (hm : c.strt_mode = 2)
    (hreg : CHECKBIT d.param.idl_flags IRF_USE_INJREG = true)
    (hcad : u16 (u16 x.s_timer_gtc - c.rpmreg_t1) ≥ RPMREG_CORR_TIME)
    (hcl : CHECKBIT (iac_hysteresis d (iac_target_rpm b x d)
      { c with rpmreg_t1 := u16 x.s_timer_gtc }).flags CF_CL_LOOP = true)
    (hacc : -32768 ≤ c.iac_pos ∧ c.iac_pos ≤ 32767)
    (hr : rigidity = iac_rigidity x d (iac_target_rpm b x d))
    (hd : derror = iac_derror d (iac_target_rpm b x d) c)
    (he : error = iac_error d (iac_target_rpm b x d))
    (hkp : 0 ≤ d.param.idl_reg_p) (hki : 0 ≤ d.param.idl_reg_i)
    (h1 : -2147483648 ≤ derror * d.param.idl_reg_p ∧ derror * d.param.idl_reg_p ≤ 2147483647)
    (h2 : -2147483648 ≤ error * d.param.idl_reg_i ∧ error * d.param.idl_reg_i ≤ 2147483647)
    (h3 : -2147483648 ≤ derror * d.param.idl_reg_p + error * d.param.idl_reg_i ∧
      derror * d.param.idl_reg_p + error * d.param.idl_reg_i ≤ 2147483647)
    (h4 : -2147483648 ≤ rigidity * (derror * d.param.idl_reg_p + error * d.param.idl_reg_i) ∧
      rigidity * (derror * d.param.idl_reg_p + error * d.param.idl_reg_i) ≤ 2147483647)
    (h5 : -2147483648 ≤ rigidity * (derror * d.param.idl_reg_p) ∧
      rigidity * (derror * d.param.idl_reg_p) ≤ 2147483647) :
    (calc_sm_position b x d c pwm).2.1.iac_pos =
      restrict_value_to
        (i16 (c.iac_pos + iac_increment x d (iac_target_rpm b x d) c)) 0 800 ∧
    (error ≤ 0 → derror ≤ 0 → iac_increment x d (iac_target_rpm b x d) c ≤ 0) ∧
    (error > 0 → derror ≥ 0 → iac_increment x d (iac_target_rpm b x d) c ≥ 0) ∧
    (error > 0 →
      (d.sens.temperat ≥ d.param.idlreg_turn_on_temp ∨
        d.sens.frequen ≥ u16 (iac_target_rpm b x d)) →
      (iac_increment x d (iac_target_rpm b x d) c =
          rigidity * (derror * d.param.idl_reg_p + error * d.param.idl_reg_i) / 32768 ∧
        (iac_increment x d (iac_target_rpm b x d) c > 0 ↔
          rigidity * (derror * d.param.idl_reg_p + error * d.param.idl_reg_i) ≥ 32768) ∧
        (rigidity * (derror * d.param.idl_reg_p + error * d.param.idl_reg_i) < 0 →
          iac_increment x d (iac_target_rpm b x d) c < 0))) ∧
    (error > 0 →
      ¬ (d.sens.temperat ≥ d.param.idlreg_turn_on_temp ∨
        d.sens.frequen ≥ u16 (iac_target_rpm b x d)) →
      derror ≤ 0 → iac_increment x d (iac_target_rpm b x d) c = 0) := by
  obtain ⟨t1, _, _, _⟩ := calc_sm_position_tick_fields b x d c pwm hFI hm hreg hcad
  rw [iac_closed_loop_eq] at t1
  obtain ⟨a1, a2⟩ := iac_closed_loop_active b x d c hcl
  have hrig : 0 ≤ rigidity := by rw [hr]; unfold iac_rigidity u16; omega
  have hpi := iac_pi_increment_fits rigidity derror error _ _ h1 h2 h3 h4
  have hpd := iac_pd_increment_fits rigidity derror _ h1 h5
  have hinc : iac_increment x d (iac_target_rpm b x d) c =
      if d.sens.temperat ≥ d.param.idlreg_turn_on_temp ∨
          d.sens.frequen ≥ u16 (iac_target_rpm b x d) then
        rigidity * (derror * d.param.idl_reg_p + error * d.param.idl_reg_i) / 32768
      else if error > 0 ∧ derror > 0 then rigidity * (derror * d.param.idl_reg_p) / 32768
      else 0 := by
    unfold iac_increment
    rw [← hr, ← hd, ← he, hpi, hpd]
  refine ⟨?_, ?_, ?_, ?_, ?_⟩
  · rw [t1, iac_regulator_increment x d _ _ hcl (by rw [a1]; exact hacc.1)
      (by rw [a1]; exact hacc.2), a1]
    unfold iac_increment
    rw [a2]
  · intro hle hdle
    have hP : derror * d.param.idl_reg_p ≤ 0 := mul_nonpos_of_nonpos_of_nonneg hdle hkp
    have hQ : error * d.param.idl_reg_i ≤ 0 := mul_nonpos_of_nonpos_of_nonneg hle hki
    have hS : rigidity * (derror * d.param.idl_reg_p + error * d.param.idl_reg_i) ≤ 0 :=
      mul_nonpos_of_nonneg_of_nonpos hrig (by omega)
    rw [hinc]
    generalize rigidity * (derror * d.param.idl_reg_p + error * d.param.idl_reg_i) = s at hS
    split_ifs <;> omega
  · intro hgt hdge
    have hP : 0 ≤ derror * d.param.idl_reg_p := mul_nonneg hdge hkp
    have hQ : 0 ≤ error * d.param.idl_reg_i := mul_nonneg (by omega) hki
    have hS : 0 ≤ rigidity * (derror * d.param.idl_reg_p + error * d.param.idl_reg_i) :=
      mul_nonneg hrig (by omega)
    have hS2 : 0 ≤ rigidity * (derror * d.param.idl_reg_p) := mul_nonneg hrig hP
    rw [hinc]
    generalize rigidity * (derror * d.param.idl_reg_p + error * d.param.idl_reg_i) = s at hS
    generalize rigidity * (derror * d.param.idl_reg_p) = s2 at hS2
    split_ifs <;> omega
  · intro _ hhot
    rw [hinc, if_pos hhot]
    generalize rigidity * (derror * d.param.idl_reg_p + error * d.param.idl_reg_i) = s
    refine ⟨rfl, ?_, ?_⟩
    · constructor <;> intro h <;> omega
    · intro h; omega
  · intro _ hcold hdle
    rw [hinc, if_neg hcold, if_neg (by omega)]

/-- C27 at a concrete input: hot engine at 1010 RPM, just above the target
1000 (error -10, after 50): the increment is non-positive. -/
theorem C27_regulator_sign_witness :
    iac_increment ex_feedback_idle ex_ecudata_above
      (iac_target_rpm ex_build_inj ex_feedback_idle ex_ecudata_above)
      { ex_chks_loop with prev_rpm_error := 50 } ≤ 0 :=
  (C27_regulator_sign ex_build_inj ex_feedback_idle ex_ecudata_above
    { ex_chks_loop with prev_rpm_error := 50 } 0 128 (-60) (-10)
    rfl rfl (by decide) (by decide) (by decide) (by decide) (by decide) (by decide) (by decide)
    (by decide) (by decide) (by decide) (by decide) (by decide) (by decide) (by decide)).2.1
    (by decide) (by decide)

/-- C27 as stated fails while the RPM rises below the target: hot engine
(60.0 degrees), target 1000, RPM 950 after 850 (error 50 > 0 after 150, so
`derror = -100`), rigidity 128, Kp = Ki = 256.  The increment is
`(128 * (-100 * 256 + 50 * 256)) >> 15 = -50`, not positive: the accumulator
goes from 400 to 350. -/
theorem C27_counterexample :
    iac_error ex_ecudata_below 1000 = 50 ∧
    iac_derror ex_ecudata_below 1000 { ex_chks_loop with prev_rpm_error := 150 } = -100 ∧
    iac_increment ex_feedback_idle ex_ecudata_below 1000
      { ex_chks_loop with prev_rpm_error := 150 } = -50 ∧
    (calc_sm_position ex_build_inj ex_feedback_idle ex_ecudata_below
        { ex_chks_loop with prev_rpm_error := 150 } 0).2.1.iac_pos = 350 := by
  decide

/-- A position looked up from a curve with values in 0..200, times 4. -/
theorem iac_lookup_range (v : Int) (h : u8 v ≤ 200) :
    0 ≤ i16 (u16 (u8 v * 4)) ∧ i16 (u16 (u8 v * 4)) ≤ 800 := by
  have h0 : 0 ≤ u8 v := by unfold u8; omega
  generalize u8 v = w at h h0
  unfold i16 u16
  omega

/-- The run mode keeps the accumulator within 0..800, except on the regulator
tick that leaves the closed loop. -/
theorem iac_run_mode_range (b : build_t) (x : extern_t) (d : ecudata_t) (c : choke_st_t)
    (hlook : ∀ (d1 : ecudata_t) (t m : Int), u8 (x.inj_iac_pos_lookup d1 t m).1 ≤ 200)
    (hinv : 0 ≤ c.iac_pos ∧ c.iac_pos ≤ 800)
    (hex : ¬ (CHECKBIT d.param.idl_flags IRF_USE_INJREG = true ∧
      u16 (u16 x.s_timer_gtc - c.rpmreg_t1) ≥ RPMREG_CORR_TIME ∧
      CHECKBIT c.flags CF_CL_LOOP = true ∧
      (d.engine_mode ≠ EM_IDLE ∨
        d.sens.inst_frq > iac_rpm_thrd (iac_target_rpm b x d) d.param.idl_coef_thrd2))) :
    0 ≤ (iac_run_mode b x d c).iac_pos ∧ (iac_run_mode b x d c).iac_pos ≤ 800 := by
  unfold iac_run_mode
  by_cases hreg : CHECKBIT d.param.idl_flags IRF_USE_INJREG = true
  · rw [if_pos hreg]
    by_cases hc : u16 (u16 x.s_timer_gtc - c.rpmreg_t1) < RPMREG_CORR_TIME
    · rw [if_pos hc]
      exact hinv
    · rw [if_neg hc]
      have hpos : 0 ≤ (iac_closed_loop b x d c).iac_pos ∧
          (iac_closed_loop b x d c).iac_pos ≤ 800 := by
        rw [iac_closed_loop_eq]
        cases hafter : CHECKBIT (iac_hysteresis d (iac_target_rpm b x d)
            { c with rpmreg_t1 := u16 x.s_timer_gtc }).flags CF_CL_LOOP
        · rw [iac_regulator_inactive _ _ _ _ hafter]
          cases hbefore : CHECKBIT c.flags CF_CL_LOOP
          · rw [(iac_hysteresis_inactive d (iac_target_rpm b x d)
              { c with rpmreg_t1 := u16 x.s_timer_gtc } hbefore).2.1]
            exact hinv
          · exfalso
            apply hex
            refine ⟨hreg, not_lt.mp hc, hbefore, ?_⟩
            exact (iac_hysteresis_active d (iac_target_rpm b x d)
              { c with rpmreg_t1 := u16 x.s_timer_gtc } hbefore).1.mp hafter
        · exact iac_regulator_range x d _ _ hafter
      simp only []
      split_ifs <;> exact hpos
  · rw [if_neg hreg]
    simp only []
    split_ifs <;> exact iac_lookup_range _ (hlook _ _ _)

/-- The transition threshold is `(target * (coef + 128)) >> 7` whenever the
target RPM and the coefficient are non-negative and that value fits 16
bits. -/
theorem iac_rpm_thrd_fits (rpm coef : Int) (h0 : 0 ≤ rpm) (h1 : 0 ≤ coef) (h2 : coef ≤ 255)
    (h3 : rpm * (coef + 128) / 128 < 65536) :
    iac_rpm_thrd rpm coef = rpm * (coef + 128) / 128 := by
  have hp : 0 ≤ rpm * (coef + 128) := mul_nonneg h0 (by omega)
  have hc : u16 (u16 coef + 128) = coef + 128 := by unfold u16; omega
  unfold iac_rpm_thrd
  rw [hc]
  have hr : u32 rpm = rpm := by
    unfold u32
    have : rpm < 65536 * 128 := by
      by_contra hn
      have : rpm * (coef + 128) ≥ rpm * 128 := by nlinarith
      omega
    omega
  rw [hr]
  generalize rpm * (coef + 128) = p at hp h3 ⊢
  unfold u16 u32
  omega

/-- C29 (amended): on a regulator tick in run mode with the closed loop
configured, with the thresholds as the code stores them (`uint16_t`, reduced
modulo 2^16; they are `(target * (coef + 128)) >> 7` whenever that is below
65536): an inactive closed loop becomes active if and only if the engine mode
is idle and the instantaneous RPM is below the first threshold, and then the
hysteresis step leaves the accumulator alone; an active closed loop becomes
inactive if and only if the engine mode is not idle or the instantaneous RPM
is above the second threshold, exactly then `4 * idl_to_run_add` is added to
the accumulator (16-bit sum, not restricted to 0..800), and otherwise the
hysteresis step changes nothing.  The flag after the call is the flag after
the hysteresis step, so entry and exit exclude each other. -/
theorem C29_hysteresis (b : build_t) (x : extern_t) (d : ecudata_t) (c : choke_st_t)
    (pwm : Int) (hFI : b.FUEL_INJECT = true) (hm : c.strt_mode = 2)
    (hreg : CHECKBIT d.param.idl_flags IRF_USE_INJREG = true)
    (hcad : u16 (u16 x.s_timer_gtc - c.rpmreg_t1) ≥ RPMREG_CORR_TIME) :
    (CHECKBIT c.flags CF_CL_LOOP = false →
      (CHECKBIT (calc_sm_position b x d c pwm).2.1.flags CF_CL_LOOP = true ↔
        d.engine_mode = EM_IDLE ∧
          d.sens.inst_frq < iac_rpm_thrd (iac_target_rpm b x d) d.param.idl_coef_thrd1) ∧
      (iac_hysteresis d (iac_target_rpm b x d)
        { c with rpmreg_t1 := u16 x.s_timer_gtc }).iac_pos = c.iac_pos ∧
      (CHECKBIT (calc_sm_position b x d c pwm).2.1.flags CF_CL_LOOP = false →
        (calc_sm_position b x d c pwm).2.1.iac_pos = c.iac_pos)) ∧
    (CHECKBIT c.flags CF_CL_LOOP = true →
      (CHECKBIT (calc_sm_position b x d c pwm).2.1.flags CF_CL_LOOP = false ↔
        d.engine_mode ≠ EM_IDLE ∨
          d.sens.inst_frq > iac_rpm_thrd (iac_target_rpm b x d) d.param.idl_coef_thrd2) ∧
      (CHECKBIT (calc_sm_position b x d c pwm).2.1.flags CF_CL_LOOP = false →
        (calc_sm_position b x d c pwm).2.1.iac_pos =
          i16 (c.iac_pos + u16 (u16 d.param.idl_to_run_add * 4))) ∧
      (CHECKBIT (calc_sm_position b x d c pwm).2.1.flags CF_CL_LOOP = true →
        iac_hysteresis d (iac_target_rpm b x d) { c with rpmreg_t1 := u16 x.s_timer_gtc } =
          { c with rpmreg_t1 := u16 x.s_timer_gtc })) ∧
    (calc_sm_position b x d c pwm).2.1.flags =
      (iac_hysteresis d (iac_target_rpm b x d)
        { c with rpmreg_t1 := u16 x.s_timer_gtc }).flags ∧
    (calc_sm_position b x d c pwm).2.1.iac_pos =
      (iac_regulator x d (iac_target_rpm b x d)
        (iac_hysteresis d (iac_target_rpm b x d)
          { c with rpmreg_t1 := u16 x.s_timer_gtc })).iac_pos ∧
    (∀ coef : Int, 0 ≤ iac_target_rpm b x d → 0 ≤ coef → coef ≤ 255 →
      iac_target_rpm b x d * (coef + 128) / 128 < 65536 →
      iac_rpm_thrd (iac_target_rpm b x d) coef =
        iac_target_rpm b x d * (coef + 128) / 128) ∧
    (0 ≤ c.iac_pos → c.iac_pos ≤ 800 →
      0 ≤ d.param.idl_to_run_add → d.param.idl_to_run_add ≤ 255 →
      i16 (c.iac_pos + u16 (u16 d.param.idl_to_run_add * 4)) =
        c.iac_pos + 4 * d.param.idl_to_run_add) := by
  obtain ⟨t1, _, t3, _⟩ := calc_sm_position_tick_fields b x d c pwm hFI hm hreg hcad
  rw [iac_closed_loop_eq] at t1 t3
  have hfl := (iac_regulator_frame x d (iac_target_rpm b x d)
    (iac_hysteresis d (iac_target_rpm b x d) { c with rpmreg_t1 := u16 x.s_timer_gtc })).1
  rw [hfl] at t3
  rw [t1, t3]
  refine ⟨?_, ?_, rfl, rfl, ?_, ?_⟩
  · intro hcl
    obtain ⟨a1, a2, _⟩ := iac_hysteresis_inactive d (iac_target_rpm b x d)
      { c with rpmreg_t1 := u16 x.s_timer_gtc } hcl
    refine ⟨a1, a2, ?_⟩
    intro hoff
    rw [iac_regulator_inactive _ _ _ _ hoff]
    exact a2
  · intro hcl
    obtain ⟨a1, a2, a3, _⟩ := iac_hysteresis_active d (iac_target_rpm b x d)
      { c with rpmreg_t1 := u16 x.s_timer_gtc } hcl
    refine ⟨a1, ?_, ?_⟩
    · intro hoff
      rw [iac_regulator_inactive _ _ _ _ hoff]
      exact a2 (a1.mp hoff)
    · intro hon
      apply a3
      intro hex
      rw [a1.mpr hex] at hon
      exact absurd hon (by decide)
  · intro coef h0 h1 h2 h3
    exact iac_rpm_thrd_fits _ coef h0 h1 h2 h3
  · intro h1 h2 h3 h4
    unfold i16 u16
    omega

/-- C29 at a concrete input: closed loop active, the engine leaves the idle
mode: the flag is cleared and the accumulator goes from 400 to 600. -/
theorem C29_hysteresis_witness :
    CHECKBIT (calc_sm_position ex_build_inj ex_feedback_idle
        { ex_ecudata_idle with engine_mode := 2 } ex_chks_loop 0).2.1.flags CF_CL_LOOP = false ∧
    (calc_sm_position ex_build_inj ex_feedback_idle
        { ex_ecudata_idle with engine_mode := 2 } ex_chks_loop 0).2.1.iac_pos =
      i16 (400 + u16 (u16 50 * 4)) :=
  ⟨((C29_hysteresis ex_build_inj ex_feedback_idle { ex_ecudata_idle with engine_mode := 2 }
      ex_chks_loop 0 rfl rfl (by decide) (by decide)).2.1 (by decide)).1.mpr
      (Or.inl (by decide)),
   ((C29_hysteresis ex_build_inj ex_feedback_idle { ex_ecudata_idle with engine_mode := 2 }
      ex_chks_loop 0 rfl rfl (by decide) (by decide)).2.1 (by decide)).2.1 (by decide)⟩

/-- C29 as stated fails where the threshold does not fit 16 bits: with a
target of 30000 RPM and `idl_coef_thrd1 = 255` the stated threshold is
`(30000 * 383) >> 7 = 89765`, the code's `uint16_t rpm_thrd1` is 24229; with
the closed loop inactive, the engine idling and an instantaneous RPM of 25000
(below 89765) the closed loop stays inactive. -/
theorem C29_counterexample :
    (30000 * (255 + 128) / 128 : Int) = 89765 ∧
    iac_rpm_thrd 30000 255 = 24229 ∧
    (25000 : Int) < 30000 * (255 + 128) / 128 ∧
    CHECKBIT (calc_sm_position ex_build_inj
        { ex_feedback_idle with inj_idling_rpm := fun _ => 30000 }
        { ex_ecudata_idle with
          param := { ex_params_idle with idl_coef_thrd1 := 255, idl_coef_thrd2 := 255 },
          sens := { ex_ecudata_idle.sens with frequen := 25000, inst_frq := 25000 } }
        { ex_chks_loop with flags := 0 } 0).2.1.flags CF_CL_LOOP = false := by
  decide

/-- C30: in run mode (phase 2) with the closed loop configured, a call of
`calc_sm_position` made when `(now - last regulator tick) mod 2^16 < 10` does
not call the regulator (the result does not depend on the target-RPM and
rigidity functions) and leaves the whole state unchanged, in particular the
accumulator, the previous RPM error, the closed-loop flag and the regulator
timestamp; the ECU data are untouched. -/
theorem C30_regulator_cadence (b : build_t) (x : extern_t) (d : ecudata_t) (c : choke_st_t)
    (pwm : Int) (hFI : b.FUEL_INJECT = true) (hm : c.strt_mode = 2)
    (hreg : CHECKBIT d.param.idl_flags IRF_USE_INJREG = true)
    (hc : u16 (u16 x.s_timer_gtc - c.rpmreg_t1) < RPMREG_CORR_TIME) :
    (calc_sm_position b x d c pwm).2.1 = c ∧
    (calc_sm_position b x d c pwm).2.1.iac_pos = c.iac_pos ∧
    (calc_sm_position b x d c pwm).2.1.prev_rpm_error = c.prev_rpm_error ∧
    CHECKBIT (calc_sm_position b x d c pwm).2.1.flags CF_CL_LOOP =
      CHECKBIT c.flags CF_CL_LOOP ∧
    (calc_sm_position b x d c pwm).2.1.rpmreg_t1 = c.rpmreg_t1 ∧
    (calc_sm_position b x d c pwm).2.2 = d ∧
    (∀ (f : ecudata_t → Int) (g : ecudata_t → Int → Int → Int),
      calc_sm_position b { x with inj_idling_rpm := f, inj_idlreg_rigidity := g } d c pwm =
        calc_sm_position b x d c pwm) := by
  have hcalc : ∀ x1 : extern_t, x1.s_timer_gtc = x.s_timer_gtc →
      calc_sm_position b x1 d c pwm =
        if pwm ≠ 0 then (i16 ((i32 (256 * c.iac_pos)).tdiv 800), c, d)
        else (i16 ((i32 (d.param.sm_steps * c.iac_pos)).tdiv 800), c, d) := by
    intro x1 hx
    have hu : iac_position_update b x1 d c = c := by
      unfold iac_position_update
      rw [if_neg (by omega), if_neg (by omega), if_pos hm]
      unfold iac_run_mode
      rw [if_pos hreg, if_pos (by rw [hx]; exact hc)]
    unfold calc_sm_position
    rw [if_pos hFI]
    simp only []
    rw [hu]
  have h := hcalc x rfl
  refine ⟨?_, ?_, ?_, ?_, ?_, ?_, ?_⟩
  · rw [h]; split_ifs <;> rfl
  · rw [h]; split_ifs <;> rfl
  · rw [h]; split_ifs <;> rfl
  · rw [h]; split_ifs <;> rfl
  · rw [h]; split_ifs <;> rfl
  · rw [h]; split_ifs <;> rfl
  · intro f g
    exact (hcalc { x with inj_idling_rpm := f, inj_idlreg_rigidity := g } rfl).trans h.symm

/-- C30 at a concrete input: 4 ticks after the last regulator tick (timer 10,
last tick at 6) the state is unchanged although the RPM is off the target. -/
theorem C30_regulator_cadence_witness :
    (calc_sm_position ex_build_inj ex_feedback_idle ex_ecudata_idle
        { ex_chks_loop with rpmreg_t1 := 6 } 0).2.1 = { ex_chks_loop with rpmreg_t1 := 6 } :=
  (C30_regulator_cadence ex_build_inj ex_feedback_idle ex_ecudata_idle
    { ex_chks_loop with rpmreg_t1 := 6 } 0 rfl rfl (by decide) (by decide)).1

/-! ## The phases of the IAC position (injection build) -/

/-- Phase CRANK (0): the accumulator is loaded from the crank curve; when the
engine runs the closed-loop flag is cleared, both timers are set and the phase
becomes RUN (2) with the closed loop configured, CRANK_TO_RUN (1) otherwise.
No other state variable is written. -/
theorem iac_position_update_crank (b : build_t) (x : extern_t) (d : ecudata_t)
    (c : choke_st_t) (hm : c.strt_mode = 0) :
    iac_position_update b x d c =
      if d.st_block ≠ 0 then
        { c with
          prev_temp := i16 (x.inj_iac_pos_lookup d c.prev_temp 0).2,
          iac_pos := i16 (u16 (u8 (x.inj_iac_pos_lookup d c.prev_temp 0).1 * 4)),
          flags := CLEARBIT c.flags CF_CL_LOOP,
          strt_t1 := u16 x.s_timer_gtc,
          strt_mode := if CHECKBIT d.param.idl_flags IRF_USE_INJREG then 2 else 1,
          rpmreg_t1 := u16 x.s_timer_gtc }
      else
        { c with
          prev_temp := i16 (x.inj_iac_pos_lookup d c.prev_temp 0).2,
          iac_pos := i16 (u16 (u8 (x.inj_iac_pos_lookup d c.prev_temp 0).1 * 4)) } := by
  unfold iac_position_update
  rw [if_pos hm]

/-- C31 (amended): a call of `calc_sm_position` in phase CRANK (0) loads the
accumulator with 4 times the crank-curve value; the call that leaves the phase
(engine running) also clears the closed-loop flag and sets the regulator
timestamp to `now`, so the regulator is not called before 10 further ticks.
The previous RPM error is not reset: it keeps the value it had before the
call (only `choke_init` zeroes it). -/
theorem C31_crank_reset (b : build_t) (x : extern_t) (d : ecudata_t) (c : choke_st_t)
    (pwm : Int) (hFI : b.FUEL_INJECT = true) (hm : c.strt_mode = 0) :
    (calc_sm_position b x d c pwm).2.1.iac_pos =
      i16 (u16 (u8 (x.inj_iac_pos_lookup d c.prev_temp 0).1 * 4)) ∧
    (calc_sm_position b x d c pwm).2.1.prev_rpm_error = c.prev_rpm_error ∧
    (d.st_block ≠ 0 →
      CHECKBIT (calc_sm_position b x d c pwm).2.1.flags CF_CL_LOOP = false ∧
      (calc_sm_position b x d c pwm).2.1.rpmreg_t1 = u16 x.s_timer_gtc ∧
      (calc_sm_position b x d c pwm).2.1.strt_mode =
        (if CHECKBIT d.param.idl_flags IRF_USE_INJREG then 2 else 1)) ∧
    (d.st_block = 0 → (calc_sm_position b x d c pwm).2.1.strt_mode = 0) ∧
    (u8 (x.inj_iac_pos_lookup d c.prev_temp 0).1 ≤ 200 →
      (calc_sm_position b x d c pwm).2.1.iac_pos =
        4 * u8 (x.inj_iac_pos_lookup d c.prev_temp 0).1) ∧
    (choke_init b c).prev_rpm_error = 0 := by
  rw [calc_sm_position_state b x d c pwm hFI, iac_position_update_crank b x d c hm]
  refine ⟨?_, ?_, ?_, ?_, ?_, ?_⟩
  · split_ifs <;> rfl
  · split_ifs <;> rfl
  · intro hb
    rw [if_pos hb]
    refine ⟨?_, rfl, rfl⟩
    show CHECKBIT (CLEARBIT c.flags CF_CL_LOOP) CF_CL_LOOP = false
    rw [CHECKBIT_CLEARBIT _ _ _ (by decide) (by decide)]
    simp
  · intro hb
    rw [if_neg (by simp [hb])]
    exact hm
  · intro hl
    have h0 : 0 ≤ u8 (x.inj_iac_pos_lookup d c.prev_temp 0).1 := by unfold u8; omega
    have e : i16 (u16 (u8 (x.inj_iac_pos_lookup d c.prev_temp 0).1 * 4)) =
        4 * u8 (x.inj_iac_pos_lookup d c.prev_temp 0).1 := by
      generalize u8 (x.inj_iac_pos_lookup d c.prev_temp 0).1 = w at hl h0
      unfold i16 u16
      omega
    split_ifs <;> exact e
  · unfold choke_init
    rw [if_pos hFI]

/-- C31 at a concrete input: leaving CRANK with a crank-curve value of 100
gives the accumulator 400 and a clear closed-loop flag. -/
theorem C31_crank_reset_witness :
    (calc_sm_position ex_build_inj
        { ex_feedback_idle with inj_iac_pos_lookup := fun _ t _ => (100, t) }
        ex_ecudata_idle { ex_chks_loop with strt_mode := 0 } 0).2.1.iac_pos = 400 ∧
    CHECKBIT (calc_sm_position ex_build_inj
        { ex_feedback_idle with inj_iac_pos_lookup := fun _ t _ => (100, t) }
        ex_ecudata_idle { ex_chks_loop with strt_mode := 0 } 0).2.1.flags CF_CL_LOOP = false :=
  ⟨((C31_crank_reset ex_build_inj
      { ex_feedback_idle with inj_iac_pos_lookup := fun _ t _ => (100, t) }
      ex_ecudata_idle { ex_chks_loop with strt_mode := 0 } 0 rfl rfl).1).trans (by decide),
   ((C31_crank_reset ex_build_inj
      { ex_feedback_idle with inj_iac_pos_lookup := fun _ t _ => (100, t) }
      ex_ecudata_idle { ex_chks_loop with strt_mode := 0 } 0 rfl rfl).2.2.1 (by decide)).1⟩

/-- C31 as stated fails for the previous RPM error: with the last closed-loop
error 100 stored, closed loop active and the accumulator at 400, the engine
stalls (the regulator tick with `st_block = 0` returns to CRANK) and is
started again (the CRANK call with `st_block = 1` leaves the phase): the
closed-loop flag is clear and the accumulator is the crank value 0, but the
previous RPM error is still 100 when the regulator is called next. -/
theorem C31_counterexample :
    (calc_sm_position ex_build_inj ex_feedback_idle
        { ex_ecudata_idle with st_block := 0 } ex_chks_loop 0).2.1.strt_mode = 0 ∧
    (calc_sm_position ex_build_inj { ex_feedback_idle with s_timer_gtc := 20 } ex_ecudata_idle
        (calc_sm_position ex_build_inj ex_feedback_idle
          { ex_ecudata_idle with st_block := 0 } ex_chks_loop 0).2.1 0).2.1 =
      { ex_chks_loop with
        strt_mode := 2, flags := 0, iac_pos := 0, prev_rpm_error := 100,
        strt_t1 := 20, rpmreg_t1 := 20 } ∧
    (100 : Int) ≠ 0 := by
  decide

/-- The run mode without the closed loop configured: the accumulator follows
the run curve and the phase returns to CRANK when the engine is not
running. -/
theorem iac_run_mode_open (b : build_t) (x : extern_t) (d : ecudata_t) (c : choke_st_t)
    (hreg : CHECKBIT d.param.idl_flags IRF_USE_INJREG = false) :
    iac_run_mode b x d c =
      if d.st_block = 0 then
        { c with
          prev_temp := i16 (x.inj_iac_pos_lookup d c.prev_temp 1).2,
          iac_pos := i16 (u16 (u8 (x.inj_iac_pos_lookup d c.prev_temp 1).1 * 4)),
          strt_mode := 0 }
      else
        { c with
          prev_temp := i16 (x.inj_iac_pos_lookup d c.prev_temp 1).2,
          iac_pos := i16 (u16 (u8 (x.inj_iac_pos_lookup d c.prev_temp 1).1 * 4)) } := by
  unfold iac_run_mode
  rw [if_neg (by rw [hreg]; decide)]

/-- The run mode with the closed loop configured, between two regulator
ticks: nothing is written. -/
theorem iac_run_mode_hold (b : build_t) (x : extern_t) (d : ecudata_t) (c : choke_st_t)
    (hreg : CHECKBIT d.param.idl_flags IRF_USE_INJREG = true)
    (hc : u16 (u16 x.s_timer_gtc - c.rpmreg_t1) < RPMREG_CORR_TIME) :
    iac_run_mode b x d c = c := by
  unfold iac_run_mode
  rw [if_pos hreg, if_pos hc]

/-- The run mode with the closed loop configured, on a regulator tick. -/
theorem iac_run_mode_tick (b : build_t) (x : extern_t) (d : ecudata_t) (c : choke_st_t)
    (hreg : CHECKBIT d.param.idl_flags IRF_USE_INJREG = true)
    (hc : u16 (u16 x.s_timer_gtc - c.rpmreg_t1) ≥ RPMREG_CORR_TIME) :
    iac_run_mode b x d c =
      if d.st_block = 0 then { iac_closed_loop b x d c with strt_mode := 0 }
      else iac_closed_loop b x d c := by
  unfold iac_run_mode
  rw [if_pos hreg, if_neg (not_lt.mpr hc)]

theorem iac_closed_loop_strt_mode (b : build_t) (x : extern_t) (d : ecudata_t)
    (c : choke_st_t) : (iac_closed_loop b x d c).strt_mode = c.strt_mode := by
  rw [iac_closed_loop_eq, (iac_regulator_frame x d _ _).2.2, (iac_hysteresis_frame d _ _).2.2]

/-- Phase CRANK_TO_RUN (1) before the transition time has elapsed: the
interpolation branch, which ends in `break`. -/
theorem iac_position_update_interp (b : build_t) (x : extern_t) (d : ecudata_t)
    (c : choke_st_t) (hm : c.strt_mode = 1)
    (ht : u16 (u16 x.s_timer_gtc - c.strt_t1) < d.param.inj_cranktorun_time) :
    (iac_position_update b x d c).strt_mode = 1 ∧
    (iac_position_update b x d c).iac_pos =
      i16 (restrict_value_to
        (i16 (u8 (x.inj_iac_pos_lookup d
              (i16 (x.inj_iac_pos_lookup d c.prev_temp 0).2) 1).1 -
          (i32 (i32 (i16 (u8 (x.inj_iac_pos_lookup d
                (i16 (x.inj_iac_pos_lookup d c.prev_temp 0).2) 1).1 -
              u8 (x.inj_iac_pos_lookup d c.prev_temp 0).1) *
            u16 (d.param.inj_cranktorun_time -
              u16 (u16 x.s_timer_gtc - c.strt_t1))) * 128)).tdiv
            d.param.inj_cranktorun_time / 128)) 0 (100 * 2) * 4) := by
  unfold iac_position_update
  rw [if_neg (by omega), if_pos hm]
  simp only []
  rw [if_neg (not_le.mpr ht)]
  exact ⟨hm, rfl⟩

/-- Phase CRANK_TO_RUN (1) once the transition time has elapsed: the call
goes on into the run mode with the regulator timestamp set to `now`. -/
theorem iac_position_update_elapsed (b : build_t) (x : extern_t) (d : ecudata_t)
    (c : choke_st_t) (hm : c.strt_mode = 1)
    (ht : u16 (u16 x.s_timer_gtc - c.strt_t1) ≥ d.param.inj_cranktorun_time) :
    iac_position_update b x d c =
      iac_run_mode b x d { c with strt_mode := 2, rpmreg_t1 := u16 x.s_timer_gtc } := by
  unfold iac_position_update
  rw [if_neg (by omega), if_pos hm]
  simp only []
  rw [if_pos ht]

theorem iac_position_update_run (b : build_t) (x : extern_t) (d : ecudata_t)
    (c : choke_st_t) (hm : c.strt_mode = 2) :
    iac_position_update b x d c = iac_run_mode b x d c := by
  unfold iac_position_update
  rw [if_neg (by omega), if_neg (by omega), if_pos hm]

/-- C32 (amended): with the engine not running (`st_block = 0`) a call of
`calc_sm_position` returns to phase CRANK (0) from the run mode (2) when the
closed loop is not configured, or when it is configured and the call is a
regulator tick (at least 10 ticks since the last one); and from CRANK_TO_RUN
(1) when the transition time has elapsed and the closed loop is not
configured.  It does not return to CRANK in the other calls: in the run mode
with the closed loop configured between two regulator ticks the phase stays 2;
in CRANK_TO_RUN before the transition time has elapsed the phase stays 1; in
CRANK_TO_RUN with the time elapsed and the closed loop configured the phase
becomes 2. -/
theorem C32_return_to_crank (b : build_t) (x : extern_t) (d : ecudata_t) (c : choke_st_t)
    (pwm : Int) (hFI : b.FUEL_INJECT = true) (hb : d.st_block = 0) :
    (c.strt_mode = 2 → CHECKBIT d.param.idl_flags IRF_USE_INJREG = false →
      (calc_sm_position b x d c pwm).2.1.strt_mode = 0) ∧
    (c.strt_mode = 2 → CHECKBIT d.param.idl_flags IRF_USE_INJREG = true →
      u16 (u16 x.s_timer_gtc - c.rpmreg_t1) ≥ RPMREG_CORR_TIME →
      (calc_sm_position b x d c pwm).2.1.strt_mode = 0) ∧
    (c.strt_mode = 2 → CHECKBIT d.param.idl_flags IRF_USE_INJREG = true →
      u16 (u16 x.s_timer_gtc - c.rpmreg_t1) < RPMREG_CORR_TIME →
      (calc_sm_position b x d c pwm).2.1.strt_mode = 2) ∧
    (c.strt_mode = 1 →
      u16 (u16 x.s_timer_gtc - c.strt_t1) < d.param.inj_cranktorun_time →
      (calc_sm_position b x d c pwm).2.1.strt_mode = 1) ∧
    (c.strt_mode = 1 →
      u16 (u16 x.s_timer_gtc - c.strt_t1) ≥ d.param.inj_cranktorun_time →
      CHECKBIT d.param.idl_flags IRF_USE_INJREG = false →
      (calc_sm_position b x d c pwm).2.1.strt_mode = 0) ∧
    (c.strt_mode = 1 →
      u16 (u16 x.s_timer_gtc - c.strt_t1) ≥ d.param.inj_cranktorun_time →
      CHECKBIT d.param.idl_flags IRF_USE_INJREG = true →
      (calc_sm_position b x d c pwm).2.1.strt_mode = 2) := by
  rw [calc_sm_position_state b x d c pwm hFI]
  refine ⟨?_, ?_, ?_, ?_, ?_, ?_⟩
  · intro hm hreg
    rw [iac_position_update_run b x d c hm, iac_run_mode_open b x d c hreg, if_pos hb]
  · intro hm hreg hc
    rw [iac_position_update_run b x d c hm, iac_run_mode_tick b x d c hreg hc, if_pos hb]
  · intro hm hreg hc
    rw [iac_position_update_run b x d c hm, iac_run_mode_hold b x d c hreg hc]
    exact hm
  · intro hm ht
    exact (iac_position_update_interp b x d c hm ht).1
  · intro hm ht hreg
    rw [iac_position_update_elapsed b x d c hm ht, iac_run_mode_open b x d _ hreg, if_pos hb]
  · intro hm ht hreg
    rw [iac_position_update_elapsed b x d c hm ht, iac_run_mode_hold b x d _ hreg]
    show u16 (u16 x.s_timer_gtc - u16 x.s_timer_gtc) < RPMREG_CORR_TIME
    have hz : u16 (u16 x.s_timer_gtc - u16 x.s_timer_gtc) = 0 := by unfold u16; omega
    rw [hz]
    decide

/-- C32 at a concrete input: a regulator tick of the run mode with the engine
not running returns to CRANK. -/
theorem C32_return_to_crank_witness :
    (calc_sm_position ex_build_inj ex_feedback_idle
        { ex_ecudata_idle with st_block := 0 } ex_chks_loop 0).2.1.strt_mode = 0 :=
  (C32_return_to_crank ex_build_inj ex_feedback_idle
    { ex_ecudata_idle with st_block := 0 } ex_chks_loop 0 rfl rfl).2.1 rfl (by decide)
    (by decide)

/-- C32 as stated fails between two regulator ticks and during the
crank-to-run transition: with the engine not running, a call in the run mode
with the closed loop configured 4 ticks after the last regulator tick leaves
the phase at 2, and a call in CRANK_TO_RUN 10 ticks into a transition of 300
ticks leaves the phase at 1. -/
theorem C32_counterexample :
    ({ ex_ecudata_idle with st_block := 0 } : ecudata_t).st_block = 0 ∧
    (calc_sm_position ex_build_inj ex_feedback_idle
        { ex_ecudata_idle with st_block := 0 }
        { ex_chks_loop with rpmreg_t1 := 6 } 0).2.1.strt_mode = 2 ∧
    (calc_sm_position ex_build_inj ex_feedback_idle
        { ex_ecudata_idle with
          st_block := 0,
          param := { ex_params_idle with idl_flags := 0, inj_cranktorun_time := 300 } }
        { ex_chks with strt_mode := 1 } 0).2.1.strt_mode = 1 := by
  decide

/-- The crank-to-run interpolation for curve values in 0..255 and
`0 <= t < T <= 65535`: the 16-bit and 32-bit conversions change nothing, the
product fits 32 bits, and the interpolated value lies between the crank and
the run value and is the crank value at `t = 0`. -/
theorem iac_interpolation (run crank T t : Int) (hr0 : 0 ≤ run) (hr1 : run ≤ 255)
    (hc0 : 0 ≤ crank) (hc1 : crank ≤ 255) (ht0 : 0 ≤ t) (ht : t < T) (hT : T ≤ 65535) :
    i32 (i32 (i16 (run - crank) * u16 (T - t)) * 128) = (run - crank) * (T - t) * 128 ∧
    (-2147483648 ≤ (run - crank) * (T - t) * 128 ∧
      (run - crank) * (T - t) * 128 ≤ 2147483647) ∧
    min crank run ≤ run - ((run - crank) * (T - t) * 128).tdiv T / 128 ∧
    run - ((run - crank) * (T - t) * 128).tdiv T / 128 ≤ max crank run ∧
    (t = 0 → run - ((run - crank) * (T - t) * 128).tdiv T / 128 = crank) := by
  have e1 : i16 (run - crank) = run - crank := by unfold i16; omega
  have e2 : u16 (T - t) = T - t := by unfold u16; omega
  have hT0 : 0 < T := by omega
  have hzero : t = 0 → run - ((run - crank) * (T - t) * 128).tdiv T / 128 = crank := by
    intro h0
    subst h0
    have e : (run - crank) * (T - 0) * 128 = (run - crank) * 128 * T := by ring
    rw [e, Int.mul_tdiv_cancel _ (by omega)]
    omega
  by_cases hD : 0 ≤ run - crank
  · have h0 : 0 ≤ (run - crank) * (T - t) := mul_nonneg hD (by omega)
    have h1 : (run - crank) * (T - t) ≤ (run - crank) * T :=
      mul_le_mul_of_nonneg_left (by omega) hD
    have h2 : (run - crank) * T ≤ 255 * 65535 := mul_le_mul (by omega) hT (by omega) (by norm_num)
    have h3 : (run - crank) * (T - t) * 128 ≤ (run - crank) * 128 * T := by
      have e : (run - crank) * 128 * T = (run - crank) * T * 128 := by ring
      rw [e]
      omega
    have hq0 : 0 ≤ (run - crank) * (T - t) * 128 / T := Int.ediv_nonneg (by omega) (by omega)
    have hq1 : (run - crank) * (T - t) * 128 / T ≤ (run - crank) * 128 :=
      Int.ediv_le_of_le_mul hT0 h3
    rw [e1, e2]
    refine ⟨?_, ⟨by omega, by omega⟩, ?_, ?_, hzero⟩
    · have ea : i32 ((run - crank) * (T - t)) = (run - crank) * (T - t) := by
        generalize (run - crank) * (T - t) = p at h0 h1
        unfold i32; omega
      rw [ea]
      generalize (run - crank) * (T - t) = p at h0 h1
      unfold i32; omega
    · rw [Int.tdiv_eq_ediv (by omega) (by omega)]
      generalize (run - crank) * (T - t) * 128 / T = q at hq0 hq1
      omega
    · rw [Int.tdiv_eq_ediv (by omega) (by omega)]
      generalize (run - crank) * (T - t) * 128 / T = q at hq0 hq1
      omega
  · have hD2 : 0 ≤ crank - run := by omega
    have h0 : 0 ≤ (crank - run) * (T - t) := mul_nonneg hD2 (by omega)
    have h1 : (crank - run) * (T - t) ≤ (crank - run) * T :=
      mul_le_mul_of_nonneg_left (by omega) hD2
    have h2 : (crank - run) * T ≤ 255 * 65535 := mul_le_mul (by omega) hT (by omega) (by norm_num)
    have h3 : (crank - run) * (T - t) * 128 ≤ (crank - run) * 128 * T := by
      have e : (crank - run) * 128 * T = (crank - run) * T * 128 := by ring
      rw [e]
      omega
    have hq0 : 0 ≤ (crank - run) * (T - t) * 128 / T := Int.ediv_nonneg (by omega) (by omega)
    have hq1 : (crank - run) * (T - t) * 128 / T ≤ (crank - run) * 128 :=
      Int.ediv_le_of_le_mul hT0 h3
    have en : (run - crank) * (T - t) = -((crank - run) * (T - t)) := by ring
    have en2 : (run - crank) * (T - t) * 128 = -((crank - run) * (T - t) * 128) := by ring
    have etd : ((run - crank) * (T - t) * 128).tdiv T =
        -((crank - run) * (T - t) * 128 / T) := by
      rw [en2, Int.neg_tdiv, Int.tdiv_eq_ediv (by omega) (by omega)]
    rw [e1, e2]
    refine ⟨?_, ⟨by omega, by omega⟩, ?_, ?_, hzero⟩
    · rw [en]
      have ea : i32 (-((crank - run) * (T - t))) = -((crank - run) * (T - t)) := by
        generalize (crank - run) * (T - t) = p at h0 h1
        unfold i32; omega
      rw [ea]
      generalize (crank - run) * (T - t) = p at h0 h1
      unfold i32; omega
    · rw [etd]
      generalize (crank - run) * (T - t) * 128 / T = q at hq0 hq1
      omega
    · rw [etd]
      generalize (crank - run) * (T - t) * 128 / T = q at hq0 hq1
      omega

/-- C33 (amended): in phase CRANK_TO_RUN (1) with elapsed time
`t < T = inj_cranktorun_time` (`T` an unsigned 16-bit value), for curve values
`crank` and `run` in 0..255: `T` is not zero, the 32-bit product
`(run - crank) * (T - t) * 128` does not overflow, the interpolated value
`v = run - (((run - crank) * (T - t) * 128 / T) >> 7)` lies between `crank`
and `run` inclusive and equals `crank` at `t = 0`; the accumulator becomes
`4 * min(v, 200)` and the phase stays 1.  The accumulator is `4 * v`, between
`4 * crank` and `4 * run`, when both curve values are at most 200. -/
theorem C33_crank_to_run (b : build_t) (x : extern_t) (d : ecudata_t) (c : choke_st_t)
    (pwm : Int) (hFI : b.FUEL_INJECT = true) (hm : c.strt_mode = 1)
    (ht : u16 (u16 x.s_timer_gtc - c.strt_t1) < d.param.inj_cranktorun_time)
    (hT : d.param.inj_cranktorun_time ≤ 65535) :
    d.param.inj_cranktorun_time ≠ 0 ∧
    (calc_sm_position b x d c pwm).2.1.strt_mode = 1 ∧
    (∀ crank run T t : Int,
      crank = u8 (x.inj_iac_pos_lookup d c.prev_temp 0).1 →
      run = u8 (x.inj_iac_pos_lookup d (i16 (x.inj_iac_pos_lookup d c.prev_temp 0).2) 1).1 →
      T = d.param.inj_cranktorun_time →
      t = u16 (u16 x.s_timer_gtc - c.strt_t1) →
      (-2147483648 ≤ (run - crank) * (T - t) * 128 ∧
        (run - crank) * (T - t) * 128 ≤ 2147483647) ∧
      min crank run ≤ run - ((run - crank) * (T - t) * 128).tdiv T / 128 ∧
      run - ((run - crank) * (T - t) * 128).tdiv T / 128 ≤ max crank run ∧
      (t = 0 → run - ((run - crank) * (T - t) * 128).tdiv T / 128 = crank) ∧
      (calc_sm_position b x d c pwm).2.1.iac_pos =
        4 * min (run - ((run - crank) * (T - t) * 128).tdiv T / 128) 200 ∧
      (crank ≤ 200 → run ≤ 200 →
        (calc_sm_position b x d c pwm).2.1.iac_pos =
          4 * (run - ((run - crank) * (T - t) * 128).tdiv T / 128))) := by
  have ht0 : 0 ≤ u16 (u16 x.s_timer_gtc - c.strt_t1) := by unfold u16; omega
  obtain ⟨p1, p2⟩ := iac_position_update_interp b x d c hm ht
  rw [calc_sm_position_state b x d c pwm hFI]
  refine ⟨by omega, p1, ?_⟩
  intro crank run T t hc hr hTe hte
  have hc0 : 0 ≤ crank := by rw [hc]; unfold u8; omega
  have hc1 : crank ≤ 255 := by rw [hc]; unfold u8; omega
  have hr0 : 0 ≤ run := by rw [hr]; unfold u8; omega
  have hr1 : run ≤ 255 := by rw [hr]; unfold u8; omega
  obtain ⟨i1, i2, i3, i4, i5⟩ := iac_interpolation run crank T t hr0 hr1 hc0 hc1
    (by rw [hte]; exact ht0) (by rw [hte, hTe]; exact ht) (by rw [hTe]; exact hT)
  have hpos : (iac_position_update b x d c).iac_pos =
      4 * min (run - ((run - crank) * (T - t) * 128).tdiv T / 128) 200 := by
    rw [p2, ← hc, ← hr, ← hTe, ← hte, i1]
    generalize run - ((run - crank) * (T - t) * 128).tdiv T / 128 = v at i3 i4
    have hv0 : 0 ≤ v := by omega
    have hv1 : v ≤ 255 := by omega
    have ev : i16 v = v := by unfold i16; omega
    rw [ev]
    unfold restrict_value_to
    simp only []
    split_ifs <;> (unfold i16; omega)
  refine ⟨i2, i3, i4, i5, hpos, ?_⟩
  intro h1 h2
  rw [hpos]
  generalize run - ((run - crank) * (T - t) * 128).tdiv T / 128 = v at i3 i4
  omega

/-- C33 at a concrete input: crank value 200, run value 100, 100 ticks into a
transition of 300 ticks: the interpolated value is 167, the accumulator
668. -/
theorem C33_crank_to_run_witness :
    (calc_sm_position ex_build_inj
        { ex_feedback_idle with
          s_timer_gtc := 100,
          inj_iac_pos_lookup := fun _ t m => (if m = 0 then 200 else 100, t) }
        { ex_ecudata_idle with
          param := { ex_params_idle with idl_flags := 0, inj_cranktorun_time := 300 } }
        { ex_chks with strt_mode := 1 } 0).2.1.iac_pos = 668 :=
  ((C33_crank_to_run ex_build_inj
    { ex_feedback_idle with
      s_timer_gtc := 100,
      inj_iac_pos_lookup := fun _ t m => (if m = 0 then 200 else 100, t) }
    { ex_ecudata_idle with
      param := { ex_params_idle with idl_flags := 0, inj_cranktorun_time := 300 } }
    { ex_chks with strt_mode := 1 } 0 rfl rfl (by decide) (by decide)).2.2
    200 100 300 100 (by decide) (by decide) rfl (by decide)).2.2.2.2.1.trans (by decide)

/-- C33 as stated fails for curve values above 200: with crank and run value
both 255, at `t = 0` in a transition of 300 ticks, the interpolated value is
255 but the x2-percent position is clamped to 200 (accumulator 800), which is
neither the crank position nor between the crank and the run position. -/
theorem C33_counterexample :
    (255 - ((255 - 255) * (300 - 0) * 128 : Int).tdiv 300 / 128 : Int) = 255 ∧
    (calc_sm_position ex_build_inj
        { ex_feedback_idle with
          s_timer_gtc := 0, inj_iac_pos_lookup := fun _ t _ => (255, t) }
        { ex_ecudata_idle with
          param := { ex_params_idle with idl_flags := 0, inj_cranktorun_time := 300 } }
        { ex_chks with strt_mode := 1 } 0).2.1.iac_pos = 4 * 200 ∧
    (200 : Int) ≠ 255 := by
  decide

/-! ## Output scaling and position percentage -/

/-- The conversion of an accumulator value in 0..800 to a PWM duty. -/
theorem iac_duty_conversion (p : Int) (h0 : 0 ≤ p) (h1 : p ≤ 800) :
    i16 ((i32 (256 * p)).tdiv 800) = 256 * p / 800 ∧
    0 ≤ 256 * p / 800 ∧ 256 * p / 800 ≤ 256 := by
  have e : i32 (256 * p) = 256 * p := by unfold i32; omega
  rw [e, Int.tdiv_eq_ediv (by omega) (by norm_num)]
  refine ⟨?_, by omega, by omega⟩
  unfold i16
  omega

/-- The conversion of an accumulator value in 0..800 to stepper steps, for an
unsigned 16-bit `sm_steps`. -/
theorem iac_step_conversion (s p : Int) (hs0 : 0 ≤ s) (hs1 : s ≤ 65535)
    (h0 : 0 ≤ p) (h1 : p ≤ 800) :
    (i32 (s * p)).tdiv 800 = s * p / 800 ∧ 0 ≤ s * p / 800 ∧ s * p / 800 ≤ s := by
  have hp0 : 0 ≤ s * p := mul_nonneg hs0 h0
  have hp1 : s * p ≤ s * 800 := mul_le_mul_of_nonneg_left h1 hs0
  have hq : s * p / 800 ≤ s := Int.ediv_le_of_le_mul (by norm_num) hp1
  have hq0 : 0 ≤ s * p / 800 := Int.ediv_nonneg hp0 (by norm_num)
  generalize s * p = q at hp0 hp1 hq hq0
  have e : i32 q = q := by unfold i32; omega
  rw [e, Int.tdiv_eq_ediv hp0 (by norm_num)]
  exact ⟨rfl, hq0, hq⟩

/-- C34 (amended): in the injection build, when the accumulator after the
update of the call lies in 0..800: with the PWM output configured the tick of
`choke_control` hands the duty `min(255, floor(256 * iac_pos / 800))` to the
PWM driver, a value in 0..255; the stepper target returned by
`calc_sm_position` is `floor(sm_steps * iac_pos / 800)` reduced to `int16_t`,
which for `sm_steps <= 32767` is `floor(sm_steps * iac_pos / 800)` itself and
lies in `[0, sm_steps]`; both conversions are monotone non-decreasing in the
accumulator. -/
theorem C34_output_scaling (b : build_t) (x : extern_t) (d : ecudata_t) (c : choke_st_t)
    (hFI : b.FUEL_INJECT = true)
    (hp : 0 ≤ (iac_position_update b x d c).iac_pos ∧
      (iac_position_update b x d c).iac_pos ≤ 800)
    (hs : 0 ≤ d.param.sm_steps ∧ d.param.sm_steps ≤ 65535) :
    (x.IOP_IAC_PWM = true →
      ∃ r, choke_control b x d c = some r ∧
        r.2.2 = [cmd_t.vent_set_duty8
          (min 255 (256 * (iac_position_update b x d c).iac_pos / 800))]) ∧
    (0 ≤ min 255 (256 * (iac_position_update b x d c).iac_pos / 800) ∧
      min 255 (256 * (iac_position_update b x d c).iac_pos / 800) ≤ 255) ∧
    (calc_sm_position b x d c 0).1 =
      i16 (d.param.sm_steps * (iac_position_update b x d c).iac_pos / 800) ∧
    (d.param.sm_steps ≤ 32767 →
      (calc_sm_position b x d c 0).1 =
        d.param.sm_steps * (iac_position_update b x d c).iac_pos / 800 ∧
      0 ≤ (calc_sm_position b x d c 0).1 ∧
      (calc_sm_position b x d c 0).1 ≤ d.param.sm_steps) ∧
    (∀ p q : Int, p ≤ q →
      min 255 (256 * p / 800) ≤ min 255 (256 * q / 800) ∧
      d.param.sm_steps * p / 800 ≤ d.param.sm_steps * q / 800) := by
  obtain ⟨k1, k2, k3⟩ := iac_duty_conversion _ hp.1 hp.2
  obtain ⟨s1, s2, s3⟩ := iac_step_conversion _ _ hs.1 hs.2 hp.1 hp.2
  have hstep : (calc_sm_position b x d c 0).1 =
      i16 (d.param.sm_steps * (iac_position_update b x d c).iac_pos / 800) := by
    unfold calc_sm_position
    rw [if_pos hFI]
    simp only []
    rw [if_neg (by decide), s1]
  refine ⟨?_, ⟨by omega, by omega⟩, hstep, ?_, ?_⟩
  · intro hpwm
    have hr : (calc_sm_position b x d c 1).1 =
        256 * (iac_position_update b x d c).iac_pos / 800 := by
      unfold calc_sm_position
      rw [if_pos hFI]
      simp only []
      rw [if_pos (by decide), k1]
    unfold choke_control
    rw [if_pos ⟨hFI, hpwm⟩]
    simp only []
    rw [hr]
    generalize 256 * (iac_position_update b x d c).iac_pos / 800 = v at k2 k3
    have eu : u16 v = v := by unfold u16; omega
    rw [eu]
    by_cases hv : v > 255
    · rw [if_pos hv]
      refine ⟨_, rfl, ?_⟩
      show [cmd_t.vent_set_duty8 (u8 255)] = _
      have e1 : u8 255 = min 255 v := by unfold u8; omega
      rw [e1]
    · rw [if_neg hv]
      have hc : calc_percent_pos v 256 = some (u8 (u32 (v * 200) / 256)) := by
        unfold calc_percent_pos
        rw [if_neg (by decide)]
      rw [hc]
      refine ⟨_, rfl, ?_⟩
      show [cmd_t.vent_set_duty8 (u8 v)] = _
      have e1 : u8 v = min 255 v := by unfold u8; omega
      rw [e1]
  · intro h32
    rw [hstep]
    generalize d.param.sm_steps * (iac_position_update b x d c).iac_pos / 800 = v at s2 s3
    have e : i16 v = v := by unfold i16; omega
    rw [e]
    exact ⟨rfl, s2, s3⟩
  · intro p q hpq
    have h1 : 256 * p / 800 ≤ 256 * q / 800 :=
      Int.ediv_le_ediv (by norm_num) (by omega)
    have h2 : d.param.sm_steps * p / 800 ≤ d.param.sm_steps * q / 800 :=
      Int.ediv_le_ediv (by norm_num) (mul_le_mul_of_nonneg_left hpq hs.1)
    refine ⟨?_, h2⟩
    generalize 256 * p / 800 = a at h1
    generalize 256 * q / 800 = b1 at h1
    omega

/-- C34 at a concrete input: run-curve value 100 (accumulator 400) with the
PWM output configured gives the duty 128. -/
theorem C34_output_scaling_witness :
    ∃ r, choke_control ex_build_inj
        { ex_feedback_idle with
          IOP_IAC_PWM := true, inj_iac_pos_lookup := fun _ t _ => (100, t) }
        { ex_ecudata_idle with param := { ex_params_idle with idl_flags := 0 } }
        { ex_chks with strt_mode := 2 } = some r ∧
      r.2.2 = [cmd_t.vent_set_duty8 (min 255 (256 *
        (iac_position_update ex_build_inj
          { ex_feedback_idle with
            IOP_IAC_PWM := true, inj_iac_pos_lookup := fun _ t _ => (100, t) }
          { ex_ecudata_idle with param := { ex_params_idle with idl_flags := 0 } }
          { ex_chks with strt_mode := 2 }).iac_pos / 800))] :=
  (C34_output_scaling ex_build_inj
    { ex_feedback_idle with
      IOP_IAC_PWM := true, inj_iac_pos_lookup := fun _ t _ => (100, t) }
    { ex_ecudata_idle with param := { ex_params_idle with idl_flags := 0 } }
    { ex_chks with strt_mode := 2 } rfl (by decide) (by decide)).1 rfl

/-- C34 as stated fails for `sm_steps` above 32767: with `sm_steps = 40000`
and the accumulator at 800 (crank-curve value 200) the stated stepper target
is `floor(40000 * 800 / 800) = 40000`; `calc_sm_position` returns it as
`int16_t`, -25536, which is not in `[0, sm_steps]`. -/
theorem C34_counterexample :
    (calc_sm_position ex_build_inj
        { ex_feedback_idle with inj_iac_pos_lookup := fun _ t _ => (200, t) }
        { ex_ecudata_idle with param := { ex_params_idle with sm_steps := 40000 } }
        { ex_chks with strt_mode := 0 } 0).2.1.iac_pos = 800 ∧
    (40000 * 800 / 800 : Int) = 40000 ∧
    (calc_sm_position ex_build_inj
        { ex_feedback_idle with inj_iac_pos_lookup := fun _ t _ => (200, t) }
        { ex_ecudata_idle with param := { ex_params_idle with sm_steps := 40000 } }
        { ex_chks with strt_mode := 0 } 0).1 = -25536 := by
  decide

/-- C35 (the code diverges): a tick of `choke_control` divides by zero exactly
when it takes the stepper branch in the normal working mode (5) with
`sm_steps = 0`; the division of `calc_percent_pos` (line 151, called at line
504) has no guard.  At the input of the first conjunct (normal mode, stepper
output configured, relay on, no test request, `sm_steps = 0`) the tick has no
defined result; the disabled path (stepper output not configured) returns with
no effect. -/
theorem C35_division_by_zero :
    choke_control ex_build ex_feedback
        { ex_ecudata with param := { ex_params with sm_steps := 0 } }
        { ex_chks with state := 5 } = none ∧
    choke_control ex_build { ex_feedback with IOP_SM_STP := false }
        { ex_ecudata with param := { ex_params with sm_steps := 0 } }
        { ex_chks with state := 5 } =
      some ({ ex_chks with state := 5 },
        { ex_ecudata with param := { ex_params with sm_steps := 0 } }, []) ∧
    (∀ (b : build_t) (x : extern_t) (d : ecudata_t) (c : choke_st_t),
      choke_control b x d c = none ↔
        (¬ (b.FUEL_INJECT = true ∧ x.IOP_IAC_PWM = true) ∧ x.IOP_SM_STP = true ∧
          c.state = 5 ∧ d.param.sm_steps = 0)) := by
  refine ⟨by decide, by decide, ?_⟩
  intro b x d c
  constructor
  · intro h
    by_cases hpwm : b.FUEL_INJECT = true ∧ x.IOP_IAC_PWM = true
    · exfalso
      have h1 := choke_control_isSome b x d c
      unfold choke_control at h
      rw [if_pos hpwm] at h
      simp only [calc_percent_pos] at h
      rw [if_neg (by decide)] at h
      exact absurd h (by simp)
    · by_cases hstp : x.IOP_SM_STP = true
      · by_cases h5 : c.state = 5
        · by_cases hs : d.param.sm_steps = 0
          · exact ⟨hpwm, hstp, h5, hs⟩
          · have h1 := choke_control_isSome b x d c (fun _ => hs)
            rw [h] at h1
            exact absurd h1 (by simp)
        · have h1 := choke_control_isSome b x d c (fun h => absurd h h5)
          rw [h] at h1
          exact absurd h1 (by simp)
      · exfalso
        unfold choke_control at h
        rw [if_neg hpwm, if_pos (by simp [hstp])] at h
        exact absurd h (by simp)
  · intro h
    obtain ⟨hpwm, hstp, h5, hs⟩ := h
    rw [choke_control_eq_sm b x d c hstp hpwm, choke_control_sm_state5 b x d c h5]
    unfold normal_mode
    rw [normal_mode_branch_param b x d c, hs]
    rfl

/-- C36 (amended): for every `steps > 0` and every 16-bit `value`,
`calc_percent_pos` returns `floor(value * 200 / steps)` reduced to 8 bits
(modulo 256), with no clamping; for `value <= steps` that is
`floor(value * 200 / steps)` itself, a value in 0..200. -/
theorem C36_percent_pos (value steps : Int) (hs : 0 < steps)
    (hv : 0 ≤ value ∧ value ≤ 65535) :
    calc_percent_pos value steps = some (value * 200 / steps % 256) ∧
    (value ≤ steps →
      calc_percent_pos value steps = some (value * 200 / steps) ∧
      0 ≤ value * 200 / steps ∧ value * 200 / steps ≤ 200) := by
  have e : u32 (value * 200) = value * 200 := by unfold u32; omega
  have hc : calc_percent_pos value steps = some (value * 200 / steps % 256) := by
    unfold calc_percent_pos
    rw [if_neg (by omega), e]
    rfl
  refine ⟨hc, ?_⟩
  intro hle
  have h0 : 0 ≤ value * 200 / steps := Int.ediv_nonneg (by omega) (by omega)
  have h1 : value * 200 / steps ≤ 200 :=
    Int.ediv_le_of_le_mul hs (by nlinarith)
  refine ⟨?_, h0, h1⟩
  rw [hc]
  congr 1
  omega

/-- C36 at a concrete input: 50 of 200 steps is 25 percent (the value 50). -/
theorem C36_percent_pos_witness : calc_percent_pos 50 200 = some 50 :=
  (((C36_percent_pos 50 200 (by decide) (by decide)).2 (by decide)).1).trans (by decide)

/-- C36 as stated fails above the step count: `calc_percent_pos(250, 200)`
returns 250, outside 0..200, and `calc_percent_pos(300, 200)` returns
`300 mod 256 = 44`. -/
theorem C36_counterexample :
    calc_percent_pos 250 200 = some 250 ∧ ¬ (250 : Int) ≤ 200 ∧
    calc_percent_pos 300 200 = some 44 := by
  decide

/-! ## The exit lock-out of the RPM regulation (carburetor build) -/

theorem rpmreg_set_flags_strt_t1 (tmr : Int) (c : choke_st_t) :
    (rpmreg_set_flags tmr c).strt_t1 = c.strt_t1 := by
  unfold rpmreg_set_flags
  simp only []
  split_ifs <;> rfl

theorem rpmreg_call_strt_t1 (x : extern_t) (d : ecudata_t) (c : choke_st_t) :
    (rpmreg_call x d c).2.strt_t1 = c.strt_t1 := by
  unfold rpmreg_call
  split_ifs <;> rfl

/-- One call in sub-state RPM_REGULATION with the engine running, the coolant
below the turn-on temperature, the exit-eligible flag clear and fewer than
1000 ticks since the regulation started: the sub-state, the flag and the start
time are as before. -/
theorem startup_regulation_locked (x : extern_t) (d : ecudata_t) (c : choke_st_t)
    (hm : c.strt_mode = 2) (hb : d.st_block ≠ 0)
    (hf : CHECKBIT c.flags CF_RPMREG_ENEX = false)
    (ht : u16 (u16 x.s_timer_gtc - c.strt_t1) < RPMREG_ENEX_TIME)
    (htemp : d.sens.temperat < d.param.idlreg_turn_on_temp) :
    (calc_startup_corr x d c).2.1.strt_mode = 2 ∧
    CHECKBIT (calc_startup_corr x d c).2.1.flags CF_RPMREG_ENEX = false ∧
    (calc_startup_corr x d c).2.1.strt_t1 = c.strt_t1 := by
  have hsb := startup_rpm_regulation_st_block x d c
  have hcalc : (calc_startup_corr x d c).2.1 = (startup_rpm_regulation x d c).2.1 := by
    unfold calc_startup_corr
    rw [if_neg (by omega), if_neg (by omega), if_pos hm]
    simp only []
    rw [hsb, if_neg hb]
  rw [hcalc]
  by_cases hcad : u16 (u16 x.s_timer_gtc - c.rpmreg_t1) ≥ RPMREG_CORR_TIME
  · obtain ⟨f1, f2, f3⟩ := rpmreg_call_fields x d
      (rpmreg_set_flags (u16 x.s_timer_gtc) { c with rpmreg_t1 := u16 x.s_timer_gtc })
    obtain ⟨g1, _, _⟩ := rpmreg_set_flags_fields (u16 x.s_timer_gtc)
      { c with rpmreg_t1 := u16 x.s_timer_gtc }
    have f4 := rpmreg_call_strt_t1 x d
      (rpmreg_set_flags (u16 x.s_timer_gtc) { c with rpmreg_t1 := u16 x.s_timer_gtc })
    rw [rpmreg_set_flags_strt_t1] at f4
    have hen := rpmreg_set_flags_ENEX (u16 x.s_timer_gtc)
      { c with rpmreg_t1 := u16 x.s_timer_gtc }
    rw [← f3] at hen
    rw [g1] at f1
    have hoff : CHECKBIT (rpmreg_call x d (rpmreg_set_flags (u16 x.s_timer_gtc)
        { c with rpmreg_t1 := u16 x.s_timer_gtc })).2.flags CF_RPMREG_ENEX = false := by
      cases hh : CHECKBIT (rpmreg_call x d (rpmreg_set_flags (u16 x.s_timer_gtc)
        { c with rpmreg_t1 := u16 x.s_timer_gtc })).2.flags CF_RPMREG_ENEX
      · rfl
      · exfalso
        rcases hen.mp hh with h | h
        · have h' : CHECKBIT c.flags CF_RPMREG_ENEX = true := h
          rw [hf] at h'
          exact absurd h' (by decide)
        · have h' : u16 (u16 x.s_timer_gtc - c.strt_t1) ≥ RPMREG_ENEX_TIME := h
          omega
    have hreg : startup_rpm_regulation x d c =
        rpmreg_gas_off (rpmreg_exit_check d (rpmreg_call x d
          (rpmreg_set_flags (u16 x.s_timer_gtc)
            { c with rpmreg_t1 := u16 x.s_timer_gtc }))) := by
      unfold startup_rpm_regulation
      rw [if_pos hcad]
    rw [hreg, rpmreg_gas_off_state]
    generalize rpmreg_call x d (rpmreg_set_flags (u16 x.s_timer_gtc)
      { c with rpmreg_t1 := u16 x.s_timer_gtc }) = rc at f1 f4 hoff
    have he : rpmreg_exit_check d rc =
        (rc.1, { rc.2 with rpmval_prev := d.sens.frequen }, d) := by
      unfold rpmreg_exit_check
      rw [if_neg]
      intro h
      rcases h with h | ⟨h1, _, _⟩
      · omega
      · rw [hoff] at h1
        exact absurd h1 (by decide)
    rw [he]
    exact ⟨by show rc.2.strt_mode = 2; rw [f1, hm], hoff, f4⟩
  · rw [startup_rpm_regulation_hold x d c (not_le.mp hcad)]
    split_ifs <;> exact ⟨hm, hf, rfl⟩

/-- C37 (amended): starting in sub-state RPM_REGULATION (2) with the
exit-eligible flag clear, over any sequence of calls of `calc_startup_corr`
made fewer than 1000 timer ticks after the regulation started, with the engine
running and the coolant temperature below `idlreg_turn_on_temp`, the sub-state
stays RPM_REGULATION and the flag stays clear: the RPM-jump exit is locked
out.  (The temperature exit and the return to STARTING on an engine stop are
not locked out.) -/
theorem C37_exit_lockout (c : choke_st_t) (inputs : List (extern_t × ecudata_t))
    (hm : c.strt_mode = 2) (hf : CHECKBIT c.flags CF_RPMREG_ENEX = false)
    (hin : ∀ i ∈ inputs,
      u16 (u16 i.1.s_timer_gtc - c.strt_t1) < RPMREG_ENEX_TIME ∧ i.2.st_block ≠ 0 ∧
      i.2.sens.temperat < i.2.param.idlreg_turn_on_temp) :
    (startup_corr_run c inputs).strt_mode = 2 ∧
    CHECKBIT (startup_corr_run c inputs).flags CF_RPMREG_ENEX = false ∧
    (startup_corr_run c inputs).strt_t1 = c.strt_t1 := by
  induction inputs generalizing c with
  | nil => exact ⟨hm, hf, rfl⟩
  | cons i rest ih =>
    obtain ⟨h1, h2, h3⟩ := hin i (List.mem_cons_self i rest)
    obtain ⟨s1, s2, s3⟩ := startup_regulation_locked i.1 i.2 c hm h2 hf h1 h3
    have hrest := ih (calc_startup_corr i.1 i.2 c).2.1 s1 s2
      (fun j hj => by rw [s3]; exact hin j (List.mem_cons_of_mem i hj))
    unfold startup_corr_run
    rw [s3] at hrest
    exact hrest

/-- C37 at a concrete input: three calls at timer readings 10, 15 and 20 with
a cold engine at 900, 1500 and 2000 RPM: the RPM jump does not end the
regulation. -/
theorem C37_exit_lockout_witness :
    (startup_corr_run { ex_chks with strt_mode := 2 }
      [({ ex_feedback with s_timer_gtc := 10 },
        { ex_ecudata with
          st_block := 1, sens := { ex_ecudata.sens with temperat := -50, frequen := 900 } }),
       ({ ex_feedback with s_timer_gtc := 15 },
        { ex_ecudata with
          st_block := 1, sens := { ex_ecudata.sens with temperat := -50, frequen := 1500 } }),
       ({ ex_feedback with s_timer_gtc := 20 },
        { ex_ecudata with
          st_block := 1,
          sens := { ex_ecudata.sens with temperat := -50, frequen := 2000 } })]).strt_mode = 2 :=
  (C37_exit_lockout { ex_chks with strt_mode := 2 } _ rfl (by decide) (by decide)).1

/-- C37 as stated fails: 10 ticks after the regulation started, with the
exit-eligible flag clear, a call at 50.0 degrees with the turn-on temperature
40.0 degrees moves to EXIT (3), and a call with the engine not running moves
to STARTING (0). -/
theorem C37_counterexample :
    CHECKBIT ({ ex_chks with strt_mode := 2 } : choke_st_t).flags CF_RPMREG_ENEX = false ∧
    (calc_startup_corr { ex_feedback with s_timer_gtc := 10 }
        { ex_ecudata with
          st_block := 1,
          param := { ex_params with idlreg_turn_on_temp := 400 },
          sens := { ex_ecudata.sens with temperat := 500, frequen := 900 } }
        { ex_chks with strt_mode := 2 }).2.1.strt_mode = 3 ∧
    (calc_startup_corr { ex_feedback with s_timer_gtc := 10 }
        { ex_ecudata with
          st_block := 0,
          param := { ex_params with idlreg_turn_on_temp := 400 },
          sens := { ex_ecudata.sens with temperat := -50, frequen := 900 } }
        { ex_chks with strt_mode := 2 }).2.1.strt_mode = 0 := by
  decide

/-! ## The range of the tracked position -/

/-- Normal operation (reversal-pending clear) keeps the tracked position and
the motion-start position within `[0, sm_steps]` and the stored direction on
the side of the motion start on which the tracked position lies. -/
theorem sm_motion_control_range_clear (b : build_t) (x : extern_t) (d : ecudata_t)
    (c : choke_st_t) (pos : Int)
    (hS : 0 ≤ d.param.sm_steps ∧ d.param.sm_steps ≤ 32767)
    (hpos : 0 ≤ c.smpos ∧ c.smpos ≤ d.param.sm_steps)
    (hprev : 0 ≤ c.smpos_prev ∧ c.smpos_prev ≤ d.param.sm_steps)
    (hdir : (c.cur_dir = SM_DIR_CW → c.smpos ≤ c.smpos_prev) ∧
      (c.cur_dir ≠ SM_DIR_CW → c.smpos_prev ≤ c.smpos))
    (hflag : CHECKBIT c.flags (CF_SMDIR_CHG b) = false) :
    (0 ≤ (sm_motion_control b x d c pos).1.smpos ∧
      (sm_motion_control b x d c pos).1.smpos ≤ d.param.sm_steps) ∧
    (0 ≤ (sm_motion_control b x d c pos).1.smpos_prev ∧
      (sm_motion_control b x d c pos).1.smpos_prev ≤ d.param.sm_steps) ∧
    (((sm_motion_control b x d c pos).1.cur_dir = SM_DIR_CW →
        (sm_motion_control b x d c pos).1.smpos ≤
          (sm_motion_control b x d c pos).1.smpos_prev) ∧
      ((sm_motion_control b x d c pos).1.cur_dir ≠ SM_DIR_CW →
        (sm_motion_control b x d c pos).1.smpos_prev ≤
          (sm_motion_control b x d c pos).1.smpos)) := by
  have hS16 : i16 d.param.sm_steps = d.param.sm_steps := by unfold i16; omega
  have hcl := restrict_value_to_bounds pos 0 d.param.sm_steps hS.1
  cases hbusy : x.stpmot_is_busy
  · rw [sm_motion_control_idle16 b x d c pos hflag hbusy, hS16]
    generalize restrict_value_to pos 0 d.param.sm_steps = t at hcl
    have hd : i16 (t - c.smpos) = t - c.smpos := by unfold i16; omega
    have hp : i16 c.smpos = c.smpos := by unfold i16; omega
    rw [hd, hp]
    by_cases h0 : t - c.smpos = 0
    · rw [if_pos h0]
      exact ⟨hpos, hprev, hdir⟩
    · rw [if_neg h0]
      refine ⟨hcl, hpos, ?_, ?_⟩
      · intro h
        show t ≤ c.smpos
        have h' : (if t - c.smpos < 0 then SM_DIR_CW else SM_DIR_CCW) = SM_DIR_CW := h
        by_cases hlt : t - c.smpos < 0
        · omega
        · rw [if_neg hlt] at h'
          exact absurd h' (by decide)
      · intro h
        show c.smpos ≤ t
        have h' : (if t - c.smpos < 0 then SM_DIR_CW else SM_DIR_CCW) ≠ SM_DIR_CW := h
        by_cases hlt : t - c.smpos < 0
        · rw [if_pos hlt] at h'
          exact absurd rfl h'
        · omega
  · by_cases hs : (i16 (c.smpos - c.smpos_prev) < 0 ↔
        i16 (restrict_value_to pos 0 (i16 d.param.sm_steps) - c.smpos_prev) < 0)
    · rw [sm_motion_control_busy_agree b x d c pos hflag hbusy hs]
      exact ⟨hpos, hprev, hdir⟩
    · rw [sm_motion_control_busy_differ b x d c pos hflag hbusy hs]
      exact ⟨hpos, hprev, hdir⟩

/-- C38 (amended): for `sm_steps <= 32767`, if the tracked position and the
motion-start position both lie in `[0, sm_steps]`, the stored direction agrees
with the side of the motion start on which the tracked position lies (opening,
CW: not above it; closing: not below it), and the actuator, when a pending
reversal is resolved, reports no more steps than the distance of the motion
last commanded, then after the call of `sm_motion_control` (any requested
position, busy or idle, with or without reversal pending) the tracked position
and the motion-start position again lie in `[0, sm_steps]`, the direction
again agrees, and the reversal recomputation is the plain sum or difference,
with no 16-bit wrap-around. -/
theorem C38_position_range (b : build_t) (x : extern_t) (d : ecudata_t) (c : choke_st_t)
    (pos : Int)
    (hS : 0 ≤ d.param.sm_steps ∧ d.param.sm_steps ≤ 32767)
    (hpos : 0 ≤ c.smpos ∧ c.smpos ≤ d.param.sm_steps)
    (hprev : 0 ≤ c.smpos_prev ∧ c.smpos_prev ≤ d.param.sm_steps)
    (hdir : (c.cur_dir = SM_DIR_CW → c.smpos ≤ c.smpos_prev) ∧
      (c.cur_dir ≠ SM_DIR_CW → c.smpos_prev ≤ c.smpos))
    (hcnt : CHECKBIT c.flags (CF_SMDIR_CHG b) = true → x.stpmot_is_busy = false →
      0 ≤ x.stpmot_stpcnt ∧ x.stpmot_stpcnt ≤ |c.smpos - c.smpos_prev|) :
    (0 ≤ (sm_motion_control b x d c pos).1.smpos ∧
      (sm_motion_control b x d c pos).1.smpos ≤ d.param.sm_steps) ∧
    (0 ≤ (sm_motion_control b x d c pos).1.smpos_prev ∧
      (sm_motion_control b x d c pos).1.smpos_prev ≤ d.param.sm_steps) ∧
    (((sm_motion_control b x d c pos).1.cur_dir = SM_DIR_CW →
        (sm_motion_control b x d c pos).1.smpos ≤
          (sm_motion_control b x d c pos).1.smpos_prev) ∧
      ((sm_motion_control b x d c pos).1.cur_dir ≠ SM_DIR_CW →
        (sm_motion_control b x d c pos).1.smpos_prev ≤
          (sm_motion_control b x d c pos).1.smpos)) ∧
    (CHECKBIT c.flags (CF_SMDIR_CHG b) = true → x.stpmot_is_busy = false →
      (sm_dir_chg_resolve b x c).smpos =
        (if c.cur_dir = SM_DIR_CW then c.smpos_prev - x.stpmot_stpcnt
         else c.smpos_prev + x.stpmot_stpcnt) ∧
      0 ≤ (sm_dir_chg_resolve b x c).smpos ∧
      (sm_dir_chg_resolve b x c).smpos ≤ d.param.sm_steps) := by
  cases hflag : CHECKBIT c.flags (CF_SMDIR_CHG b)
  · obtain ⟨r1, r2, r3⟩ := sm_motion_control_range_clear b x d c pos hS hpos hprev hdir hflag
    exact ⟨r1, r2, r3, fun h => absurd h (by decide)⟩
  · cases hbusy : x.stpmot_is_busy
    · obtain ⟨n0, n1⟩ := hcnt hflag hbusy
      have hnew : (if c.cur_dir = SM_DIR_CW then u16 (c.smpos_prev - x.stpmot_stpcnt)
            else u16 (c.smpos_prev + x.stpmot_stpcnt)) =
          (if c.cur_dir = SM_DIR_CW then c.smpos_prev - x.stpmot_stpcnt
            else c.smpos_prev + x.stpmot_stpcnt) ∧
          0 ≤ (if c.cur_dir = SM_DIR_CW then c.smpos_prev - x.stpmot_stpcnt
            else c.smpos_prev + x.stpmot_stpcnt) ∧
          (if c.cur_dir = SM_DIR_CW then c.smpos_prev - x.stpmot_stpcnt
            else c.smpos_prev + x.stpmot_stpcnt) ≤ d.param.sm_steps ∧
          (c.cur_dir = SM_DIR_CW →
            (if c.cur_dir = SM_DIR_CW then c.smpos_prev - x.stpmot_stpcnt
              else c.smpos_prev + x.stpmot_stpcnt) ≤ c.smpos_prev) ∧
          (c.cur_dir ≠ SM_DIR_CW → c.smpos_prev ≤
            (if c.cur_dir = SM_DIR_CW then c.smpos_prev - x.stpmot_stpcnt
              else c.smpos_prev + x.stpmot_stpcnt)) := by
        by_cases hcw : c.cur_dir = SM_DIR_CW
        · have hle := hdir.1 hcw
          rw [abs_of_nonpos (by omega)] at n1
          rw [if_pos hcw, if_pos hcw]
          refine ⟨by unfold u16; omega, by omega, by omega, fun _ => by omega,
            fun h => absurd hcw h⟩
        · have hle := hdir.2 hcw
          rw [abs_of_nonneg (by omega)] at n1
          rw [if_neg hcw, if_neg hcw]
          refine ⟨by unfold u16; omega, by omega, by omega, fun h => absurd h hcw,
            fun _ => by omega⟩
      obtain ⟨e1, e2, e3, e4, e5⟩ := hnew
      have hres : (sm_dir_chg_resolve b x c).smpos =
          (if c.cur_dir = SM_DIR_CW then c.smpos_prev - x.stpmot_stpcnt
            else c.smpos_prev + x.stpmot_stpcnt) := by
        have h := sm_motion_control_pending_idle b x d c pos hflag hbusy
        have hr : sm_dir_chg_resolve b x c =
            { c with
              smpos := if c.cur_dir = SM_DIR_CW then u16 (c.smpos_prev - x.stpmot_stpcnt)
                       else u16 (c.smpos_prev + x.stpmot_stpcnt),
              flags := CLEARBIT c.flags (CF_SMDIR_CHG b) } := by
          unfold sm_dir_chg_resolve
          rw [if_pos hflag, if_pos (by simp [hbusy])]
          by_cases hcw : c.cur_dir = SM_DIR_CW
          · rw [if_pos hcw, if_pos hcw]
            have : u16 (c.smpos_prev + u16 (-x.stpmot_stpcnt)) =
                u16 (c.smpos_prev - x.stpmot_stpcnt) := by unfold u16; omega
            rw [this]
          · rw [if_neg hcw, if_neg hcw]
        rw [hr]
        exact e1
      rw [sm_motion_control_pending_idle b x d c pos hflag hbusy, e1]
      obtain ⟨r1, r2, r3⟩ := sm_motion_control_range_clear b x d
        { c with
          smpos := if c.cur_dir = SM_DIR_CW then c.smpos_prev - x.stpmot_stpcnt
                   else c.smpos_prev + x.stpmot_stpcnt,
          flags := CLEARBIT c.flags (CF_SMDIR_CHG b) } pos hS ⟨e2, e3⟩ hprev ⟨e4, e5⟩
        (CHECKBIT_CLEARBIT_SMDIR_CHG b c.flags)
      refine ⟨r1, r2, r3, fun _ _ => ⟨hres, ?_, ?_⟩⟩
      · rw [hres]; exact e2
      · rw [hres]; exact e3
    · rw [sm_motion_control_pending_busy b x d c pos hflag hbusy]
      exact ⟨hpos, hprev, hdir, fun _ h => absurd h (by decide)⟩

/-- C38 at a concrete input: a pending reversal of a closing motion from 50
towards 150 is resolved after 60 steps: the position is recomputed as 110 and
the new motion to 40 starts from there. -/
theorem C38_position_range_witness :
    (sm_motion_control ex_build { ex_feedback with stpmot_stpcnt := 60 } ex_ecudata
        { ex_chks with smpos := 150, smpos_prev := 50, cur_dir := SM_DIR_CCW, flags := 8 }
        40).1.smpos_prev = 110 ∧
    (sm_motion_control ex_build { ex_feedback with stpmot_stpcnt := 60 } ex_ecudata
        { ex_chks with smpos := 150, smpos_prev := 50, cur_dir := SM_DIR_CCW, flags := 8 }
        40).1.smpos = 40 ∧
    (0 ≤ (sm_motion_control ex_build { ex_feedback with stpmot_stpcnt := 60 } ex_ecudata
        { ex_chks with smpos := 150, smpos_prev := 50, cur_dir := SM_DIR_CCW, flags := 8 }
        40).1.smpos_prev ∧
      (sm_motion_control ex_build { ex_feedback with stpmot_stpcnt := 60 } ex_ecudata
        { ex_chks with smpos := 150, smpos_prev := 50, cur_dir := SM_DIR_CCW, flags := 8 }
        40).1.smpos_prev ≤ ex_ecudata.param.sm_steps) :=
  ⟨by decide, by decide,
   (C38_position_range ex_build { ex_feedback with stpmot_stpcnt := 60 } ex_ecudata
      { ex_chks with smpos := 150, smpos_prev := 50, cur_dir := SM_DIR_CCW, flags := 8 }
      40 (by decide) (by decide) (by decide) (by decide)
      (fun _ _ => by decide)).2.1⟩

/-- C38 as stated fails when the stored direction does not agree with the
stored positions.  First: with `sm_steps = 200`, motion start 0, tracked
position 100 (both in range), stored direction opening (CW), reversal pending,
and the idle actuator reporting 60 steps (no more than the distance 100), the
position is recomputed as `0 - 60` modulo 2^16 = 65476, and the motion started
in the same call stores the motion start -60.  Second, with no wrap-around:
with `sm_steps = 60`, from tracked position 0, motion start 50 and stored
direction closing (the state left when the position is reset to 0 after a
closing motion from 50), a busy call with request 60 stops the motor and sets
reversal pending, and the idle call that follows, with 50 steps reported,
stores the motion start 100, above `sm_steps`. -/
theorem C38_counterexample :
    (60 : Int) ≤ |100 - 0| ∧
    (sm_dir_chg_resolve ex_build { ex_feedback with stpmot_stpcnt := 60 }
        { ex_chks with smpos := 100, smpos_prev := 0, cur_dir := SM_DIR_CW,
                       flags := 8 }).smpos = 65476 ∧
    (sm_motion_control ex_build { ex_feedback with stpmot_stpcnt := 60 } ex_ecudata
        { ex_chks with smpos := 100, smpos_prev := 0, cur_dir := SM_DIR_CW, flags := 8 }
        50).1.smpos_prev = -60 ∧
    (50 : Int) ≤ |0 - 50| ∧
    sm_motion_control ex_build ex_feedback_busy
        { ex_ecudata with param := { ex_params with sm_steps := 60 } }
        { ex_chks with smpos := 0, smpos_prev := 50, cur_dir := SM_DIR_CCW } 60 =
      ({ ex_chks with smpos := 0, smpos_prev := 50, cur_dir := SM_DIR_CCW, flags := 8 },
        [cmd_t.stpmot_run 0]) ∧
    (sm_motion_control ex_build { ex_feedback with stpmot_stpcnt := 50 }
        { ex_ecudata with param := { ex_params with sm_steps := 60 } }
        { ex_chks with smpos := 0, smpos_prev := 50, cur_dir := SM_DIR_CCW, flags := 8 }
        60).1.smpos_prev = 100 ∧
    ¬ (100 : Int) ≤ 60 := by
  decide

/-! ## The manual-override flag -/

theorem iac_hysteresis_other_flags (d : ecudata_t) (rpm : Int) (c : choke_st_t) (j : Nat)
    (hj : j < 8) (hne : CF_CL_LOOP ≠ j) :
    CHECKBIT (iac_hysteresis d rpm c).flags j = CHECKBIT c.flags j := by
  unfold iac_hysteresis
  split_ifs
  · show CHECKBIT (SETBIT c.flags CF_CL_LOOP) j = _
    rw [CHECKBIT_SETBIT]; simp [hne]
  · show CHECKBIT (CLEARBIT c.flags CF_CL_LOOP) j = _
    rw [CHECKBIT_CLEARBIT _ _ _ (by decide) hj]; simp [hne]
  · rfl

theorem iac_run_mode_other_flags (b : build_t) (x : extern_t) (d : ecudata_t)
    (c : choke_st_t) (j : Nat) (hj : j < 8) (hne : CF_CL_LOOP ≠ j) :
    CHECKBIT (iac_run_mode b x d c).flags j = CHECKBIT c.flags j := by
  have hcl : CHECKBIT (iac_closed_loop b x d c).flags j = CHECKBIT c.flags j := by
    rw [iac_closed_loop_eq, (iac_regulator_frame x d _ _).1,
      iac_hysteresis_other_flags d _ _ j hj hne]
  unfold iac_run_mode
  simp only []
  split_ifs <;> first | rfl | exact hcl

/-- The position update of the injection build leaves every flag other than
`CF_CL_LOOP` as it was. -/
theorem iac_position_update_other_flags (b : build_t) (x : extern_t) (d : ecudata_t)
    (c : choke_st_t) (j : Nat) (hj : j < 8) (hne : CF_CL_LOOP ≠ j) :
    CHECKBIT (iac_position_update b x d c).flags j = CHECKBIT c.flags j := by
  have hclr : CHECKBIT (CLEARBIT c.flags CF_CL_LOOP) j = CHECKBIT c.flags j := by
    rw [CHECKBIT_CLEARBIT _ _ _ (by decide) hj]; simp [hne]
  unfold iac_position_update
  simp only []
  split_ifs <;>
    first
    | rfl
    | exact hclr
    | exact iac_run_mode_other_flags b x d _ j hj hne

theorem check_tst_other_flags (x : extern_t) (d : ecudata_t) (c : choke_st_t) (j : Nat)
    (hne : CF_POWERDOWN ≠ j) :
    CHECKBIT (check_tst x d c).flags j = CHECKBIT c.flags j := by
  unfold check_tst
  rw [check_pwr_other_flags x _ j hne]
  split_ifs <;> rfl

/-- The normal-mode branch with the manual-override flag set: the test
entry, or the manual target handed to the tracker.  The target computation is
not part of it. -/
theorem normal_mode_branch_manual (b : build_t) (x : extern_t) (d : ecudata_t)
    (c : choke_st_t) (hman : CHECKBIT c.flags CF_MAN_CNTR = true) :
    normal_mode_branch b x d c =
      if d.choke_testing ≠ 0 then ({ c with state := 6 }, d, initial_pos d INIT_POS_DIR)
      else
        ((sm_motion_control b x { d with choke_manpos_d := 0 } c
            (i16 (c.smpos + d.choke_manpos_d))).1,
         { d with choke_manpos_d := 0 },
         (sm_motion_control b x { d with choke_manpos_d := 0 } c
            (i16 (c.smpos + d.choke_manpos_d))).2) := by
  unfold normal_mode_branch
  rw [normal_mode_motion_manual b x d c hman]

/-- The tracker reads the driver feedback only. -/
theorem sm_motion_control_feedback (b : build_t) (x x1 : extern_t) (d : ecudata_t)
    (c : choke_st_t) (pos : Int) (h1 : x1.stpmot_is_busy = x.stpmot_is_busy)
    (h2 : x1.stpmot_stpcnt = x.stpmot_stpcnt) :
    sm_motion_control b x1 d c pos = sm_motion_control b x d c pos := by
  unfold sm_motion_control sm_dir_chg_resolve
  rw [h1, h2]

/-- C39 (amended): once the manual-override flag is set, every tick of
`choke_control` in every mode leaves it set (`choke_init` clears it); while it
is set, a tick of the normal mode does not call the target computation: its
result is the same for every timer reading and every lookup function.  A
normal-mode tick with the flag set, no test request, manual delta 0 and the
actuator idle issues no command when no reversal is pending and the tracked
position is within `[0, sm_steps]` (`sm_steps <= 32767`).  With a reversal
pending, such a tick recomputes the position `p` from the motion start and
the steps counted (a 16-bit sum or difference, here at most 32767); when `p`
differs from the stored target it commands the
motion from `p` to the stored target (opening when the target is below `p`,
closing otherwise, `|target - p|` steps) and stores `p` as the motion start;
when `p` equals the stored target it issues no command. -/
theorem C39_manual_latch (b : build_t) (x : extern_t) (d : ecudata_t) (c : choke_st_t)
    (hman : CHECKBIT c.flags CF_MAN_CNTR = true) :
    (∀ r, choke_control b x d c = some r → CHECKBIT r.1.flags CF_MAN_CNTR = true) ∧
    ((c.state = 5 → d.param.sm_steps ≠ 0) → (choke_control b x d c).isSome = true) ∧
    CHECKBIT (choke_init b c).flags CF_MAN_CNTR = false ∧
    (x.IOP_SM_STP = true → ¬ (b.FUEL_INJECT = true ∧ x.IOP_IAC_PWM = true) → c.state = 5 →
      ∀ x1 : extern_t, x1.stpmot_is_busy = x.stpmot_is_busy →
        x1.stpmot_stpcnt = x.stpmot_stpcnt →
        x1.pwrrelay_get_state = x.pwrrelay_get_state → x1.IOP_SM_STP = x.IOP_SM_STP →
        x1.IOP_IAC_PWM = x.IOP_IAC_PWM →
        choke_control b x1 d c = choke_control b x d c) ∧
    (x.IOP_SM_STP = true → ¬ (b.FUEL_INJECT = true ∧ x.IOP_IAC_PWM = true) → c.state = 5 →
      d.choke_testing = 0 → d.choke_manpos_d = 0 → x.stpmot_is_busy = false →
      CHECKBIT c.flags (CF_SMDIR_CHG b) = false →
      0 ≤ c.smpos → c.smpos ≤ d.param.sm_steps → d.param.sm_steps ≤ 32767 →
      ∀ r, choke_control b x d c = some r → r.2.2 = []) ∧
    (x.IOP_SM_STP = true → ¬ (b.FUEL_INJECT = true ∧ x.IOP_IAC_PWM = true) → c.state = 5 →
      d.choke_testing = 0 → d.choke_manpos_d = 0 → x.stpmot_is_busy = false →
      CHECKBIT c.flags (CF_SMDIR_CHG b) = true →
      0 ≤ c.smpos → c.smpos ≤ d.param.sm_steps → d.param.sm_steps ≤ 32767 →
      ∀ p : Int,
        p = (if c.cur_dir = SM_DIR_CW then u16 (c.smpos_prev - x.stpmot_stpcnt)
             else u16 (c.smpos_prev + x.stpmot_stpcnt)) →
        p ≤ 32767 →
        ∀ r, choke_control b x d c = some r →
          (p = c.smpos → r.2.2 = [] ∧ r.1.smpos = p) ∧
          (p ≠ c.smpos →
            r.2.2 = [cmd_t.stpmot_dir (if c.smpos < p then SM_DIR_CW else SM_DIR_CCW),
                     cmd_t.stpmot_run |c.smpos - p|] ∧
            r.1.smpos = c.smpos ∧ r.1.smpos_prev = p)) := by
  have hpd : CF_POWERDOWN ≠ CF_MAN_CNTR := by decide
  have hcl : CF_CL_LOOP ≠ CF_MAN_CNTR := by decide
  have hmj : CF_MAN_CNTR < 8 := by decide
  have hclrs : CHECKBIT (CLEARBIT c.flags (CF_SMDIR_CHG b)) CF_MAN_CNTR = true := by
    rw [CHECKBIT_CLEARBIT _ _ _ (CF_SMDIR_CHG_lt b) hmj, hman]
    simp [CF_SMDIR_CHG_ne_MAN_CNTR b]
  have hclrp : CHECKBIT (CLEARBIT c.flags CF_POWERDOWN) CF_MAN_CNTR = true := by
    rw [CHECKBIT_CLEARBIT _ _ _ (by decide) hmj, hman]
    simp [hpd]
  refine ⟨?_, choke_control_isSome b x d c, ?_, ?_, ?_, ?_⟩
  · intro r hr
    by_cases hpwm : b.FUEL_INJECT = true ∧ x.IOP_IAC_PWM = true
    · unfold choke_control at hr
      rw [if_pos hpwm] at hr
      simp only [calc_percent_pos] at hr
      rw [if_neg (by decide)] at hr
      injection hr with hr
      rw [← hr]
      show CHECKBIT (calc_sm_position b x d c 1).2.1.flags CF_MAN_CNTR = true
      rw [calc_sm_position_state b x d c 1 hpwm.1,
        iac_position_update_other_flags b x d c _ hmj hcl]
      exact hman
    · by_cases hstp : x.IOP_SM_STP = true
      · rw [choke_control_eq_sm b x d c hstp hpwm] at hr
        by_cases h0 : c.state = 0
        · rw [choke_control_sm_state0 b x d c h0] at hr
          injection hr with hr
          rw [← hr]; exact hman
        by_cases h1 : c.state = 1
        · rw [choke_control_sm_state1 b x d c h1] at hr
          injection hr with hr
          rw [← hr]; exact hman
        by_cases h2 : c.state = 2
        · rw [choke_control_sm_state2 b x d c h2] at hr
          split_ifs at hr <;> injection hr with hr <;> rw [← hr] <;>
            first | exact hman | exact hclrs
        by_cases h3 : c.state = 3
        · rw [choke_control_sm_state3 b x d c h3] at hr
          split_ifs at hr <;> injection hr with hr <;> rw [← hr] <;>
            first | exact hman | exact hclrp
        by_cases h5 : c.state = 5
        · rw [choke_control_sm_state5 b x d c h5] at hr
          obtain ⟨_, e1, _⟩ := normal_mode_eq_some b x d c r hr
          rw [e1, check_pwr_other_flags x _ _ hpd, normal_mode_branch_manual b x d c hman]
          split_ifs
          · exact hman
          · show CHECKBIT (sm_motion_control b x _ c _).1.flags CF_MAN_CNTR = true
            rw [sm_motion_control_other_flags b x _ c _ _ hmj (CF_SMDIR_CHG_ne_MAN_CNTR b)]
            exact hman
        by_cases h6 : c.state = 6
        · rw [choke_control_sm_state6 b x d c h6] at hr
          split_ifs at hr <;> injection hr with hr <;> rw [← hr] <;>
            (show CHECKBIT (check_tst x d _).flags CF_MAN_CNTR = true
             rw [check_tst_other_flags x d _ _ hpd]
             exact hman)
        by_cases h7 : c.state = 7
        · rw [choke_control_sm_state7 b x d c h7] at hr
          split_ifs at hr <;> injection hr with hr <;> rw [← hr] <;>
            (show CHECKBIT (check_tst x d _).flags CF_MAN_CNTR = true
             rw [check_tst_other_flags x d _ _ hpd]
             exact hman)
        rw [choke_control_sm_default b x d c h0 h1 h2 h3 h5 h6 h7] at hr
        injection hr with hr
        rw [← hr]
        show CHECKBIT (check_tst x d _).flags CF_MAN_CNTR = true
        rw [check_tst_other_flags x d _ _ hpd]
        exact hman
      · unfold choke_control at hr
        rw [if_neg hpwm, if_pos (by simp [hstp])] at hr
        injection hr with hr
        rw [← hr]; exact hman
  · unfold choke_init
    simp only []
    split_ifs
    · show CHECKBIT (CLEARBIT (CLEARBIT (CLEARBIT c.flags CF_POWERDOWN) CF_MAN_CNTR)
        CF_CL_LOOP) CF_MAN_CNTR = false
      rw [CHECKBIT_CLEARBIT _ _ _ (by decide) hmj, CHECKBIT_CLEARBIT _ _ _ (by decide) hmj]
      simp
    · show CHECKBIT (CLEARBIT (CLEARBIT (CLEARBIT c.flags CF_POWERDOWN) CF_MAN_CNTR)
        CF_RPMREG_ENEX) CF_MAN_CNTR = false
      rw [CHECKBIT_CLEARBIT _ _ _ (by decide) hmj, CHECKBIT_CLEARBIT _ _ _ (by decide) hmj]
      simp
  · intro hstp hpwm h5 x1 e1 e2 e3 e4 e5
    have hb : ∀ y : extern_t, y.stpmot_is_busy = x.stpmot_is_busy →
        y.stpmot_stpcnt = x.stpmot_stpcnt →
        normal_mode_branch b y d c = normal_mode_branch b x d c := by
      intro y g1 g2
      rw [normal_mode_branch_manual b y d c hman, normal_mode_branch_manual b x d c hman,
        sm_motion_control_feedback b x y _ c _ g1 g2]
    rw [choke_control_eq_sm b x d c hstp hpwm,
      choke_control_eq_sm b x1 d c (by rw [e4]; exact hstp) (by rw [e5]; exact hpwm),
      choke_control_sm_state5 b x d c h5, choke_control_sm_state5 b x1 d c h5]
    unfold normal_mode
    rw [hb x1 e1 e2]
    unfold check_pwr
    rw [e3]
  · intro hstp hpwm h5 htst hdelta hidle hflag hp0 hp1 hS r hr
    rw [choke_control_eq_sm b x d c hstp hpwm, choke_control_sm_state5 b x d c h5] at hr
    obtain ⟨_, _, e2⟩ := normal_mode_eq_some b x d c r hr
    rw [e2, normal_mode_branch_manual b x d c hman, if_neg (by simp [htst]), hdelta]
    show (sm_motion_control b x _ c (i16 (c.smpos + 0))).2 = []
    rw [sm_motion_control_idle16 b x _ c _ hflag hidle]
    have e16 : i16 (c.smpos + 0) = c.smpos := by unfold i16; omega
    have eS : i16 d.param.sm_steps = d.param.sm_steps := by unfold i16; omega
    have hz : i16 (restrict_value_to (i16 (c.smpos + 0)) 0
        (i16 ({ d with choke_manpos_d := 0 } : ecudata_t).param.sm_steps) - c.smpos) = 0 := by
      show i16 (restrict_value_to (i16 (c.smpos + 0)) 0 (i16 d.param.sm_steps) - c.smpos) = 0
      rw [e16, eS, restrict_value_to_inside _ _ _ hp0 hp1]
      unfold i16; omega
    rw [if_pos hz]
  · intro hstp hpwm h5 htst hdelta hidle hflag hp0 hp1 hS p hp hp32 r hr
    have hpge : 0 ≤ p := by
      rw [hp]
      split_ifs <;> (unfold u16; omega)
    rw [choke_control_eq_sm b x d c hstp hpwm, choke_control_sm_state5 b x d c h5] at hr
    obtain ⟨_, e1, e2⟩ := normal_mode_eq_some b x d c r hr
    have hsm : ∀ s : choke_st_t, (check_pwr x s).smpos = s.smpos ∧
        (check_pwr x s).smpos_prev = s.smpos_prev := by
      intro s
      unfold check_pwr
      split_ifs <;> exact ⟨rfl, rfl⟩
    have e16 : i16 (c.smpos + 0) = c.smpos := by unfold i16; omega
    have eS : i16 d.param.sm_steps = d.param.sm_steps := by unfold i16; omega
    have ed : i16 (c.smpos - p) = c.smpos - p := by unfold i16; omega
    have ep : i16 p = p := by unfold i16; omega
    have hcl : restrict_value_to (i16 (c.smpos + 0)) 0 (i16 d.param.sm_steps) = c.smpos := by
      rw [e16, eS, restrict_value_to_inside _ _ _ hp0 hp1]
    have hbr : normal_mode_branch b x d c =
        ((sm_motion_control b x { d with choke_manpos_d := 0 } c (i16 (c.smpos + 0))).1,
         { d with choke_manpos_d := 0 },
         (sm_motion_control b x { d with choke_manpos_d := 0 } c (i16 (c.smpos + 0))).2) := by
      rw [normal_mode_branch_manual b x d c hman, if_neg (by simp [htst]), hdelta]
    have r1 : r.1 = check_pwr x
        (sm_motion_control b x { d with choke_manpos_d := 0 } c (i16 (c.smpos + 0))).1 := by
      rw [e1, hbr]
    have r2 : r.2.2 =
        (sm_motion_control b x { d with choke_manpos_d := 0 } c (i16 (c.smpos + 0))).2 := by
      rw [e2, hbr]
    have hsmc : sm_motion_control b x { d with choke_manpos_d := 0 } c (i16 (c.smpos + 0)) =
        if c.smpos - p = 0 then
          ({ c with smpos := p, flags := CLEARBIT c.flags (CF_SMDIR_CHG b) }, [])
        else
          ({ c with
             cur_dir := if c.smpos - p < 0 then SM_DIR_CW else SM_DIR_CCW,
             smpos_prev := p, smpos := c.smpos,
             flags := CLEARBIT c.flags (CF_SMDIR_CHG b) },
           [cmd_t.stpmot_dir (if c.smpos - p < 0 then SM_DIR_CW else SM_DIR_CCW),
            cmd_t.stpmot_run |c.smpos - p|]) := by
      rw [sm_motion_control_pending_idle b x _ c _ hflag hidle, ← hp,
        sm_motion_control_idle16 b x _ _ _ (CHECKBIT_CLEARBIT_SMDIR_CHG b c.flags) hidle]
      show (if i16 (restrict_value_to (i16 (c.smpos + 0)) 0 (i16 d.param.sm_steps) - p) = 0
        then ({ c with smpos := p, flags := CLEARBIT c.flags (CF_SMDIR_CHG b) }, [])
        else
          ({ c with
             cur_dir := if i16 (restrict_value_to (i16 (c.smpos + 0)) 0
                 (i16 d.param.sm_steps) - p) < 0 then SM_DIR_CW else SM_DIR_CCW,
             smpos_prev := i16 p,
             smpos := restrict_value_to (i16 (c.smpos + 0)) 0 (i16 d.param.sm_steps),
             flags := CLEARBIT c.flags (CF_SMDIR_CHG b) },
           [cmd_t.stpmot_dir (if i16 (restrict_value_to (i16 (c.smpos + 0)) 0
                 (i16 d.param.sm_steps) - p) < 0 then SM_DIR_CW else SM_DIR_CCW),
            cmd_t.stpmot_run |i16 (restrict_value_to (i16 (c.smpos + 0)) 0
                 (i16 d.param.sm_steps) - p)|])) = _
      rw [hcl, ed, ep]
    rw [r1, r2, hsmc]
    refine ⟨?_, ?_⟩
    · intro heq
      rw [if_pos (by omega)]
      exact ⟨rfl, (hsm _).1⟩
    · intro hne
      rw [if_neg (by omega)]
      refine ⟨?_, (hsm _).1, (hsm _).2⟩
      show [cmd_t.stpmot_dir (if c.smpos - p < 0 then SM_DIR_CW else SM_DIR_CCW),
        cmd_t.stpmot_run |c.smpos - p|] = _
      by_cases hlt : c.smpos < p
      · rw [if_pos (by omega), if_pos hlt]
      · rw [if_neg (by omega), if_neg hlt]

/-- C39 at a concrete input: a normal-mode tick with the manual-override flag
set, delta 0 and the actuator idle has a result and leaves the flag set. -/
theorem C39_manual_latch_witness :
    (choke_control ex_build ex_feedback ex_ecudata
        { ex_chks with state := 5, flags := 2, smpos := 50 }).isSome = true ∧
    (∀ r, choke_control ex_build ex_feedback ex_ecudata
        { ex_chks with state := 5, flags := 2, smpos := 50 } = some r →
      CHECKBIT r.1.flags CF_MAN_CNTR = true) :=
  ⟨(C39_manual_latch ex_build ex_feedback ex_ecudata
      { ex_chks with state := 5, flags := 2, smpos := 50 } (by decide)).2.1 (by decide),
   (C39_manual_latch ex_build ex_feedback ex_ecudata
      { ex_chks with state := 5, flags := 2, smpos := 50 } (by decide)).1⟩

/-- C39 as stated fails with a reversal pending: in the normal mode with the
manual-override flag set, manual delta 0 and the actuator idle, a tick that
resolves a pending reversal (motion start 50, stored target 100, closing, 20
steps reported) recomputes the position as 70 and commands the motion back to
the stored target: direction closing and run(30).  It also fails with a test
request: with no reversal pending and the tracked position 50 the tick issues
the seek, direction opening and run(206). -/
theorem C39_counterexample :
    CHECKBIT (10 : Nat) CF_MAN_CNTR = true ∧ ex_ecudata.choke_manpos_d = 0 ∧
    ex_feedback.stpmot_is_busy = false ∧
    (choke_control ex_build { ex_feedback with stpmot_stpcnt := 20 } ex_ecudata
        { ex_chks with
          state := 5, flags := 10, smpos := 100, smpos_prev := 50,
          cur_dir := SM_DIR_CCW }).map (fun r => r.2.2) =
      some [cmd_t.stpmot_dir SM_DIR_CCW, cmd_t.stpmot_run 30] ∧
    CHECKBIT (2 : Nat) CF_MAN_CNTR = true ∧
    (choke_control ex_build ex_feedback { ex_ecudata with choke_testing := 1 }
        { ex_chks with state := 5, flags := 2, smpos := 50 }).map (fun r => r.2.2) =
      some [cmd_t.stpmot_dir SM_DIR_CW, cmd_t.stpmot_run 206] := by
  decide

/-- C40: on a regulator tick in the run mode (closed loop configured) where
the closed-loop flag is clear before the hysteresis step and stays clear (the
engine mode is not idle or the instantaneous RPM is not below the first
threshold), `calc_sm_position` leaves the accumulator and the previous RPM
error unchanged and writes only the regulator timestamp (and the phase, when
the engine is not running); the lookup curves are not consulted (the result is
the same for every lookup function), and the returned value is the conversion
of the unchanged accumulator. -/
theorem C40_open_hold (b : build_t) (x : extern_t) (d : ecudata_t) (c : choke_st_t)
    (pwm : Int) (hFI : b.FUEL_INJECT = true) (hm : c.strt_mode = 2)
    (hreg : CHECKBIT d.param.idl_flags IRF_USE_INJREG = true)
    (hcad : u16 (u16 x.s_timer_gtc - c.rpmreg_t1) ≥ RPMREG_CORR_TIME)
    (hbefore : CHECKBIT c.flags CF_CL_LOOP = false)
    (hafter : CHECKBIT (calc_sm_position b x d c pwm).2.1.flags CF_CL_LOOP = false) :
    ¬ (d.engine_mode = EM_IDLE ∧
      d.sens.inst_frq < iac_rpm_thrd (iac_target_rpm b x d) d.param.idl_coef_thrd1) ∧
    (calc_sm_position b x d c pwm).2.1 =
      (if d.st_block = 0 then { c with rpmreg_t1 := u16 x.s_timer_gtc, strt_mode := 0 }
       else { c with rpmreg_t1 := u16 x.s_timer_gtc }) ∧
    (calc_sm_position b x d c pwm).2.1.iac_pos = c.iac_pos ∧
    (calc_sm_position b x d c pwm).2.1.prev_rpm_error = c.prev_rpm_error ∧
    (calc_sm_position b x d c pwm).1 =
      (if pwm ≠ 0 then i16 ((i32 (256 * c.iac_pos)).tdiv 800)
       else i16 ((i32 (d.param.sm_steps * c.iac_pos)).tdiv 800)) ∧
    (calc_sm_position b x d c pwm).2.2 = d ∧
    (∀ f : ecudata_t → Int → Int → Int × Int,
      calc_sm_position b { x with inj_iac_pos_lookup := f } d c pwm =
        calc_sm_position b x d c pwm) := by
  obtain ⟨_, _, t3, _⟩ := calc_sm_position_tick_fields b x d c pwm hFI hm hreg hcad
  rw [iac_closed_loop_eq, (iac_regulator_frame x d _ _).1] at t3
  rw [t3] at hafter
  have hno : ¬ (d.engine_mode = EM_IDLE ∧
      d.sens.inst_frq < iac_rpm_thrd (iac_target_rpm b x d) d.param.idl_coef_thrd1) := by
    intro h
    have h1 := (iac_hysteresis_inactive d (iac_target_rpm b x d)
      { c with rpmreg_t1 := u16 x.s_timer_gtc } hbefore).1.mpr h
    rw [hafter] at h1
    exact absurd h1 (by decide)
  have hcl : ∀ x1 : extern_t, x1.s_timer_gtc = x.s_timer_gtc →
      x1.IOP_SPDSENS = x.IOP_SPDSENS → x1.inj_idling_rpm = x.inj_idling_rpm →
      iac_closed_loop b x1 d c = { c with rpmreg_t1 := u16 x.s_timer_gtc } := by
    intro x1 e1 e2 e3
    have et : iac_target_rpm b x1 d = iac_target_rpm b x d := by
      unfold iac_target_rpm
      rw [e2, e3]
    rw [iac_closed_loop_eq, et, e1]
    have hh : iac_hysteresis d (iac_target_rpm b x d)
        { c with rpmreg_t1 := u16 x.s_timer_gtc } =
        { c with rpmreg_t1 := u16 x.s_timer_gtc } := by
      unfold iac_hysteresis
      rw [if_neg (fun h => hno h.2), if_neg (fun h => by
        have h1 : CHECKBIT c.flags CF_CL_LOOP = true := h.1
        rw [hbefore] at h1
        exact absurd h1 (by decide))]
    rw [hh]
    exact iac_regulator_inactive _ _ _ _ hbefore
  have hcalc : ∀ x1 : extern_t, x1.s_timer_gtc = x.s_timer_gtc →
      x1.IOP_SPDSENS = x.IOP_SPDSENS → x1.inj_idling_rpm = x.inj_idling_rpm →
      calc_sm_position b x1 d c pwm =
        if pwm ≠ 0 then (i16 ((i32 (256 * c.iac_pos)).tdiv 800),
          (if d.st_block = 0 then { c with rpmreg_t1 := u16 x.s_timer_gtc, strt_mode := 0 }
           else { c with rpmreg_t1 := u16 x.s_timer_gtc }), d)
        else (i16 ((i32 (d.param.sm_steps * c.iac_pos)).tdiv 800),
          (if d.st_block = 0 then { c with rpmreg_t1 := u16 x.s_timer_gtc, strt_mode := 0 }
           else { c with rpmreg_t1 := u16 x.s_timer_gtc }), d) := by
    intro x1 e1 e2 e3
    have hu : iac_position_update b x1 d c =
        (if d.st_block = 0 then { c with rpmreg_t1 := u16 x.s_timer_gtc, strt_mode := 0 }
         else { c with rpmreg_t1 := u16 x.s_timer_gtc }) := by
      rw [iac_position_update_run b x1 d c hm,
        iac_run_mode_tick b x1 d c hreg (by rw [e1]; exact hcad), hcl x1 e1 e2 e3]
    unfold calc_sm_position
    rw [if_pos hFI]
    simp only []
    rw [hu]
    split_ifs <;> rfl
  have h := hcalc x rfl rfl rfl
  refine ⟨hno, ?_, ?_, ?_, ?_, ?_, ?_⟩
  · rw [h]; split_ifs <;> rfl
  · rw [h]; split_ifs <;> rfl
  · rw [h]; split_ifs <;> rfl
  · rw [h]; split_ifs <;> rfl
  · rw [h]; split_ifs <;> rfl
  · intro f
    exact (hcalc { x with inj_iac_pos_lookup := f } rfl rfl rfl).trans h.symm

/-- C40 at a concrete input: run mode, closed loop configured but inactive,
engine mode not idle: the accumulator stays at 400 although the run curve
gives 0. -/
theorem C40_open_hold_witness :
    (calc_sm_position ex_build_inj ex_feedback_idle
        { ex_ecudata_idle with engine_mode := 2 }
        { ex_chks_loop with flags := 0 } 0).2.1.iac_pos = 400 :=
  (C40_open_hold ex_build_inj ex_feedback_idle { ex_ecudata_idle with engine_mode := 2 }
    { ex_chks_loop with flags := 0 } 0 rfl rfl (by decide) (by decide) (by decide)
    (by decide)).2.2.1

/-! ## The range of the accumulator (injection build) -/

/-- C28 (amended): in the injection build, provided the lookup curves return
values in 0..200: (a) if the accumulator is within 0..800 before the call, it
is within 0..800 after every call of `calc_sm_position` other than a regulator
tick that leaves the closed loop (run mode, closed loop configured, cadence
elapsed, closed loop active, engine mode not idle or instantaneous RPM above
the second threshold); (b) after such a tick it is the 16-bit sum of the
accumulator and `4 * idl_to_run_add`, not restricted to 0..800: from a value
in 0..800 and `idl_to_run_add` in 0..255 the plain sum, at most 1820; (c)
after every regulator tick that ends with the closed loop active it is within
0..800 whatever it was before; (d) so it is after every call that looks up a
curve (phase CRANK, the crank-to-run interpolation, the run mode without the
closed loop configured), whatever it was before; (e) every other call leaves
it unchanged. -/
theorem C28_accumulator_range (b : build_t) (x : extern_t) (d : ecudata_t) (c : choke_st_t)
    (pwm : Int) (hFI : b.FUEL_INJECT = true)
    (hlook : ∀ (d1 : ecudata_t) (t m : Int), u8 (x.inj_iac_pos_lookup d1 t m).1 ≤ 200) :
    ((0 ≤ c.iac_pos ∧ c.iac_pos ≤ 800) →
      ¬ (c.strt_mode = 2 ∧ CHECKBIT d.param.idl_flags IRF_USE_INJREG = true ∧
        u16 (u16 x.s_timer_gtc - c.rpmreg_t1) ≥ RPMREG_CORR_TIME ∧
        CHECKBIT c.flags CF_CL_LOOP = true ∧
        (d.engine_mode ≠ EM_IDLE ∨
          d.sens.inst_frq > iac_rpm_thrd (iac_target_rpm b x d) d.param.idl_coef_thrd2)) →
      0 ≤ (calc_sm_position b x d c pwm).2.1.iac_pos ∧
      (calc_sm_position b x d c pwm).2.1.iac_pos ≤ 800) ∧
    ((c.strt_mode = 2 ∧ CHECKBIT d.param.idl_flags IRF_USE_INJREG = true ∧
        u16 (u16 x.s_timer_gtc - c.rpmreg_t1) ≥ RPMREG_CORR_TIME ∧
        CHECKBIT c.flags CF_CL_LOOP = true ∧
        (d.engine_mode ≠ EM_IDLE ∨
          d.sens.inst_frq > iac_rpm_thrd (iac_target_rpm b x d) d.param.idl_coef_thrd2)) →
      (calc_sm_position b x d c pwm).2.1.iac_pos =
        i16 (c.iac_pos + u16 (u16 d.param.idl_to_run_add * 4)) ∧
      ((0 ≤ c.iac_pos ∧ c.iac_pos ≤ 800) →
        0 ≤ d.param.idl_to_run_add → d.param.idl_to_run_add ≤ 255 →
        (calc_sm_position b x d c pwm).2.1.iac_pos = c.iac_pos + 4 * d.param.idl_to_run_add ∧
        (calc_sm_position b x d c pwm).2.1.iac_pos ≤ 1820)) ∧
    (c.strt_mode = 2 → CHECKBIT d.param.idl_flags IRF_USE_INJREG = true →
      u16 (u16 x.s_timer_gtc - c.rpmreg_t1) ≥ RPMREG_CORR_TIME →
      CHECKBIT (calc_sm_position b x d c pwm).2.1.flags CF_CL_LOOP = true →
      0 ≤ (calc_sm_position b x d c pwm).2.1.iac_pos ∧
      (calc_sm_position b x d c pwm).2.1.iac_pos ≤ 800) ∧
    ((c.strt_mode = 0 ∨
        (c.strt_mode = 1 ∧
          u16 (u16 x.s_timer_gtc - c.strt_t1) < d.param.inj_cranktorun_time) ∨
        (c.strt_mode = 1 ∧
          u16 (u16 x.s_timer_gtc - c.strt_t1) ≥ d.param.inj_cranktorun_time ∧
          CHECKBIT d.param.idl_flags IRF_USE_INJREG = false) ∨
        (c.strt_mode = 2 ∧ CHECKBIT d.param.idl_flags IRF_USE_INJREG = false)) →
      0 ≤ (calc_sm_position b x d c pwm).2.1.iac_pos ∧
      (calc_sm_position b x d c pwm).2.1.iac_pos ≤ 800) ∧
    (((c.strt_mode = 1 ∧
          u16 (u16 x.s_timer_gtc - c.strt_t1) ≥ d.param.inj_cranktorun_time ∧
          CHECKBIT d.param.idl_flags IRF_USE_INJREG = true) ∨
        (c.strt_mode = 2 ∧ CHECKBIT d.param.idl_flags IRF_USE_INJREG = true ∧
          u16 (u16 x.s_timer_gtc - c.rpmreg_t1) < RPMREG_CORR_TIME) ∨
        (c.strt_mode = 2 ∧ CHECKBIT d.param.idl_flags IRF_USE_INJREG = true ∧
          u16 (u16 x.s_timer_gtc - c.rpmreg_t1) ≥ RPMREG_CORR_TIME ∧
          CHECKBIT c.flags CF_CL_LOOP = false ∧
          CHECKBIT (calc_sm_position b x d c pwm).2.1.flags CF_CL_LOOP = false) ∨
        (c.strt_mode ≠ 0 ∧ c.strt_mode ≠ 1 ∧ c.strt_mode ≠ 2)) →
      (calc_sm_position b x d c pwm).2.1.iac_pos = c.iac_pos) := by
  have hz : u16 (u16 x.s_timer_gtc - u16 x.s_timer_gtc) < RPMREG_CORR_TIME := by
    have e : u16 (u16 x.s_timer_gtc - u16 x.s_timer_gtc) = 0 := by unfold u16; omega
    rw [e]
    decide
  have hopen : ∀ c1 : choke_st_t, CHECKBIT d.param.idl_flags IRF_USE_INJREG = false →
      0 ≤ (iac_run_mode b x d c1).iac_pos ∧ (iac_run_mode b x d c1).iac_pos ≤ 800 := by
    intro c1 hreg
    rw [iac_run_mode_open b x d c1 hreg]
    split_ifs <;> exact iac_lookup_range _ (hlook _ _ _)
  have hlooks : (c.strt_mode = 0 ∨
        (c.strt_mode = 1 ∧
          u16 (u16 x.s_timer_gtc - c.strt_t1) < d.param.inj_cranktorun_time) ∨
        (c.strt_mode = 1 ∧
          u16 (u16 x.s_timer_gtc - c.strt_t1) ≥ d.param.inj_cranktorun_time ∧
          CHECKBIT d.param.idl_flags IRF_USE_INJREG = false) ∨
        (c.strt_mode = 2 ∧ CHECKBIT d.param.idl_flags IRF_USE_INJREG = false)) →
      0 ≤ (iac_position_update b x d c).iac_pos ∧
      (iac_position_update b x d c).iac_pos ≤ 800 := by
    intro h
    rcases h with h0 | ⟨h1, ht⟩ | ⟨h1, ht, hreg⟩ | ⟨h2, hreg⟩
    · rw [iac_position_update_crank b x d c h0]
      split_ifs <;> exact iac_lookup_range _ (hlook _ _ _)
    · rw [(iac_position_update_interp b x d c h1 ht).2]
      have hb := restrict_value_to_bounds
        (i16 (u8 (x.inj_iac_pos_lookup d
            (i16 (x.inj_iac_pos_lookup d c.prev_temp 0).2) 1).1 -
          (i32 (i32 (i16 (u8 (x.inj_iac_pos_lookup d
              (i16 (x.inj_iac_pos_lookup d c.prev_temp 0).2) 1).1 -
              u8 (x.inj_iac_pos_lookup d c.prev_temp 0).1) *
            u16 (d.param.inj_cranktorun_time -
              u16 (u16 x.s_timer_gtc - c.strt_t1))) * 128)).tdiv
            d.param.inj_cranktorun_time / 128)) 0 (100 * 2) (by norm_num)
      generalize restrict_value_to _ 0 (100 * 2) = w at hb
      unfold i16
      omega
    · rw [iac_position_update_elapsed b x d c h1 ht]
      exact hopen _ hreg
    · rw [iac_position_update_run b x d c h2]
      exact hopen _ hreg
  have hactive : c.strt_mode = 2 → CHECKBIT d.param.idl_flags IRF_USE_INJREG = true →
      u16 (u16 x.s_timer_gtc - c.rpmreg_t1) ≥ RPMREG_CORR_TIME →
      CHECKBIT (calc_sm_position b x d c pwm).2.1.flags CF_CL_LOOP = true →
      0 ≤ (calc_sm_position b x d c pwm).2.1.iac_pos ∧
      (calc_sm_position b x d c pwm).2.1.iac_pos ≤ 800 := by
    intro hm hreg hcad hon
    obtain ⟨t1, _, t3, _⟩ := calc_sm_position_tick_fields b x d c pwm hFI hm hreg hcad
    rw [iac_closed_loop_eq] at t1 t3
    rw [t3, (iac_regulator_frame x d _ _).1] at hon
    rw [t1]
    exact iac_regulator_range x d _ _ hon
  have hsame : ((c.strt_mode = 1 ∧
          u16 (u16 x.s_timer_gtc - c.strt_t1) ≥ d.param.inj_cranktorun_time ∧
          CHECKBIT d.param.idl_flags IRF_USE_INJREG = true) ∨
        (c.strt_mode = 2 ∧ CHECKBIT d.param.idl_flags IRF_USE_INJREG = true ∧
          u16 (u16 x.s_timer_gtc - c.rpmreg_t1) < RPMREG_CORR_TIME) ∨
        (c.strt_mode = 2 ∧ CHECKBIT d.param.idl_flags IRF_USE_INJREG = true ∧
          u16 (u16 x.s_timer_gtc - c.rpmreg_t1) ≥ RPMREG_CORR_TIME ∧
          CHECKBIT c.flags CF_CL_LOOP = false ∧
          CHECKBIT (calc_sm_position b x d c pwm).2.1.flags CF_CL_LOOP = false) ∨
        (c.strt_mode ≠ 0 ∧ c.strt_mode ≠ 1 ∧ c.strt_mode ≠ 2)) →
      (calc_sm_position b x d c pwm).2.1.iac_pos = c.iac_pos := by
    intro h
    rcases h with ⟨h1, ht, hreg⟩ | ⟨h2, hreg, hc⟩ | ⟨h2, hreg, hcad, hbefore, hafter⟩ |
      ⟨n0, n1, n2⟩
    · rw [calc_sm_position_state b x d c pwm hFI, iac_position_update_elapsed b x d c h1 ht,
        iac_run_mode_hold b x d { c with strt_mode := 2, rpmreg_t1 := u16 x.s_timer_gtc }
          hreg hz]
    · rw [calc_sm_position_state b x d c pwm hFI, iac_position_update_run b x d c h2,
        iac_run_mode_hold b x d c hreg hc]
    · obtain ⟨t1, _, t3, _⟩ := calc_sm_position_tick_fields b x d c pwm hFI h2 hreg hcad
      rw [iac_closed_loop_eq] at t1 t3
      rw [t3, (iac_regulator_frame x d _ _).1] at hafter
      rw [t1, iac_regulator_inactive _ _ _ _ hafter]
      exact (iac_hysteresis_inactive d (iac_target_rpm b x d)
        { c with rpmreg_t1 := u16 x.s_timer_gtc } hbefore).2.1
    · rw [calc_sm_position_state b x d c pwm hFI]
      unfold iac_position_update
      rw [if_neg n0, if_neg n1, if_neg n2]
  refine ⟨?_, ?_, hactive, ?_, hsame⟩
  · intro hinv hex
    by_cases h0 : c.strt_mode = 0
    · rw [calc_sm_position_state b x d c pwm hFI]
      exact hlooks (Or.inl h0)
    by_cases h1 : c.strt_mode = 1
    · by_cases ht : u16 (u16 x.s_timer_gtc - c.strt_t1) < d.param.inj_cranktorun_time
      · rw [calc_sm_position_state b x d c pwm hFI]
        exact hlooks (Or.inr (Or.inl ⟨h1, ht⟩))
      · cases hreg : CHECKBIT d.param.idl_flags IRF_USE_INJREG
        · rw [calc_sm_position_state b x d c pwm hFI]
          exact hlooks (Or.inr (Or.inr (Or.inl ⟨h1, not_lt.mp ht, hreg⟩)))
        · rw [hsame (Or.inl ⟨h1, not_lt.mp ht, hreg⟩)]
          exact hinv
    by_cases h2 : c.strt_mode = 2
    · cases hreg : CHECKBIT d.param.idl_flags IRF_USE_INJREG
      · rw [calc_sm_position_state b x d c pwm hFI]
        exact hlooks (Or.inr (Or.inr (Or.inr ⟨h2, hreg⟩)))
      · by_cases hc : u16 (u16 x.s_timer_gtc - c.rpmreg_t1) < RPMREG_CORR_TIME
        · rw [hsame (Or.inr (Or.inl ⟨h2, hreg, hc⟩))]
          exact hinv
        · cases hafter : CHECKBIT (calc_sm_position b x d c pwm).2.1.flags CF_CL_LOOP
          · cases hbefore : CHECKBIT c.flags CF_CL_LOOP
            · rw [hsame (Or.inr (Or.inr (Or.inl ⟨h2, hreg, not_lt.mp hc, hbefore, hafter⟩)))]
              exact hinv
            · exfalso
              apply hex
              refine ⟨h2, hreg, not_lt.mp hc, hbefore, ?_⟩
              obtain ⟨_, _, t3, _⟩ :=
                calc_sm_position_tick_fields b x d c pwm hFI h2 hreg (not_lt.mp hc)
              rw [iac_closed_loop_eq] at t3
              rw [t3, (iac_regulator_frame x d _ _).1] at hafter
              exact (iac_hysteresis_active d (iac_target_rpm b x d)
                { c with rpmreg_t1 := u16 x.s_timer_gtc } hbefore).1.mp hafter
          · exact hactive h2 hreg (not_lt.mp hc) hafter
    · rw [hsame (Or.inr (Or.inr (Or.inr ⟨h0, h1, h2⟩)))]
      exact hinv
  · intro hex
    obtain ⟨hm, hreg, hcad, hcl, hcond⟩ := hex
    obtain ⟨t1, _, _, _⟩ := calc_sm_position_tick_fields b x d c pwm hFI hm hreg hcad
    rw [iac_closed_loop_eq] at t1
    obtain ⟨a1, a2, _, _⟩ := iac_hysteresis_active d (iac_target_rpm b x d)
      { c with rpmreg_t1 := u16 x.s_timer_gtc } hcl
    rw [iac_regulator_inactive _ _ _ _ (a1.mpr hcond), a2 hcond] at t1
    refine ⟨t1, ?_⟩
    intro hinv h0 h1
    rw [t1]
    show i16 (c.iac_pos + u16 (u16 d.param.idl_to_run_add * 4)) = _ ∧
      i16 (c.iac_pos + u16 (u16 d.param.idl_to_run_add * 4)) ≤ 1820
    unfold i16 u16
    omega
  · intro h
    rw [calc_sm_position_state b x d c pwm hFI]
    exact hlooks h

/-- C28 at a concrete input: a regulator tick that enters the closed loop
with the accumulator at 1000 (the value left by the tick that left the closed
loop) brings it back to 800. -/
theorem C28_accumulator_range_witness :
    (calc_sm_position ex_build_inj ex_feedback_idle ex_ecudata_idle
        { ex_chks_loop with iac_pos := 1000, flags := 0 } 0).2.1.iac_pos = 800 ∧
    (0 ≤ (calc_sm_position ex_build_inj ex_feedback_idle ex_ecudata_idle
        { ex_chks_loop with iac_pos := 1000, flags := 0 } 0).2.1.iac_pos ∧
      (calc_sm_position ex_build_inj ex_feedback_idle ex_ecudata_idle
        { ex_chks_loop with iac_pos := 1000, flags := 0 } 0).2.1.iac_pos ≤ 800) :=
  ⟨by decide,
   (C28_accumulator_range ex_build_inj ex_feedback_idle ex_ecudata_idle
      { ex_chks_loop with iac_pos := 1000, flags := 0 } 0 rfl
      (fun _ _ _ => by show u8 0 ≤ 200; decide)).2.2.1 rfl (by decide) (by decide)
      (by decide)⟩

/-- C28 as stated fails on the tick that leaves the closed loop: from run
mode with the closed loop active and the accumulator at 800, with lookup
curves that return 0, a regulator tick with the engine mode not idle and
`idl_to_run_add = 50` leaves the accumulator at 1000. -/
theorem C28_counterexample :
    (∀ (d1 : ecudata_t) (t m : Int), u8 (ex_feedback_idle.inj_iac_pos_lookup d1 t m).1 ≤ 200) ∧
    (calc_sm_position ex_build_inj ex_feedback_idle
        { ex_ecudata_idle with engine_mode := 2 }
        { ex_chks_loop with iac_pos := 800 } 0).2.1.iac_pos = 1000 ∧
    ¬ (1000 : Int) ≤ 800 :=
  ⟨fun _ _ _ => by show u8 0 ≤ 200; decide, by decide, by decide⟩

end Secu3
